import Mathlib

/-!
# SAM client (`i2psam.cpp`): message codec, control socket, session, supervisor

A shallow embedding of `src/i2psam/i2psam.cpp`.

* A `std::string` is a `List Char`.
* `size_t` values are natural numbers below `2 ^ 64`; `std::string::npos` is `2 ^ 64 - 1`.
* The outside world (the SAM bridge, the operating system, `rand()`) is a record of scripts
  that the system calls consume in order: see `World`.
-/

namespace SAM

/-! ## `std::string` primitives -/

/-- The value of `std::string::npos` for a 64-bit `size_t`. -/
def npos : Nat := 2 ^ 64 - 1

/-- The text `pat` stands in `s` at index `i`. -/
def occursAt (s pat : List Char) (i : Nat) : Prop := pat <+: s.drop i

instance (s pat : List Char) (i : Nat) : Decidable (occursAt s pat i) := by
  unfold occursAt; infer_instance

/-- The scan of `std::string::find(pat)`: `i` is the index of `s` in the whole string. -/
def findAux (pat : List Char) : List Char → Nat → Nat
  | [], i => if pat = [] then i else npos
  | c :: s, i => if pat <+: (c :: s) then i else findAux pat s (i + 1)

/-- `s.find(pat)`: the index of the first occurrence of `pat` in `s`, or `npos`. -/
def find (s pat : List Char) : Nat := findAux pat s 0

/-- The scan of `find_first_of(c, pos)` over the characters from index `i` on. -/
def findCharAux (c : Char) : List Char → Nat → Nat
  | [], _ => npos
  | d :: s, i => if d = c then i else findCharAux c s (i + 1)

/-- `s.find_first_of(c, pos)`: the index of the first `c` at or after `pos`, or `npos`. -/
def find_first_of (s : List Char) (c : Char) (pos : Nat) : Nat :=
  findCharAux c (s.drop pos) pos

/-- `s.substr(pos, n)` for `pos <= s.size()` (which holds at every call in the source):
at most `n` characters starting at index `pos`. -/
def substr (s : List Char) (pos n : Nat) : List Char := (s.drop pos).take n

/-- A C string read out of a buffer: the characters before the first NUL. -/
def cstr (buf : List Char) : List Char := buf.takeWhile (fun c => c != Char.ofNat 0)

/-- Size of the formatting and receive buffers (`SAM_BUFSIZE`). -/
def SAM_BUFSIZE : Nat := 65536

/-- Length of the public part of a destination (`I2P_DESTINATION_SIZE`). -/
def I2P_DESTINATION_SIZE : Nat := 516

/-! ## Message codec -/

namespace Message

/-- The result kinds (`Message::eStatus`). -/
inductive eStatus
  | OK
  | EMPTY_ANSWER
  | CLOSED_SOCKET
  | CANNOT_PARSE_ERROR
  | DUPLICATED_DEST
  | DUPLICATED_ID
  | I2P_ERROR
  | INVALID_ID
  | INVALID_KEY
  | CANT_REACH_PEER
  | TIMEOUT
  | NOVERSION
  | KEY_NOT_FOUND
  | PEER_NOT_FOUND
  | ALREADY_ACCEPTING
  deriving DecidableEq, Repr

/-- `Message::Answer<T>`: a status with a value. -/
structure Answer (α : Type) where
  status : eStatus
  value : α

/-- `Message::getValue`. -/
def getValue (answer key : List Char) : List Char :=
  if key = [] then []
  else
    let keyPattern := key ++ "=".toList
    let valueStart := find answer keyPattern
    if valueStart = npos then []
    else
      let valueStart := (valueStart + keyPattern.length) % 2 ^ 64
      let valueEnd := find_first_of answer ' ' valueStart
      let valueEnd := if valueEnd = npos then find_first_of answer '\n' valueStart else valueEnd
      substr answer valueStart ((valueEnd + 2 ^ 64 - valueStart) % 2 ^ 64)

/-- `Message::checkAnswer`: the chain of `SAM_CHECK_RESULT` tests on the `RESULT` value. -/
def checkAnswer (answer : List Char) : eStatus :=
  if answer = [] then eStatus.EMPTY_ANSWER
  else
    let result := getValue answer "RESULT".toList
    if result = "OK".toList then eStatus.OK
    else if result = "DUPLICATED_DEST".toList then eStatus.DUPLICATED_DEST
    else if result = "DUPLICATED_ID".toList then eStatus.DUPLICATED_ID
    else if result = "I2P_ERROR".toList then eStatus.I2P_ERROR
    else if result = "INVALID_ID".toList then eStatus.INVALID_ID
    else if result = "INVALID_KEY".toList then eStatus.INVALID_KEY
    else if result = "CANT_REACH_PEER".toList then eStatus.CANT_REACH_PEER
    else if result = "TIMEOUT".toList then eStatus.TIMEOUT
    else if result = "NOVERSION".toList then eStatus.NOVERSION
    else if result = "KEY_NOT_FOUND".toList then eStatus.KEY_NOT_FOUND
    else if result = "PEER_NOT_FOUND".toList then eStatus.PEER_NOT_FOUND
    else if result = "ALREADY_ACCEPTING".toList then eStatus.ALREADY_ACCEPTING
    else eStatus.CANNOT_PARSE_ERROR

/-- The session styles (`Message::SessionStyle`). -/
inductive SessionStyle
  | sssStream
  | sssDatagram
  | sssRaw
  deriving DecidableEq, Repr

/-- `Message::createSAMRequest`, applied to the text the format expands to: `vsnprintf` writes at
most `SAM_BUFSIZE - 1` characters into the zeroed buffer, which is then read as a C string. -/
def createSAMRequest (formatted : List Char) : List Char :=
  cstr (formatted.take (SAM_BUFSIZE - 1))

/-- The text of `silent ? "true" : "false"`. -/
def boolText (silent : Bool) : List Char :=
  if silent then "true".toList else "false".toList

/-- `Message::hello`. -/
def hello (minVer maxVer : List Char) : List Char :=
  createSAMRequest
    ("HELLO VERSION MIN=".toList ++ cstr minVer ++ " MAX=".toList ++ cstr maxVer ++ "\n".toList)

/-- `Message::sessionCreate`. -/
def sessionCreate (style : SessionStyle) (sessionID nickname destination options : List Char) :
    List Char :=
  let sessionStyle : List Char :=
    match style with
    | SessionStyle.sssStream => "STREAM".toList
    | SessionStyle.sssDatagram => "DATAGRAM".toList
    | SessionStyle.sssRaw => "RAW".toList
  createSAMRequest
    ("SESSION CREATE STYLE=".toList ++ cstr sessionStyle ++ " ID=".toList ++ cstr sessionID
      ++ " DESTINATION=".toList ++ cstr destination ++ " inbound.nickname=".toList
      ++ cstr nickname ++ " ".toList ++ cstr options ++ "\n".toList)

/-- `Message::streamAccept`. -/
def streamAccept (sessionID : List Char) (silent : Bool) : List Char :=
  createSAMRequest
    ("STREAM ACCEPT ID=".toList ++ cstr sessionID ++ " SILENT=".toList ++ boolText silent
      ++ "\n".toList)

/-- `Message::streamConnect`. -/
def streamConnect (sessionID destination : List Char) (silent : Bool) : List Char :=
  createSAMRequest
    ("STREAM CONNECT ID=".toList ++ cstr sessionID ++ " DESTINATION=".toList ++ cstr destination
      ++ " SILENT=".toList ++ boolText silent ++ "\n".toList)

/-- `Message::streamForward`; `port` is a `uint16_t` printed with `%u`. -/
def streamForward (sessionID host : List Char) (port : Nat) (silent : Bool) : List Char :=
  createSAMRequest
    ("STREAM FORWARD ID=".toList ++ cstr sessionID ++ " PORT=".toList ++ (Nat.repr port).toList
      ++ " HOST=".toList ++ cstr host ++ " SILENT=".toList ++ boolText silent ++ "\n".toList)

/-- `Message::namingLookup`. -/
def namingLookup (name : List Char) : List Char :=
  createSAMRequest ("NAMING LOOKUP NAME=".toList ++ cstr name ++ "\n".toList)

/-- `Message::destGenerate`. -/
def destGenerate : List Char :=
  createSAMRequest "DEST GENERATE\n".toList

end Message

open Message (eStatus Answer)

/-! ## The outside world -/

/-- What `send` returns: `SAM_SOCKET_ERROR`, or the number of bytes sent. -/
inductive SendResult
  | error
  | sent (n : Nat)
  deriving DecidableEq, Repr

/-- The environment of a run. Every system call takes the next entry of its script; a script
that has run out answers with failure.

* `connects`: one entry per `Socket::init`: the descriptor when `socket` and `connect` both
  succeed, `none` when either fails;
* `sends`: what each `send` returns;
* `recvs`: what each `recv` delivers: `none` for `SAM_SOCKET_ERROR`, else the bytes received;
* `rand`: the values of the successive `rand()` calls;
* `log`: the messages handed to `send` so far, oldest first. -/
structure World where
  connects : List (Option Nat)
  sends : List SendResult
  recvs : List (Option (List Char))
  rand : List Nat
  log : List (List Char)
  deriving DecidableEq, Repr

/-- One `socket` + `connect`. -/
def World.connect (w : World) : Option Nat × World :=
  match w.connects with
  | [] => (none, w)
  | r :: rest => (r, { w with connects := rest })

/-- One `send` of `msg`. -/
def World.send (w : World) (msg : List Char) : SendResult × World :=
  match w.sends with
  | [] => (SendResult.error, { w with log := w.log ++ [msg] })
  | r :: rest => (r, { w with sends := rest, log := w.log ++ [msg] })

/-- One `recv`. -/
def World.recv (w : World) : Option (List Char) × World :=
  match w.recvs with
  | [] => (none, w)
  | r :: rest => (r, { w with recvs := rest })

/-! ## Control socket -/

/-- The resolved address: the host text given to `inet_addr` and the port given to `htons`. -/
structure sockaddr_in where
  sin_addr : List Char
  sin_port : Nat
  deriving DecidableEq, Repr

/-- Class `Socket`. `socket_` is `none` for `SAM_INVALID_SOCKET`; `SAMPort_` is `none` when a
constructor left the member uninitialised. -/
structure Socket where
  socket_ : Option Nat
  servAddr_ : sockaddr_in
  SAMHost_ : List Char
  SAMPort_ : Option Nat
  minVer_ : List Char
  maxVer_ : List Char
  version_ : List Char
  deriving DecidableEq, Repr

namespace Socket

/-- `Socket::isOk`. -/
def isOk (s : Socket) : Bool := s.socket_.isSome

/-- `Socket::close`. -/
def close (s : Socket) : Socket := { s with socket_ := none }

/-- `Socket::release`. -/
def release (s : Socket) : Option Nat × Socket := (s.socket_, { s with socket_ := none })

/-- `Socket::init`. -/
def init (s : Socket) (w : World) : Socket × World :=
  ({ s with socket_ := w.connect.1 }, w.connect.2)

/-- `Socket::write`. -/
def write (s : Socket) (msg : List Char) (w : World) : Socket × World :=
  if s.isOk = false then (s, w)
  else
    match (w.send msg).1 with
    | SendResult.error => (s.close, (w.send msg).2)
    | SendResult.sent n => if n = 0 then (s.close, (w.send msg).2) else (s, (w.send msg).2)

/-- `Socket::read`: the answer, the socket and the world afterwards. When `recv` fills the
whole buffer without a NUL the source reads past the buffer; the model returns the buffer. -/
def read (s : Socket) (w : World) : List Char × Socket × World :=
  if s.isOk = false then ([], s, w)
  else
    match w.recv.1 with
    | none => ([], s.close, w.recv.2)
    | some data =>
      let buffer := data.take SAM_BUFSIZE
      (cstr buffer, if buffer.length = 0 then s.close else s, w.recv.2)

/-- `Socket::handshake`. -/
def handshake (s : Socket) (w : World) : Socket × World :=
  let wr := s.write (Message.hello s.minVer_ s.maxVer_) w
  let rd := wr.1.read wr.2
  if Message.checkAnswer rd.1 = eStatus.OK then
    ({ rd.2.1 with version_ := Message.getValue rd.1 "VERSION".toList }, rd.2.2)
  else (rd.2.1, rd.2.2)

/-- The tail shared by the three constructors: `init(); if (isOk()) handshake();`. -/
def construct (s : Socket) (w : World) : Socket × World :=
  let i := s.init w
  if i.1.isOk then i.1.handshake i.2 else i

/-- `Socket::Socket(SAMHost, SAMPort, minVer, maxVer)`. -/
def new (SAMHost : List Char) (SAMPort : Nat) (minVer maxVer : List Char) (w : World) :
    Socket × World :=
  construct
    { socket_ := none, servAddr_ := ⟨SAMHost, SAMPort⟩, SAMHost_ := SAMHost,
      SAMPort_ := some SAMPort, minVer_ := minVer, maxVer_ := maxVer, version_ := [] } w

/-- `Socket::Socket(const Socket& rhs)`: copies the address and the version range only, then
opens a connection of its own. -/
def copy (rhs : Socket) (w : World) : Socket × World :=
  construct
    { socket_ := none, servAddr_ := rhs.servAddr_, SAMHost_ := [], SAMPort_ := none,
      minVer_ := rhs.minVer_, maxVer_ := rhs.maxVer_, version_ := [] } w

end Socket

/-! ## Session -/

/-- Modelled from the spec: the header that declares `FullDestination` is not among the
sources; a destination is the pair `(pub, priv)` with the `generated` flag. -/
structure FullDestination where
  pub : List Char
  priv : List Char
  isGenerated : Bool
  deriving DecidableEq, Repr

/-- Modelled from the spec: the default-constructed `FullDestination()` of the missing header,
the blank destination (blank pair, not generated). -/
def FullDestination.blank : FullDestination := ⟨[], [], false⟩

/-- Modelled from the spec: the constant `SAM_GENERATE_MY_DESTINATION` of the missing header,
the literal `TRANSIENT`. -/
def SAM_GENERATE_MY_DESTINATION : List Char := "TRANSIENT".toList

/-- Modelled from the spec: `RequestResult<T>` of the missing header, a result value carrying
either a payload or a failure indicator. -/
structure RequestResult (α : Type) where
  isOk : Bool
  value : Option α

/-- `RequestResult(value)`. -/
def RequestResult.ok {α : Type} (v : α) : RequestResult α := ⟨true, some v⟩

/-- `RequestResult()`. -/
def RequestResult.failed {α : Type} : RequestResult α := ⟨false, none⟩

/-- A forward record (`ForwardedStream`): the subordinate socket and the triple. -/
structure ForwardedStream where
  socket : Socket
  host : List Char
  port : Nat
  silent : Bool
  deriving DecidableEq, Repr

/-- The `(host, port, silent)` triple of a forward record. -/
def ForwardedStream.triple (f : ForwardedStream) : List Char × Nat × Bool :=
  (f.host, f.port, f.silent)

/-- Class `NewStreamSession`. -/
structure NewStreamSession where
  socket_ : Socket
  nickname_ : List Char
  sessionID_ : List Char
  myDestination_ : FullDestination
  i2pOptions_ : List Char
  forwardedStreams_ : List ForwardedStream
  isSick_ : Bool
  deriving DecidableEq, Repr

namespace NewStreamSession

/-- `minSessionIDLength`. -/
def minSessionIDLength : Nat := 5

/-- `maxSessionIDLength`. -/
def maxSessionIDLength : Nat := 9

/-- `sessionIDAlphabet`. -/
def sessionIDAlphabet : List Char := "ABCDEFGHIJKLMNOPQRSTUVWXYZ".toList

/-- The loop `while (length < minSessionIDLength) length = rand() % maxSessionIDLength;`
over the values `rand()` will return; `none` when they run out before the loop ends. -/
def lengthLoop : Nat → List Nat → Option (Nat × List Nat)
  | length, [] => if length < minSessionIDLength then none else some (length, [])
  | length, r :: rest =>
    if length < minSessionIDLength then lengthLoop (r % maxSessionIDLength) rest
    else some (length, r :: rest)

/-- The loop `while (length-- > 0) result += sessionIDAlphabet[rand() % 26];`. -/
def charLoop : Nat → List Char → List Nat → Option (List Char × List Nat)
  | 0, result, rand => some (result, rand)
  | _ + 1, _, [] => none
  | length + 1, result, r :: rest =>
    charLoop length (result ++ [sessionIDAlphabet.getD (r % sessionIDAlphabet.length) 'A']) rest

/-- `NewStreamSession::generateSessionID`: the id and the values of `rand()` left over. -/
def generateSessionID (rand : List Nat) : Option (List Char × List Nat) :=
  match lengthLoop (minSessionIDLength - 1) rand with
  | none => none
  | some l => charLoop l.1 [] l.2

/-- `NewStreamSession::rawRequest`. -/
def rawRequest (socket : Socket) (requestStr : List Char) (w : World) :
    Answer (List Char) × Socket × World :=
  if socket.isOk = false then (⟨eStatus.CLOSED_SOCKET, []⟩, socket, w)
  else
    let wr := socket.write requestStr w
    let rd := wr.1.read wr.2
    (⟨Message.checkAnswer rd.1, rd.1⟩, rd.2.1, rd.2.2)

/-- `NewStreamSession::request(socket, requestStr, keyOnSuccess)`. -/
def requestKey (socket : Socket) (requestStr keyOnSuccess : List Char) (w : World) :
    Answer (List Char) × Socket × World :=
  let answer := rawRequest socket requestStr w
  if answer.1.status = eStatus.OK then
    (⟨answer.1.status, Message.getValue answer.1.value keyOnSuccess⟩, answer.2.1, answer.2.2)
  else answer

/-- `NewStreamSession::request(socket, requestStr)`. -/
def request (socket : Socket) (requestStr : List Char) (w : World) : eStatus × Socket × World :=
  let answer := rawRequest socket requestStr w
  (answer.1.status, answer.2.1, answer.2.2)

/-- The static `NewStreamSession::createStreamSession(socket, sessionID, nickname, destination,
options)`. -/
def createStreamSessionOn (socket : Socket) (sessionID nickname destination options : List Char)
    (w : World) : Answer (List Char) × Socket × World :=
  requestKey socket
    (Message.sessionCreate Message.SessionStyle.sssStream sessionID nickname destination options)
    "DESTINATION".toList w

/-- The static `NewStreamSession::namingLookup(socket, name)`. -/
def namingLookupOn (socket : Socket) (name : List Char) (w : World) :
    Answer (List Char) × Socket × World :=
  requestKey socket (Message.namingLookup name) "VALUE".toList w

/-- The static `NewStreamSession::destGenerate(socket)`. -/
def destGenerateOn (socket : Socket) (w : World) : Answer FullDestination × Socket × World :=
  if socket.isOk = false then (⟨eStatus.CLOSED_SOCKET, FullDestination.blank⟩, socket, w)
  else
    let wr := socket.write Message.destGenerate w
    let rd := wr.1.read wr.2
    let pub := Message.getValue rd.1 "PUB".toList
    let priv := Message.getValue rd.1 "PRIV".toList
    if pub ≠ [] ∧ priv ≠ [] then (⟨eStatus.OK, ⟨pub, priv, true⟩⟩, rd.2.1, rd.2.2)
    else (⟨eStatus.EMPTY_ANSWER, FullDestination.blank⟩, rd.2.1, rd.2.2)

/-- The static `NewStreamSession::accept(socket, sessionID, silent)`. -/
def acceptOn (socket : Socket) (sessionID : List Char) (silent : Bool) (w : World) :
    eStatus × Socket × World :=
  request socket (Message.streamAccept sessionID silent) w

/-- The static `NewStreamSession::connect(socket, sessionID, destination, silent)`. -/
def connectOn (socket : Socket) (sessionID destination : List Char) (silent : Bool) (w : World) :
    eStatus × Socket × World :=
  request socket (Message.streamConnect sessionID destination silent) w

/-- The static `NewStreamSession::forward(socket, sessionID, host, port, silent)`. -/
def forwardOn (socket : Socket) (sessionID host : List Char) (port : Nat) (silent : Bool)
    (w : World) : eStatus × Socket × World :=
  request socket (Message.streamForward sessionID host port silent) w

/-- `NewStreamSession::fallSick`. -/
def fallSick (s : NewStreamSession) : NewStreamSession := { s with isSick_ := true }

/-- `NewStreamSession::isSick`. -/
def isSick (s : NewStreamSession) : Bool := s.isSick_

/-- `NewStreamSession::getMyDestination`. -/
def getMyDestination (s : NewStreamSession) : FullDestination := s.myDestination_

/-- `NewStreamSession::getSessionID`. -/
def getSessionID (s : NewStreamSession) : List Char := s.sessionID_

/-- The status the verb `accept` obtains: that of the request on the cloned socket. -/
def acceptStatus (s : NewStreamSession) (silent : Bool) (w : World) : eStatus :=
  (acceptOn (Socket.copy s.socket_ w).1 s.sessionID_ silent (Socket.copy s.socket_ w).2).1

/-- `NewStreamSession::accept(silent)`. -/
def accept (s : NewStreamSession) (silent : Bool) (w : World) :
    RequestResult Socket × NewStreamSession × World :=
  let streamSocket := Socket.copy s.socket_ w
  let r := acceptOn streamSocket.1 s.sessionID_ silent streamSocket.2
  match r.1 with
  | eStatus.OK => (RequestResult.ok r.2.1, s, r.2.2)
  | eStatus.EMPTY_ANSWER => (RequestResult.failed, s.fallSick, r.2.2)
  | eStatus.CLOSED_SOCKET => (RequestResult.failed, s.fallSick, r.2.2)
  | eStatus.INVALID_ID => (RequestResult.failed, s.fallSick, r.2.2)
  | _ => (RequestResult.failed, s, r.2.2)

/-- The status the verb `connect` obtains. -/
def connectStatus (s : NewStreamSession) (destination : List Char) (silent : Bool) (w : World) :
    eStatus :=
  (connectOn (Socket.copy s.socket_ w).1 s.sessionID_ destination silent
    (Socket.copy s.socket_ w).2).1

/-- `NewStreamSession::connect(destination, silent)`. -/
def connect (s : NewStreamSession) (destination : List Char) (silent : Bool) (w : World) :
    RequestResult Socket × NewStreamSession × World :=
  let streamSocket := Socket.copy s.socket_ w
  let r := connectOn streamSocket.1 s.sessionID_ destination silent streamSocket.2
  match r.1 with
  | eStatus.OK => (RequestResult.ok r.2.1, s, r.2.2)
  | eStatus.EMPTY_ANSWER => (RequestResult.failed, s.fallSick, r.2.2)
  | eStatus.CLOSED_SOCKET => (RequestResult.failed, s.fallSick, r.2.2)
  | eStatus.INVALID_ID => (RequestResult.failed, s.fallSick, r.2.2)
  | _ => (RequestResult.failed, s, r.2.2)

/-- The status the verb `forward` obtains. -/
def forwardStatus (s : NewStreamSession) (host : List Char) (port : Nat) (silent : Bool)
    (w : World) : eStatus :=
  (forwardOn (Socket.copy s.socket_ w).1 s.sessionID_ host port silent
    (Socket.copy s.socket_ w).2).1

/-- `NewStreamSession::forward(host, port, silent)`. -/
def forward (s : NewStreamSession) (host : List Char) (port : Nat) (silent : Bool) (w : World) :
    RequestResult Unit × NewStreamSession × World :=
  let newSocket := Socket.copy s.socket_ w
  let r := forwardOn newSocket.1 s.sessionID_ host port silent newSocket.2
  match r.1 with
  | eStatus.OK =>
    (RequestResult.ok (),
      { s with forwardedStreams_ := s.forwardedStreams_ ++ [⟨r.2.1, host, port, silent⟩] }, r.2.2)
  | eStatus.EMPTY_ANSWER => (RequestResult.failed, s.fallSick, r.2.2)
  | eStatus.CLOSED_SOCKET => (RequestResult.failed, s.fallSick, r.2.2)
  | eStatus.INVALID_ID => (RequestResult.failed, s.fallSick, r.2.2)
  | _ => (RequestResult.failed, s, r.2.2)

/-- The status the verb `namingLookup` obtains. -/
def namingLookupStatus (s : NewStreamSession) (name : List Char) (w : World) : eStatus :=
  (namingLookupOn (Socket.copy s.socket_ w).1 name (Socket.copy s.socket_ w).2).1.status

/-- `NewStreamSession::namingLookup(name)`. -/
def namingLookup (s : NewStreamSession) (name : List Char) (w : World) :
    RequestResult (List Char) × NewStreamSession × World :=
  let newSocket := Socket.copy s.socket_ w
  let answer := namingLookupOn newSocket.1 name newSocket.2
  match answer.1.status with
  | eStatus.OK => (RequestResult.ok answer.1.value, s, answer.2.2)
  | eStatus.EMPTY_ANSWER => (RequestResult.failed, s.fallSick, answer.2.2)
  | eStatus.CLOSED_SOCKET => (RequestResult.failed, s.fallSick, answer.2.2)
  | _ => (RequestResult.failed, s, answer.2.2)

/-- The status the verb `destGenerate` obtains. -/
def destGenerateStatus (s : NewStreamSession) (w : World) : eStatus :=
  (destGenerateOn (Socket.copy s.socket_ w).1 (Socket.copy s.socket_ w).2).1.status

/-- `NewStreamSession::destGenerate()`. -/
def destGenerate (s : NewStreamSession) (w : World) :
    RequestResult FullDestination × NewStreamSession × World :=
  let newSocket := Socket.copy s.socket_ w
  let answer := destGenerateOn newSocket.1 newSocket.2
  match answer.1.status with
  | eStatus.OK => (RequestResult.ok answer.1.value, s, answer.2.2)
  | eStatus.EMPTY_ANSWER => (RequestResult.failed, s.fallSick, answer.2.2)
  | eStatus.CLOSED_SOCKET => (RequestResult.failed, s.fallSick, answer.2.2)
  | _ => (RequestResult.failed, s, answer.2.2)

/-- The status of the SESSION CREATE request issued on the primary socket. -/
def createStatus (s : NewStreamSession) (destination : List Char) (w : World) : eStatus :=
  (createStreamSessionOn s.socket_ s.sessionID_ s.nickname_ destination s.i2pOptions_ w).1.status

/-- The reply's `DESTINATION` value as the SESSION CREATE request returns it. -/
def createValue (s : NewStreamSession) (destination : List Char) (w : World) : List Char :=
  (createStreamSessionOn s.socket_ s.sessionID_ s.nickname_ destination s.i2pOptions_ w).1.value

/-- The member `NewStreamSession::createStreamSession(destination)`: the destination returned,
the session (the request runs on its primary socket) and the world afterwards. -/
def createStreamSession (s : NewStreamSession) (destination : List Char) (w : World) :
    FullDestination × NewStreamSession × World :=
  let answer :=
    createStreamSessionOn s.socket_ s.sessionID_ s.nickname_ destination s.i2pOptions_ w
  if answer.1.status ≠ eStatus.OK then
    (FullDestination.blank, { s with socket_ := answer.2.1, isSick_ := true }, answer.2.2)
  else
    (⟨substr answer.1.value 0 I2P_DESTINATION_SIZE, answer.1.value,
        decide (destination = SAM_GENERATE_MY_DESTINATION)⟩,
      { s with socket_ := answer.2.1 }, answer.2.2)

/-- The loop of `NewStreamSession::stopForwarding` over the list cut at the iterator: `done`
holds the records before `it`, the second list those from `it` on. -/
def stopForwardingLoop (host : List Char) (port : Nat) :
    List ForwardedStream → List ForwardedStream → List ForwardedStream
  | done, [] => done
  | done, f :: rest =>
    if f.port = port ∧ f.host = host then stopForwardingLoop host port done rest
    else stopForwardingLoop host port (done ++ [f]) rest

/-- `NewStreamSession::stopForwarding(host, port)`. -/
def stopForwarding (s : NewStreamSession) (host : List Char) (port : Nat) : NewStreamSession :=
  { s with forwardedStreams_ := stopForwardingLoop host port [] s.forwardedStreams_ }

/-- The loop of `NewStreamSession::stopForwardingAll`, which has no increment: the body deletes
the socket of the record at `it` and `it` stays where it is. `done` holds the records before
`it`, the second list those from `it` on; `none` when the loop has not ended within `fuel`
iterations. -/
def stopForwardingAllLoop :
    Nat → List ForwardedStream → List ForwardedStream → Option (List ForwardedStream)
  | 0, _, _ => none
  | _ + 1, done, [] => some done
  | fuel + 1, done, f :: rest =>
    stopForwardingAllLoop fuel done ({ f with socket := f.socket.close } :: rest)

/-- `NewStreamSession::stopForwardingAll()`. -/
def stopForwardingAll (fuel : Nat) (s : NewStreamSession) : Option NewStreamSession :=
  match stopForwardingAllLoop fuel [] s.forwardedStreams_ with
  | none => none
  | some _ => some { s with forwardedStreams_ := [] }

/-- `NewStreamSession::~NewStreamSession()`: `stopForwardingAll()`, then the members are
destroyed (the primary socket is closed). -/
def destroy (fuel : Nat) (s : NewStreamSession) : Option Unit :=
  match s.stopForwardingAll fuel with
  | none => none
  | some _ => some ()

/-- The session under construction in the first constructor after its member initialisers;
`myDestination_` is default-constructed. -/
def newInit (socket : Socket) (nickname sessionID i2pOptions : List Char) : NewStreamSession :=
  { socket_ := socket, nickname_ := nickname, sessionID_ := sessionID,
    myDestination_ := FullDestination.blank, i2pOptions_ := i2pOptions,
    forwardedStreams_ := [], isSick_ := false }

/-- `NewStreamSession::NewStreamSession(nickname, SAMHost, SAMPort, destination, i2pOptions,
minVer, maxVer)`. -/
def new (nickname SAMHost : List Char) (SAMPort : Nat)
    (destination i2pOptions minVer maxVer : List Char) (w : World) :
    Option (NewStreamSession × World) :=
  let sk := Socket.new SAMHost SAMPort minVer maxVer w
  match generateSessionID sk.2.rand with
  | none => none
  | some g =>
    let c := (newInit sk.1 nickname g.1 i2pOptions).createStreamSession destination
      { sk.2 with rand := g.2 }
    some ({ c.2.1 with myDestination_ := c.1 }, c.2.2)

/-- The status of the SESSION CREATE request that the first constructor issues. -/
def newStatus (nickname SAMHost : List Char) (SAMPort : Nat)
    (destination i2pOptions minVer maxVer : List Char) (w : World) : Option eStatus :=
  let sk := Socket.new SAMHost SAMPort minVer maxVer w
  match generateSessionID sk.2.rand with
  | none => none
  | some g =>
    some ((newInit sk.1 nickname g.1 i2pOptions).createStatus destination
      { sk.2 with rand := g.2 })

/-- The loop of the copy constructor: `forward(it->host, it->port, it->silent)` for every
record of the donor, the results being ignored. -/
def reForward : List ForwardedStream → NewStreamSession → World → NewStreamSession × World
  | [], s, w => (s, w)
  | f :: rest, s, w =>
    reForward rest (s.forward f.host f.port f.silent w).2.1 (s.forward f.host f.port f.silent w).2.2

/-- The session under construction in the copy constructor after its member initialisers. -/
def copyInit (rhs : NewStreamSession) (socket : Socket) (sessionID : List Char) :
    NewStreamSession :=
  { socket_ := socket, nickname_ := rhs.nickname_, sessionID_ := sessionID,
    myDestination_ := rhs.myDestination_, i2pOptions_ := rhs.i2pOptions_,
    forwardedStreams_ := [], isSick_ := false }

/-- The statuses that the requests of the copy constructor's loop obtain, in order. -/
def reForwardStatuses : List ForwardedStream → NewStreamSession → World → List eStatus
  | [], _, _ => []
  | f :: rest, s, w =>
    s.forwardStatus f.host f.port f.silent w ::
      reForwardStatuses rest (s.forward f.host f.port f.silent w).2.1
        (s.forward f.host f.port f.silent w).2.2

/-- The donor after `rhs.fallSick(); rhs.socket_.close();`. -/
def donated (rhs : NewStreamSession) : NewStreamSession :=
  { rhs with isSick_ := true, socket_ := rhs.socket_.close }

/-- `NewStreamSession::NewStreamSession(NewStreamSession& rhs)`: the new session, the donor as
the constructor leaves it, and the world. -/
def copy (rhs : NewStreamSession) (w : World) :
    Option (NewStreamSession × NewStreamSession × World) :=
  let sk := Socket.copy rhs.socket_ w
  match generateSessionID sk.2.rand with
  | none => none
  | some g =>
    let this := copyInit rhs sk.1 g.1
    let c := this.createStreamSession this.myDestination_.priv { sk.2 with rand := g.2 }
    let f := reForward (donated rhs).forwardedStreams_ c.2.1 c.2.2
    some (f.1, donated rhs, f.2)

end NewStreamSession

/-! ## Supervisor -/

/-- `StreamSessionAdapter::SessionHolder`. -/
structure SessionHolder where
  session_ : NewStreamSession
  deriving DecidableEq, Repr

namespace SessionHolder

/-- `SessionHolder::reborn`. Assigning the new session destroys the old one; a new session that
is not taken is destroyed at the end of the scope. -/
def reborn (fuel : Nat) (h : SessionHolder) (w : World) : Option (SessionHolder × World) :=
  match NewStreamSession.copy h.session_ w with
  | none => none
  | some c =>
    if c.1.isSick = false ∧ c.2.1.isSick = true then
      match c.2.1.destroy fuel with
      | none => none
      | some _ => some (⟨c.1⟩, c.2.2)
    else
      match c.1.destroy fuel with
      | none => none
      | some _ => some (⟨c.2.1⟩, c.2.2)

/-- `SessionHolder::heal`. -/
def heal (fuel : Nat) (h : SessionHolder) (w : World) : Option (SessionHolder × World) :=
  if h.session_.isSick = false then some (h, w) else reborn fuel h w

/-- `SessionHolder::getSession`: the holder after `heal()`; the session returned is its
`session_`. -/
def getSession (fuel : Nat) (h : SessionHolder) (w : World) : Option (SessionHolder × World) :=
  heal fuel h w

end SessionHolder

/-- Class `StreamSessionAdapter`. -/
structure StreamSessionAdapter where
  sessionHolder_ : SessionHolder
  deriving DecidableEq, Repr

namespace StreamSessionAdapter

/-- `StreamSessionAdapter::StreamSessionAdapter(...)`. -/
def new (nickname SAMHost : List Char) (SAMPort : Nat)
    (myDestination i2pOptions minVer maxVer : List Char) (w : World) :
    Option (StreamSessionAdapter × World) :=
  match NewStreamSession.new nickname SAMHost SAMPort myDestination i2pOptions minVer maxVer w with
  | none => none
  | some r => some (⟨⟨r.1⟩⟩, r.2)

/-- The descriptor handed to the caller: `result.isOk ? result.value->release() :
SAM_INVALID_SOCKET`. -/
def released (result : RequestResult Socket) : Option Nat :=
  if result.isOk then
    match result.value with
    | none => none
    | some sk => sk.release.1
  else none

/-- `StreamSessionAdapter::accept`. -/
def accept (fuel : Nat) (a : StreamSessionAdapter) (silent : Bool) (w : World) :
    Option (Option Nat × StreamSessionAdapter × World) :=
  match a.sessionHolder_.getSession fuel w with
  | none => none
  | some h =>
    let result := h.1.session_.accept silent h.2
    some (released result.1, ⟨⟨result.2.1⟩⟩, result.2.2)

/-- `StreamSessionAdapter::connect`. -/
def connect (fuel : Nat) (a : StreamSessionAdapter) (destination : List Char) (silent : Bool)
    (w : World) : Option (Option Nat × StreamSessionAdapter × World) :=
  match a.sessionHolder_.getSession fuel w with
  | none => none
  | some h =>
    let result := h.1.session_.connect destination silent h.2
    some (released result.1, ⟨⟨result.2.1⟩⟩, result.2.2)

/-- `StreamSessionAdapter::forward`. -/
def forward (fuel : Nat) (a : StreamSessionAdapter) (host : List Char) (port : Nat)
    (silent : Bool) (w : World) : Option (Bool × StreamSessionAdapter × World) :=
  match a.sessionHolder_.getSession fuel w with
  | none => none
  | some h =>
    let result := h.1.session_.forward host port silent h.2
    some (result.1.isOk, ⟨⟨result.2.1⟩⟩, result.2.2)

/-- `StreamSessionAdapter::namingLookup`. -/
def namingLookup (fuel : Nat) (a : StreamSessionAdapter) (name : List Char) (w : World) :
    Option (List Char × StreamSessionAdapter × World) :=
  match a.sessionHolder_.getSession fuel w with
  | none => none
  | some h =>
    let result := h.1.session_.namingLookup name h.2
    some (if result.1.isOk then result.1.value.getD [] else [], ⟨⟨result.2.1⟩⟩, result.2.2)

/-- `StreamSessionAdapter::destGenerate`. -/
def destGenerate (fuel : Nat) (a : StreamSessionAdapter) (w : World) :
    Option (FullDestination × StreamSessionAdapter × World) :=
  match a.sessionHolder_.getSession fuel w with
  | none => none
  | some h =>
    let result := h.1.session_.destGenerate h.2
    some (if result.1.isOk then result.1.value.getD FullDestination.blank
          else FullDestination.blank, ⟨⟨result.2.1⟩⟩, result.2.2)

/-- `StreamSessionAdapter::stopForwarding`. -/
def stopForwarding (fuel : Nat) (a : StreamSessionAdapter) (host : List Char) (port : Nat)
    (w : World) : Option (StreamSessionAdapter × World) :=
  match a.sessionHolder_.getSession fuel w with
  | none => none
  | some h => some (⟨⟨h.1.session_.stopForwarding host port⟩⟩, h.2)

/-- `StreamSessionAdapter::stopForwardingAll`. -/
def stopForwardingAll (fuel : Nat) (a : StreamSessionAdapter) (w : World) :
    Option (StreamSessionAdapter × World) :=
  match a.sessionHolder_.getSession fuel w with
  | none => none
  | some h =>
    match h.1.session_.stopForwardingAll fuel with
    | none => none
    | some s => some (⟨⟨s⟩⟩, h.2)

/-- The accessors (`getMyDestination`, `getSAMAddress`, `getSAMHost`, `getSAMPort`,
`getNickname`, `getSAMMinVer`, `getSAMMaxVer`, `getSAMVersion`, `getOptions`): each is
`sessionHolder_->getSession().<getter>()`; `get` is the getter. -/
def accessor {α : Type} (get : NewStreamSession → α) (fuel : Nat) (a : StreamSessionAdapter)
    (w : World) : Option (α × StreamSessionAdapter × World) :=
  match a.sessionHolder_.getSession fuel w with
  | none => none
  | some h => some (get h.1.session_, ⟨h.1⟩, h.2)

end StreamSessionAdapter

/-! ## Vocabulary of the statements -/

/-- The value that starts a text `rest`, in the words of the specification: `rest` up to its
first space, or without a space up to its first newline, or with neither the whole of it. -/
def delimited (rest : List Char) : List Char :=
  if ' ' ∈ rest then rest.takeWhile (fun d => d != ' ')
  else if '\n' ∈ rest then rest.takeWhile (fun d => d != '\n')
  else rest

/-- The letter that the character loop of `generateSessionID` appends for the value `r` of
`rand()`. -/
def sessionIDLetter (r : Nat) : Char :=
  NewStreamSession.sessionIDAlphabet.getD (r % NewStreamSession.sessionIDAlphabet.length) 'A'

/-- Position `k` holds the first value of `rand()` whose remainder modulo 9 is at least 5. -/
def firstLengthAt (rand : List Nat) (k : Nat) : Prop :=
  k < rand.length ∧ (∀ j, j < k → rand.getD j 0 % 9 < 5) ∧ 5 ≤ rand.getD k 0 % 9

/-- The three session-fatal kinds of `accept`, `connect` and `forward`. -/
def sessionFatal : List eStatus :=
  [eStatus.EMPTY_ANSWER, eStatus.CLOSED_SOCKET, eStatus.INVALID_ID]

/-- The two kinds on which `namingLookup` and `destGenerate` call `fallSick`. -/
def lookupFatal : List eStatus := [eStatus.EMPTY_ANSWER, eStatus.CLOSED_SOCKET]

/-- The nine per-request kinds that the specification lists as never making a session sick. -/
def perRequest : List eStatus :=
  [eStatus.DUPLICATED_ID, eStatus.CANT_REACH_PEER, eStatus.TIMEOUT, eStatus.I2P_ERROR,
    eStatus.INVALID_KEY, eStatus.PEER_NOT_FOUND, eStatus.NOVERSION, eStatus.ALREADY_ACCEPTING,
    eStatus.CANNOT_PARSE_ERROR]

/-- The token of a result kind, as `SAM_MAKESTRING` spells it. -/
def statusName : eStatus → List Char
  | eStatus.OK => "OK".toList
  | eStatus.EMPTY_ANSWER => "EMPTY_ANSWER".toList
  | eStatus.CLOSED_SOCKET => "CLOSED_SOCKET".toList
  | eStatus.CANNOT_PARSE_ERROR => "CANNOT_PARSE_ERROR".toList
  | eStatus.DUPLICATED_DEST => "DUPLICATED_DEST".toList
  | eStatus.DUPLICATED_ID => "DUPLICATED_ID".toList
  | eStatus.I2P_ERROR => "I2P_ERROR".toList
  | eStatus.INVALID_ID => "INVALID_ID".toList
  | eStatus.INVALID_KEY => "INVALID_KEY".toList
  | eStatus.CANT_REACH_PEER => "CANT_REACH_PEER".toList
  | eStatus.TIMEOUT => "TIMEOUT".toList
  | eStatus.NOVERSION => "NOVERSION".toList
  | eStatus.KEY_NOT_FOUND => "KEY_NOT_FOUND".toList
  | eStatus.PEER_NOT_FOUND => "PEER_NOT_FOUND".toList
  | eStatus.ALREADY_ACCEPTING => "ALREADY_ACCEPTING".toList

/-- The twelve kinds the bridge reports in a `RESULT` field. -/
def bridgeKinds : List eStatus :=
  [eStatus.OK, eStatus.DUPLICATED_DEST, eStatus.DUPLICATED_ID, eStatus.I2P_ERROR,
    eStatus.INVALID_ID, eStatus.INVALID_KEY, eStatus.CANT_REACH_PEER, eStatus.TIMEOUT,
    eStatus.NOVERSION, eStatus.KEY_NOT_FOUND, eStatus.PEER_NOT_FOUND, eStatus.ALREADY_ACCEPTING]

/-- The triples of the donor's records whose re-issued request obtained `OK`, in order; the
second list holds the statuses of the requests. -/
def keptTriples : List ForwardedStream → List eStatus → List (List Char × Nat × Bool)
  | f :: fs, st :: sts =>
    if st = eStatus.OK then f.triple :: keptTriples fs sts else keptTriples fs sts
  | _, _ => []

/-- The statuses that the STREAM FORWARD requests of the copy constructor obtain, in the
donor's order. -/
def copyForwardStatuses (rhs : NewStreamSession) (w : World) : Option (List eStatus) :=
  match NewStreamSession.generateSessionID (Socket.copy rhs.socket_ w).2.rand with
  | none => none
  | some g =>
    some (NewStreamSession.reForwardStatuses rhs.forwardedStreams_
      ((NewStreamSession.copyInit rhs (Socket.copy rhs.socket_ w).1 g.1).createStreamSession
        rhs.myDestination_.priv { (Socket.copy rhs.socket_ w).2 with rand := g.2 }).2.1
      ((NewStreamSession.copyInit rhs (Socket.copy rhs.socket_ w).1 g.1).createStreamSession
        rhs.myDestination_.priv { (Socket.copy rhs.socket_ w).2 with rand := g.2 }).2.2)

/-- The status that the SESSION CREATE request of the copy constructor obtains. -/
def copyCreateStatus (rhs : NewStreamSession) (w : World) : Option eStatus :=
  match NewStreamSession.generateSessionID (Socket.copy rhs.socket_ w).2.rand with
  | none => none
  | some g =>
    some ((NewStreamSession.copyInit rhs (Socket.copy rhs.socket_ w).1 g.1).createStatus
      rhs.myDestination_.priv { (Socket.copy rhs.socket_ w).2 with rand := g.2 })

/-- The held session was sick when the call began and the session copy-constructed from it
came out sick: a rebuild was attempted and produced a sick replacement. -/
def failedRebuild (a : StreamSessionAdapter) (w : World) : Prop :=
  a.sessionHolder_.session_.isSick = true ∧
    ∃ c, NewStreamSession.copy a.sessionHolder_.session_ w = some c ∧ c.1.isSick = true

/-! ## Concrete runs -/

/-- A bridge that accepts the connection, answers HELLO with OK and SESSION CREATE with OK and
the three-character destination `abc`. -/
def shortDestinationWorld : World :=
  { connects := [some 3],
    sends := [SendResult.sent 30, SendResult.sent 82],
    recvs := [some "HELLO REPLY RESULT=OK VERSION=3.1\n".toList,
      some "SESSION STATUS RESULT=OK DESTINATION=abc\n".toList],
    rand := [5, 0, 0, 0, 0, 0],
    log := [] }

/-- A bridge that accepts the connection, answers HELLO with OK and SESSION CREATE with
`DUPLICATED_ID`. -/
def duplicatedIdWorld : World :=
  { connects := [some 3],
    sends := [SendResult.sent 30, SendResult.sent 82],
    recvs := [some "HELLO REPLY RESULT=OK VERSION=3.1\n".toList,
      some "SESSION STATUS RESULT=DUPLICATED_ID\n".toList],
    rand := [5, 0, 0, 0, 0, 0],
    log := [] }

/-- A control socket of a session at `127.0.0.1:7656`, open on descriptor 3. -/
def primarySocket : Socket :=
  { socket_ := some 3, servAddr_ := ⟨"127.0.0.1".toList, 7656⟩, SAMHost_ := "127.0.0.1".toList,
    SAMPort_ := some 7656, minVer_ := "3.0".toList, maxVer_ := "3.1".toList,
    version_ := "3.1".toList }

/-- A healthy session without forwards. -/
def healthySession : NewStreamSession :=
  { socket_ := primarySocket, nickname_ := "nick".toList, sessionID_ := "AAAAA".toList,
    myDestination_ := ⟨"abc".toList, "abc".toList, true⟩, i2pOptions_ := [],
    forwardedStreams_ := [], isSick_ := false }

/-- A sick session that holds the forward `("127.0.0.1", 9001, false)`. -/
def sickDonor : NewStreamSession :=
  { healthySession with
    forwardedStreams_ :=
      [⟨{ primarySocket with socket_ := some 4 }, "127.0.0.1".toList, 9001, false⟩],
    isSick_ := true }

/-- A bridge that answers HELLO and SESSION CREATE with OK, the next HELLO with OK and the
STREAM FORWARD after it with `I2P_ERROR`. -/
def refusedForwardWorld : World :=
  { connects := [some 5, some 6],
    sends := [SendResult.sent 30, SendResult.sent 76, SendResult.sent 30, SendResult.sent 62],
    recvs := [some "HELLO REPLY RESULT=OK VERSION=3.1\n".toList,
      some "SESSION STATUS RESULT=OK DESTINATION=abc\n".toList,
      some "HELLO REPLY RESULT=OK VERSION=3.1\n".toList,
      some "STREAM STATUS RESULT=I2P_ERROR\n".toList],
    rand := [5, 1, 2, 3, 4, 5],
    log := [] }

/-- A bridge that answers HELLO and SESSION CREATE with OK, the next HELLO with OK and the
STREAM FORWARD after it with `INVALID_ID`. -/
def fatalForwardWorld : World :=
  { connects := [some 5, some 6],
    sends := [SendResult.sent 30, SendResult.sent 76, SendResult.sent 30, SendResult.sent 62],
    recvs := [some "HELLO REPLY RESULT=OK VERSION=3.1\n".toList,
      some "SESSION STATUS RESULT=OK DESTINATION=abc\n".toList,
      some "HELLO REPLY RESULT=OK VERSION=3.1\n".toList,
      some "STREAM STATUS RESULT=INVALID_ID\n".toList],
    rand := [5, 1, 2, 3, 4, 5],
    log := [] }

/-- A bridge that answers HELLO with OK and the request after it with `INVALID_ID`. -/
def invalidIdWorld : World :=
  { connects := [some 5],
    sends := [SendResult.sent 30, SendResult.sent 36],
    recvs := [some "HELLO REPLY RESULT=OK VERSION=3.1\n".toList,
      some "STREAM STATUS RESULT=INVALID_ID\n".toList],
    rand := [],
    log := [] }

/-- The world `invalidIdWorld` leaves behind after HELLO and STREAM ACCEPT have been sent. -/
def invalidIdWorldAfterAccept : World :=
  { connects := [], sends := [], recvs := [], rand := [],
    log := ["HELLO VERSION MIN=3.0 MAX=3.1\n".toList,
      "STREAM ACCEPT ID=AAAAA SILENT=false\n".toList] }

/-! ## Accessors -/

/-- `Socket::getHost`. -/
def Socket.getHost (s : Socket) : List Char := s.SAMHost_

/-- `Socket::getPort`; `none` when the member was never initialised. -/
def Socket.getPort (s : Socket) : Option Nat := s.SAMPort_

/-- `Socket::getVersion`. -/
def Socket.getVersion (s : Socket) : List Char := s.version_

/-- `Socket::getMinVer`. -/
def Socket.getMinVer (s : Socket) : List Char := s.minVer_

/-- `Socket::getMaxVer`. -/
def Socket.getMaxVer (s : Socket) : List Char := s.maxVer_

/-- `Socket::getAddress`. -/
def Socket.getAddress (s : Socket) : sockaddr_in := s.servAddr_

/-- `NewStreamSession::getNickname`. -/
def NewStreamSession.getNickname (s : NewStreamSession) : List Char := s.nickname_

/-- `NewStreamSession::getOptions`. -/
def NewStreamSession.getOptions (s : NewStreamSession) : List Char := s.i2pOptions_

/-- `NewStreamSession::getSAMAddress`. -/
def NewStreamSession.getSAMAddress (s : NewStreamSession) : sockaddr_in := s.socket_.getAddress

/-- `NewStreamSession::getSAMHost`. -/
def NewStreamSession.getSAMHost (s : NewStreamSession) : List Char := s.socket_.getHost

/-- `NewStreamSession::getSAMPort`. -/
def NewStreamSession.getSAMPort (s : NewStreamSession) : Option Nat := s.socket_.getPort

/-- `NewStreamSession::getSAMMinVer`. -/
def NewStreamSession.getSAMMinVer (s : NewStreamSession) : List Char := s.socket_.getMinVer

/-- `NewStreamSession::getSAMMaxVer`. -/
def NewStreamSession.getSAMMaxVer (s : NewStreamSession) : List Char := s.socket_.getMaxVer

/-- `NewStreamSession::getSAMVersion`. -/
def NewStreamSession.getSAMVersion (s : NewStreamSession) : List Char := s.socket_.getVersion

/-- A bridge that answers HELLO with OK and the NAMING LOOKUP after it with `INVALID_ID`. -/
def namingInvalidIdWorld : World :=
  { connects := [some 5],
    sends := [SendResult.sent 30, SendResult.sent 21],
    recvs := [some "HELLO REPLY RESULT=OK VERSION=3.1\n".toList,
      some "NAMING REPLY RESULT=INVALID_ID NAME=x\n".toList],
    rand := [],
    log := [] }

/-- A world whose next `send` transmits 10 bytes. -/
def partialSendWorld : World :=
  { connects := [], sends := [SendResult.sent 10], recvs := [], rand := [], log := [] }


/-- A bridge that accepts the connection and answers HELLO with `NOVERSION`. -/
def noVersionWorld : World :=
  { connects := [some 3],
    sends := [SendResult.sent 30],
    recvs := [some "HELLO REPLY RESULT=NOVERSION\n".toList],
    rand := [],
    log := [] }

/-- A session whose primary control socket is closed. -/
def closedPrimarySession : NewStreamSession :=
  { healthySession with socket_ := primarySocket.close }

/-- A bridge that answers HELLO with OK and the request after it with OK. -/
def acceptOkWorld : World :=
  { connects := [some 5],
    sends := [SendResult.sent 30, SendResult.sent 36],
    recvs := [some "HELLO REPLY RESULT=OK VERSION=3.1\n".toList,
      some "STREAM STATUS RESULT=OK\n".toList],
    rand := [],
    log := [] }

/-- A bridge that answers everything with OK: HELLO and SESSION CREATE of a rebuild, then
HELLO and STREAM FORWARD of the re-issued forward. -/
def allOkWorld : World :=
  { connects := [some 5, some 6],
    sends := [SendResult.sent 30, SendResult.sent 76, SendResult.sent 30, SendResult.sent 62],
    recvs := [some "HELLO REPLY RESULT=OK VERSION=3.1\n".toList,
      some "SESSION STATUS RESULT=OK DESTINATION=abc\n".toList,
      some "HELLO REPLY RESULT=OK VERSION=3.1\n".toList,
      some "STREAM STATUS RESULT=OK\n".toList],
    rand := [5, 1, 2, 3, 4, 5],
    log := [] }

/-- A sick session without forwards, as left by a verb that observed a fatal status. -/
def sickSession : NewStreamSession := { healthySession with isSick_ := true }


/-- A bridge that answers the first SESSION CREATE with `DUPLICATED_ID` and, at the rebuild,
HELLO with OK and SESSION CREATE with OK and the destination `xyz`. -/
def duplicatedThenOkWorld : World :=
  { connects := [some 3, some 5],
    sends := [SendResult.sent 30, SendResult.sent 82, SendResult.sent 30, SendResult.sent 73],
    recvs := [some "HELLO REPLY RESULT=OK VERSION=3.1\n".toList,
      some "SESSION STATUS RESULT=DUPLICATED_ID\n".toList,
      some "HELLO REPLY RESULT=OK VERSION=3.1\n".toList,
      some "SESSION STATUS RESULT=OK DESTINATION=xyz\n".toList],
    rand := [5, 0, 0, 0, 0, 0, 5, 1, 2, 3, 4, 5],
    log := [] }

/-- The supervisor call of the claim on rebuild after a failed first creation: construct the
supervisor for the destination `TRANSIENT`, then call `getMyDestination`. -/
def rebuildAfterFailedCreation :
    Option (FullDestination × StreamSessionAdapter × World) :=
  match StreamSessionAdapter.new "nick".toList "127.0.0.1".toList 7656 "TRANSIENT".toList []
      "3.0".toList "3.1".toList duplicatedThenOkWorld with
  | none => none
  | some a => a.1.accessor NewStreamSession.getMyDestination 1 a.2


/-- The text holds no NUL character. -/
def nulFree (l : List Char) : Prop := Char.ofNat 0 ∉ l

/-- The text holds no newline. -/
def newlineFree (l : List Char) : Prop := '\n' ∉ l

/-- The request is one line: it ends in a newline and holds no other newline. -/
def singleLine (request : List Char) : Prop :=
  ∃ body, request = body ++ ['\n'] ∧ '\n' ∉ body

/-- The name of a session style in a SESSION CREATE request. -/
def styleName : Message.SessionStyle → List Char
  | Message.SessionStyle.sssStream => "STREAM".toList
  | Message.SessionStyle.sssDatagram => "DATAGRAM".toList
  | Message.SessionStyle.sssRaw => "RAW".toList

instance (l : List Char) : Decidable (nulFree l) := by
  unfold nulFree; infer_instance

instance (l : List Char) : Decidable (newlineFree l) := by
  unfold newlineFree; infer_instance


/-- The reply `NAMING REPLY RESULT=OK NAME=n VALUE=v` with its newline. -/
def namingReplyOk (n v : List Char) : List Char :=
  "NAMING REPLY RESULT=OK NAME=".toList ++ n ++ " VALUE=".toList ++ v ++ "\n".toList

/-- The reply `NAMING REPLY RESULT=KEY_NOT_FOUND NAME=n` with its newline. -/
def namingReplyNotFound (n : List Char) : List Char :=
  "NAMING REPLY RESULT=KEY_NOT_FOUND NAME=".toList ++ n ++ "\n".toList

/-- The world `w` preceded by one exchange on a fresh control socket: the connection succeeds
on descriptor `fd`, the two sends transmit `k1 + 1` and `k2 + 1` bytes, HELLO is answered with
`helloReply` and the request after it with `reply`. -/
def answeredWorld (w : World) (fd k1 k2 : Nat) (helloReply reply : List Char) : World :=
  { w with
    connects := some fd :: w.connects,
    sends := SendResult.sent (k1 + 1) :: SendResult.sent (k2 + 1) :: w.sends,
    recvs := some helloReply :: some reply :: w.recvs }

/-- A bridge that answers HELLO with OK and the lookup of the name `VALUE=x` with OK and the
value `abc`. -/
def valueInNameWorld : World :=
  answeredWorld { connects := [], sends := [], recvs := [], rand := [], log := [] } 5 29 26
    "HELLO REPLY RESULT=OK VERSION=3.1\n".toList
    (namingReplyOk "VALUE=x".toList "abc".toList)

/-- A bridge that answers HELLO with OK and the lookup of the name `example.i2p` with OK and
the value `abc`. -/
def exampleLookupWorld : World :=
  answeredWorld { connects := [], sends := [], recvs := [], rand := [], log := [] } 5 29 30
    "HELLO REPLY RESULT=OK VERSION=3.1\n".toList
    (namingReplyOk "example.i2p".toList "abc".toList)


/-- The reply to the SESSION CREATE request that the first constructor issues, as read from the
primary socket. -/
def NewStreamSession.newReply (nickname SAMHost : List Char) (SAMPort : Nat)
    (destination i2pOptions minVer maxVer : List Char) (w : World) : Option (List Char) :=
  match NewStreamSession.generateSessionID (Socket.new SAMHost SAMPort minVer maxVer w).2.rand with
  | none => none
  | some g =>
    some (NewStreamSession.rawRequest (Socket.new SAMHost SAMPort minVer maxVer w).1
      (Message.sessionCreate Message.SessionStyle.sssStream g.1 nickname destination i2pOptions)
      { (Socket.new SAMHost SAMPort minVer maxVer w).2 with rand := g.2 }).1.value

/-- A bridge that answers HELLO with OK and the STREAM FORWARD after it with OK. -/
def forwardOkWorld : World :=
  { connects := [some 5],
    sends := [SendResult.sent 30, SendResult.sent 62],
    recvs := [some "HELLO REPLY RESULT=OK VERSION=3.1\n".toList,
      some "STREAM STATUS RESULT=OK\n".toList],
    rand := [],
    log := [] }

/-- A bridge that answers HELLO with OK and DEST GENERATE with a reply that has no `PRIV`. -/
def destWithoutPrivWorld : World :=
  { connects := [some 5],
    sends := [SendResult.sent 30, SendResult.sent 14],
    recvs := [some "HELLO REPLY RESULT=OK VERSION=3.1\n".toList,
      some "DEST REPLY PUB=abc\n".toList],
    rand := [],
    log := [] }


/-- The reply that the static `destGenerate` reads on the socket after writing its request. -/
def destReply (socket : Socket) (w : World) : List Char :=
  ((socket.write Message.destGenerate w).1.read (socket.write Message.destGenerate w).2).1


/-- The first `n` values of the stream `rand` of `rand()` results. -/
def streamPrefix (rand : Nat → Nat) (n : Nat) : List Nat := (List.range n).map rand

/-- On the stream `rand`, `generateSessionID` returns after finitely many draws. -/
def terminatesOn (rand : Nat → Nat) : Prop :=
  ∃ n, (NewStreamSession.generateSessionID (streamPrefix rand n)).isSome = true


/-! # Theorems -/

/-! ## Facts about the string primitives -/

theorem findAux_none (pat : List Char) (hpat : pat ≠ []) :
    ∀ (s : List Char) (i : Nat), (∀ k, ¬ pat <+: s.drop k) → findAux pat s i = npos := by
  intro s
  induction s with
  | nil => intro i _; simp [findAux, hpat]
  | cons c s ih =>
    intro i h
    have h0 : ¬ pat <+: (c :: s) := by simpa using h 0
    have hs : ∀ k, ¬ pat <+: s.drop k := fun k => by simpa using h (k + 1)
    simp only [findAux, if_neg h0]
    exact ih (i + 1) hs

theorem findAux_first (pat : List Char) (hpat : pat ≠ []) :
    ∀ (s : List Char) (i k : Nat), pat <+: s.drop k → (∀ j, j < k → ¬ pat <+: s.drop j) →
      findAux pat s i = i + k := by
  intro s
  induction s with
  | nil =>
    intro i k hk _
    simp at hk
    exact absurd hk hpat
  | cons c s ih =>
    intro i k hk hmin
    cases k with
    | zero =>
      have h0 : pat <+: (c :: s) := by simpa using hk
      simp [findAux, h0]
    | succ k =>
      have h0 : ¬ pat <+: (c :: s) := by simpa using hmin 0 (Nat.succ_pos k)
      have hk1 : pat <+: s.drop k := by simpa using hk
      have hmin1 : ∀ j, j < k → ¬ pat <+: s.drop j := fun j hj => by
        simpa using hmin (j + 1) (Nat.succ_lt_succ hj)
      simp only [findAux, if_neg h0]
      rw [ih (i + 1) k hk1 hmin1]
      omega

theorem findCharAux_eq (c : Char) :
    ∀ (l : List Char) (i : Nat),
      findCharAux c l i = if c ∈ l then i + (l.takeWhile (fun d => d != c)).length else npos := by
  intro l
  induction l with
  | nil => intro i; simp [findCharAux]
  | cons d l ih =>
    intro i
    by_cases hd : d = c
    · subst hd; simp [findCharAux]
    · have hd1 : ¬ c = d := fun h => hd h.symm
      simp only [findCharAux, if_neg hd, ih (i + 1), List.mem_cons, hd1, false_or]
      by_cases hm : c ∈ l
      · simp [hm, List.takeWhile_cons, hd]; omega
      · simp [hm]

theorem take_length_takeWhile (p : Char → Bool) :
    ∀ l : List Char, l.take (l.takeWhile p).length = l.takeWhile p := by
  intro l
  induction l with
  | nil => simp
  | cons d l ih =>
    by_cases hd : p d = true
    · simp [List.takeWhile_cons, hd, ih]
    · simp [List.takeWhile_cons, hd]

theorem getValue_absent (answer key : List Char)
    (h : ∀ i, ¬ occursAt answer (key ++ "=".toList) i) : Message.getValue answer key = [] := by
  unfold Message.getValue
  by_cases hk : key = []
  · simp [hk]
  · have hpat : key ++ "=".toList ≠ [] := by simp [hk]
    have hf : find answer (key ++ "=".toList) = npos := findAux_none _ hpat answer 0 h
    simp only [if_neg hk, hf, eq_self_iff_true, if_true]

theorem getValue_present (answer key : List Char) (hlen : answer.length < npos) (hk : key ≠ [])
    (i : Nat) (hi : occursAt answer (key ++ "=".toList) i)
    (hmin : ∀ j, j < i → ¬ occursAt answer (key ++ "=".toList) j) :
    Message.getValue answer key = delimited (answer.drop (i + key.length + 1)) := by
  have hpat : key ++ "=".toList ≠ [] := by simp [hk]
  have hf : find answer (key ++ "=".toList) = i := by
    have := findAux_first _ hpat answer 0 i hi hmin
    simpa [find] using this
  have hplen : (key ++ "=".toList).length = key.length + 1 := by simp
  have hile : i + (key.length + 1) ≤ answer.length := by
    have h1 := List.IsPrefix.length_le hi
    rw [hplen, List.length_drop] at h1
    have h2 : i < answer.length := by
      by_contra hc
      have : answer.drop i = [] := List.drop_eq_nil_of_le (by omega)
      rw [occursAt, this] at hi
      exact hpat (List.prefix_nil.mp hi)
    omega
  have hnp : npos = 2 ^ 64 - 1 := rfl
  have hine : ¬ i = npos := by omega
  unfold Message.getValue
  simp only [if_neg hk, hf, if_neg hine, hplen]
  have hvs : (i + (key.length + 1)) % 2 ^ 64 = i + key.length + 1 := by
    rw [Nat.mod_eq_of_lt (by omega)]; omega
  rw [hvs]
  generalize hs : i + key.length + 1 = vs
  have hvsle : vs ≤ answer.length := by omega
  generalize hr : answer.drop vs = rest
  have hrlen : rest.length = answer.length - vs := by rw [← hr, List.length_drop]
  unfold find_first_of delimited substr
  rw [hr, findCharAux_eq, findCharAux_eq]
  have htw : ∀ p : Char → Bool, (rest.takeWhile p).length ≤ rest.length := fun p =>
    (List.takeWhile_sublist p).length_le
  by_cases hsp : ' ' ∈ rest
  · have h1 := htw (fun d => d != ' ')
    have hne : ¬ vs + (rest.takeWhile (fun d => d != ' ')).length = npos := by omega
    simp only [if_pos hsp, if_neg hne]
    have : (vs + (rest.takeWhile (fun d => d != ' ')).length + 2 ^ 64 - vs) % 2 ^ 64
        = (rest.takeWhile (fun d => d != ' ')).length := by
      rw [show vs + (rest.takeWhile (fun d => d != ' ')).length + 2 ^ 64 - vs
            = (rest.takeWhile (fun d => d != ' ')).length + 2 ^ 64 by omega,
        Nat.add_mod_right, Nat.mod_eq_of_lt (by omega)]
    rw [this, take_length_takeWhile]
  · simp only [if_neg hsp, if_true]
    by_cases hnl : '\n' ∈ rest
    · have h1 := htw (fun d => d != '\n')
      simp only [if_pos hnl]
      have : (vs + (rest.takeWhile (fun d => d != '\n')).length + 2 ^ 64 - vs) % 2 ^ 64
          = (rest.takeWhile (fun d => d != '\n')).length := by
        rw [show vs + (rest.takeWhile (fun d => d != '\n')).length + 2 ^ 64 - vs
              = (rest.takeWhile (fun d => d != '\n')).length + 2 ^ 64 by omega,
          Nat.add_mod_right, Nat.mod_eq_of_lt (by omega)]
      rw [this, take_length_takeWhile]
    · simp only [if_neg hnl]
      have : (npos + 2 ^ 64 - vs) % 2 ^ 64 = npos - vs := by
        rw [show npos + 2 ^ 64 - vs = (npos - vs) + 2 ^ 64 by omega,
          Nat.add_mod_right, Nat.mod_eq_of_lt (by omega)]
      rw [this]
      exact List.take_of_length_le (by omega)

theorem checkAnswer_cases (answer : List Char) (hne : answer ≠ []) :
    (∃ K, K ∈ bridgeKinds ∧ Message.getValue answer "RESULT".toList = statusName K ∧
        Message.checkAnswer answer = K) ∨
      ((∀ K, K ∈ bridgeKinds → Message.getValue answer "RESULT".toList ≠ statusName K) ∧
        Message.checkAnswer answer = eStatus.CANNOT_PARSE_ERROR) := by
  unfold Message.checkAnswer
  simp only [if_neg hne]
  generalize Message.getValue answer "RESULT".toList = r
  by_cases h1 : r = "OK".toList
  · exact Or.inl ⟨eStatus.OK, by decide, h1, by simp only [if_pos h1]⟩
  by_cases h2 : r = "DUPLICATED_DEST".toList
  · exact Or.inl ⟨eStatus.DUPLICATED_DEST, by decide, h2, by simp only [if_neg h1, if_pos h2]⟩
  by_cases h3 : r = "DUPLICATED_ID".toList
  · exact Or.inl ⟨eStatus.DUPLICATED_ID, by decide, h3,
      by simp only [if_neg h1, if_neg h2, if_pos h3]⟩
  by_cases h4 : r = "I2P_ERROR".toList
  · exact Or.inl ⟨eStatus.I2P_ERROR, by decide, h4,
      by simp only [if_neg h1, if_neg h2, if_neg h3, if_pos h4]⟩
  by_cases h5 : r = "INVALID_ID".toList
  · exact Or.inl ⟨eStatus.INVALID_ID, by decide, h5,
      by simp only [if_neg h1, if_neg h2, if_neg h3, if_neg h4, if_pos h5]⟩
  by_cases h6 : r = "INVALID_KEY".toList
  · exact Or.inl ⟨eStatus.INVALID_KEY, by decide, h6,
      by simp only [if_neg h1, if_neg h2, if_neg h3, if_neg h4, if_neg h5, if_pos h6]⟩
  by_cases h7 : r = "CANT_REACH_PEER".toList
  · exact Or.inl ⟨eStatus.CANT_REACH_PEER, by decide, h7,
      by simp only [if_neg h1, if_neg h2, if_neg h3, if_neg h4, if_neg h5, if_neg h6, if_pos h7]⟩
  by_cases h8 : r = "TIMEOUT".toList
  · exact Or.inl ⟨eStatus.TIMEOUT, by decide, h8,
      by simp only [if_neg h1, if_neg h2, if_neg h3, if_neg h4, if_neg h5, if_neg h6, if_neg h7,
        if_pos h8]⟩
  by_cases h9 : r = "NOVERSION".toList
  · exact Or.inl ⟨eStatus.NOVERSION, by decide, h9,
      by simp only [if_neg h1, if_neg h2, if_neg h3, if_neg h4, if_neg h5, if_neg h6, if_neg h7,
        if_neg h8, if_pos h9]⟩
  by_cases h10 : r = "KEY_NOT_FOUND".toList
  · exact Or.inl ⟨eStatus.KEY_NOT_FOUND, by decide, h10,
      by simp only [if_neg h1, if_neg h2, if_neg h3, if_neg h4, if_neg h5, if_neg h6, if_neg h7,
        if_neg h8, if_neg h9, if_pos h10]⟩
  by_cases h11 : r = "PEER_NOT_FOUND".toList
  · exact Or.inl ⟨eStatus.PEER_NOT_FOUND, by decide, h11,
      by simp only [if_neg h1, if_neg h2, if_neg h3, if_neg h4, if_neg h5, if_neg h6, if_neg h7,
        if_neg h8, if_neg h9, if_neg h10, if_pos h11]⟩
  by_cases h12 : r = "ALREADY_ACCEPTING".toList
  · exact Or.inl ⟨eStatus.ALREADY_ACCEPTING, by decide, h12,
      by simp only [if_neg h1, if_neg h2, if_neg h3, if_neg h4, if_neg h5, if_neg h6, if_neg h7,
        if_neg h8, if_neg h9, if_neg h10, if_neg h11, if_pos h12]⟩
  refine Or.inr ⟨?_, by simp only [if_neg h1, if_neg h2, if_neg h3, if_neg h4, if_neg h5,
    if_neg h6, if_neg h7, if_neg h8, if_neg h9, if_neg h10, if_neg h11, if_neg h12]⟩
  intro K hK
  simp only [bridgeKinds, List.mem_cons, List.mem_singleton, List.not_mem_nil, or_false] at hK
  rcases hK with rfl | rfl | rfl | rfl | rfl | rfl | rfl | rfl | rfl | rfl | rfl | rfl <;>
    assumption

theorem statusName_injective : ∀ K L : eStatus, statusName K = statusName L → K = L := by
  intro K L h
  cases K <;> cases L <;> first | rfl | exact absurd h (by decide)

/-- C6: `getValue(answer, key)` is empty when `key` is empty or `key=` does not occur in
`answer`; otherwise, with `s` the index just after the first occurrence of `key=`, it is the
text from `s` up to the first space at or after `s`, or without such a space up to the first
newline, or with neither the whole remainder. For `answer = "X Y A=1 B=2\n"` the values of
`A`, `B`, `C` and the empty key are `1`, `2`, empty and empty. -/
theorem C6_getValue_spec (answer key : List Char) (hlen : answer.length < npos) :
    (key = [] → Message.getValue answer key = []) ∧
    ((∀ i, ¬ occursAt answer (key ++ "=".toList) i) → Message.getValue answer key = []) ∧
    (∀ i, key ≠ [] → occursAt answer (key ++ "=".toList) i →
      (∀ j, j < i → ¬ occursAt answer (key ++ "=".toList) j) →
      Message.getValue answer key = delimited (answer.drop (i + key.length + 1))) ∧
    Message.getValue "X Y A=1 B=2\n".toList "A".toList = "1".toList ∧
    Message.getValue "X Y A=1 B=2\n".toList "B".toList = "2".toList ∧
    Message.getValue "X Y A=1 B=2\n".toList "C".toList = [] ∧
    Message.getValue "X Y A=1 B=2\n".toList [] = [] := by
  refine ⟨?_, getValue_absent answer key, ?_, by decide, by decide, by decide, by decide⟩
  · intro hk; simp [Message.getValue, hk]
  · intro i hk hi hmin
    exact getValue_present answer key hlen hk i hi hmin

/-- C6 at `answer = "X Y A=1 B=2\n"`, `key = "B"`: the first `B=` stands at index 8, and the
value is what is delimited in the text that starts at index 10. -/
theorem C6_getValue_spec_witness :
    "X Y A=1 B=2\n".toList.length < npos ∧
    Message.getValue "X Y A=1 B=2\n".toList "B".toList
      = delimited ("X Y A=1 B=2\n".toList.drop (8 + "B".toList.length + 1)) :=
  ⟨by decide,
    (C6_getValue_spec "X Y A=1 B=2\n".toList "B".toList (by decide)).2.2.1 8 (by decide)
      (by decide) (by decide)⟩

/-- C7: for every non-empty answer, with `r` its `RESULT` value (so in particular whenever `r`
is non-empty), `checkAnswer` returns the kind `K` among the twelve bridge kinds exactly when
`r` is the name of `K`, returns `CANNOT_PARSE_ERROR` exactly when `r` is none of the twelve
names, and never returns `CLOSED_SOCKET`. -/
theorem C7_checkAnswer_classifies (answer : List Char) (hne : answer ≠ []) :
    (∀ K, K ∈ bridgeKinds →
      (Message.checkAnswer answer = K ↔ Message.getValue answer "RESULT".toList = statusName K)) ∧
    (Message.checkAnswer answer = eStatus.CANNOT_PARSE_ERROR ↔
      ∀ K, K ∈ bridgeKinds → Message.getValue answer "RESULT".toList ≠ statusName K) ∧
    Message.checkAnswer answer ≠ eStatus.CLOSED_SOCKET := by
  rcases checkAnswer_cases answer hne with ⟨L, hL, hrL, hcL⟩ | ⟨hnone, hc⟩
  · refine ⟨?_, ?_, ?_⟩
    · intro K _
      rw [hcL, hrL]
      exact ⟨fun h => by rw [h], fun h => statusName_injective L K h⟩
    · rw [hcL]
      constructor
      · intro h; subst h; exact absurd hL (by decide)
      · intro h; exact absurd hrL (h L hL)
    · rw [hcL]; intro h; subst h; exact absurd hL (by decide)
  · refine ⟨?_, ?_, ?_⟩
    · intro K hK
      rw [hc]
      constructor
      · intro h; subst h; exact absurd hK (by decide)
      · intro h; exact absurd h (hnone K hK)
    · rw [hc]; exact ⟨fun _ => hnone, fun _ => rfl⟩
    · rw [hc]; decide

/-- C7 at the answer `SESSION STATUS RESULT=DUPLICATED_ID\n`. -/
theorem C7_checkAnswer_classifies_witness :
    Message.checkAnswer "SESSION STATUS RESULT=DUPLICATED_ID\n".toList = eStatus.DUPLICATED_ID ∧
    Message.checkAnswer "SESSION STATUS RESULT=duplicated_id\n".toList
      = eStatus.CANNOT_PARSE_ERROR :=
  ⟨((C7_checkAnswer_classifies "SESSION STATUS RESULT=DUPLICATED_ID\n".toList
      (by decide)).1 eStatus.DUPLICATED_ID (by decide)).2 (by decide),
    by decide⟩

/-! ## Session verbs -/

theorem accept_effect (s : NewStreamSession) (silent : Bool) (w : World) :
    (s.accept silent w).2.1.isSick = (s.isSick || decide (s.acceptStatus silent w ∈ sessionFatal))
    ∧ (s.accept silent w).1.isOk = decide (s.acceptStatus silent w = eStatus.OK)
    ∧ (s.accept silent w).2.1.forwardedStreams_ = s.forwardedStreams_ := by
  simp only [NewStreamSession.accept, NewStreamSession.acceptStatus]
  split <;> rename_i h <;>
    simp_all [NewStreamSession.fallSick, NewStreamSession.isSick, sessionFatal, RequestResult.ok,
      RequestResult.failed]

theorem connect_effect (s : NewStreamSession) (destination : List Char) (silent : Bool)
    (w : World) :
    (s.connect destination silent w).2.1.isSick
      = (s.isSick || decide (s.connectStatus destination silent w ∈ sessionFatal))
    ∧ (s.connect destination silent w).1.isOk
      = decide (s.connectStatus destination silent w = eStatus.OK)
    ∧ (s.connect destination silent w).2.1.forwardedStreams_ = s.forwardedStreams_ := by
  simp only [NewStreamSession.connect, NewStreamSession.connectStatus]
  split <;> rename_i h <;>
    simp_all [NewStreamSession.fallSick, NewStreamSession.isSick, sessionFatal, RequestResult.ok,
      RequestResult.failed]

theorem forward_effect (s : NewStreamSession) (host : List Char) (port : Nat) (silent : Bool)
    (w : World) :
    (s.forward host port silent w).2.1.isSick
      = (s.isSick || decide (s.forwardStatus host port silent w ∈ sessionFatal))
    ∧ (s.forward host port silent w).1.isOk
      = decide (s.forwardStatus host port silent w = eStatus.OK)
    ∧ (s.forward host port silent w).2.1.forwardedStreams_.map ForwardedStream.triple
      = s.forwardedStreams_.map ForwardedStream.triple ++
        (if s.forwardStatus host port silent w = eStatus.OK then [(host, port, silent)]
         else []) := by
  simp only [NewStreamSession.forward, NewStreamSession.forwardStatus]
  split <;> rename_i h <;>
    simp_all [NewStreamSession.fallSick, NewStreamSession.isSick, sessionFatal, RequestResult.ok,
      RequestResult.failed, ForwardedStream.triple]

/-- C1: for each of `accept`, `connect` and `forward` and whatever status its request yields,
the session is sick after the call if and only if it was sick before or the status is
`EMPTY_ANSWER`, `CLOSED_SOCKET` or `INVALID_ID`; the nine per-request kinds leave the sick flag
as it was; and the call returns a failed result for every status other than `OK`. -/
theorem C1_sick_iff_fatal_status (s : NewStreamSession) (destination host : List Char)
    (port : Nat) (silent : Bool) (w : World) :
    (((s.accept silent w).2.1.isSick = true ↔
        s.isSick = true ∨ s.acceptStatus silent w ∈ sessionFatal) ∧
      (s.acceptStatus silent w ∈ perRequest → (s.accept silent w).2.1.isSick = s.isSick) ∧
      (s.acceptStatus silent w ≠ eStatus.OK → (s.accept silent w).1.isOk = false)) ∧
    (((s.connect destination silent w).2.1.isSick = true ↔
        s.isSick = true ∨ s.connectStatus destination silent w ∈ sessionFatal) ∧
      (s.connectStatus destination silent w ∈ perRequest →
        (s.connect destination silent w).2.1.isSick = s.isSick) ∧
      (s.connectStatus destination silent w ≠ eStatus.OK →
        (s.connect destination silent w).1.isOk = false)) ∧
    (((s.forward host port silent w).2.1.isSick = true ↔
        s.isSick = true ∨ s.forwardStatus host port silent w ∈ sessionFatal) ∧
      (s.forwardStatus host port silent w ∈ perRequest →
        (s.forward host port silent w).2.1.isSick = s.isSick) ∧
      (s.forwardStatus host port silent w ≠ eStatus.OK →
        (s.forward host port silent w).1.isOk = false)) := by
  have key : ∀ (after before ok : Bool) (st : eStatus),
      after = (before || decide (st ∈ sessionFatal)) → ok = decide (st = eStatus.OK) →
      ((after = true ↔ before = true ∨ st ∈ sessionFatal) ∧
        (st ∈ perRequest → after = before) ∧ (st ≠ eStatus.OK → ok = false)) := by
    intro after before ok st h1 h2
    subst h1 h2
    refine ⟨by simp, ?_, by simp⟩
    intro hst
    cases st <;> first | (exact absurd hst (by decide)) | simp [sessionFatal]
  exact ⟨key _ _ _ _ (accept_effect s silent w).1 (accept_effect s silent w).2.1,
    key _ _ _ _ (connect_effect s destination silent w).1
      (connect_effect s destination silent w).2.1,
    key _ _ _ _ (forward_effect s host port silent w).1
      (forward_effect s host port silent w).2.1⟩

/-! ## Stopping forwards -/

theorem stopForwardingLoop_eq (host : List Char) (port : Nat) :
    ∀ (rest done : List ForwardedStream),
      NewStreamSession.stopForwardingLoop host port done rest
        = done ++ rest.filter (fun f => !decide (f.host = host ∧ f.port = port)) := by
  intro rest
  induction rest with
  | nil => intro done; simp [NewStreamSession.stopForwardingLoop]
  | cons f rest ih =>
    intro done
    by_cases hf : f.port = port ∧ f.host = host
    · have hf2 : f.host = host ∧ f.port = port := ⟨hf.2, hf.1⟩
      simp only [NewStreamSession.stopForwardingLoop, if_pos hf, ih]
      rw [List.filter_cons_of_neg (by simp [hf2])]
    · have hf2 : ¬ (f.host = host ∧ f.port = port) := fun h => hf ⟨h.2, h.1⟩
      simp only [NewStreamSession.stopForwardingLoop, if_neg hf, ih]
      rw [List.filter_cons_of_pos (by simp only [hf2, decide_False, Bool.not_false])]
      simp

/-- C4: after `stopForwarding(h, p)` the forward list is the list before with exactly the
records whose host is `h` and whose port is `p` taken out, the others unchanged and in their
order; the sick flag, the session id and the destination (and the other members) are
unchanged. -/
theorem C4_stopForwarding_removes_matches (s : NewStreamSession) (h : List Char) (p : Nat) :
    (s.stopForwarding h p).forwardedStreams_
      = s.forwardedStreams_.filter (fun f => !decide (f.host = h ∧ f.port = p)) ∧
    (∀ f, f ∈ (s.stopForwarding h p).forwardedStreams_ ↔
      f ∈ s.forwardedStreams_ ∧ ¬ (f.host = h ∧ f.port = p)) ∧
    (s.stopForwarding h p).forwardedStreams_.Sublist s.forwardedStreams_ ∧
    (s.stopForwarding h p).isSick = s.isSick ∧
    (s.stopForwarding h p).sessionID_ = s.sessionID_ ∧
    (s.stopForwarding h p).myDestination_ = s.myDestination_ ∧
    (s.stopForwarding h p).socket_ = s.socket_ ∧
    (s.stopForwarding h p).nickname_ = s.nickname_ ∧
    (s.stopForwarding h p).i2pOptions_ = s.i2pOptions_ := by
  have e : (s.stopForwarding h p).forwardedStreams_
      = s.forwardedStreams_.filter (fun f => !decide (f.host = h ∧ f.port = p)) := by
    simp [NewStreamSession.stopForwarding, stopForwardingLoop_eq]
  refine ⟨e, ?_, ?_, rfl, rfl, rfl, rfl, rfl, rfl⟩
  · intro f
    rw [e, List.mem_filter]
    simp only [Bool.not_eq_true', decide_eq_false_iff_not]
  · rw [e]
    exact List.filter_sublist _

theorem stopForwardingAllLoop_stuck :
    ∀ (fuel : Nat) (done : List ForwardedStream) (f : ForwardedStream)
      (rest : List ForwardedStream),
      NewStreamSession.stopForwardingAllLoop fuel done (f :: rest) = none := by
  intro fuel
  induction fuel with
  | zero => intro done f rest; rfl
  | succ n ih =>
    intro done f rest
    simp only [NewStreamSession.stopForwardingAllLoop]
    exact ih done _ rest

/-- C5 (the code contradicts it): whatever the number of iterations granted, `stopForwardingAll`
on a session that holds at least one forward does not return, and neither does the destructor;
on a session without forwards both return at once. -/
theorem C5_stopForwardingAll_hangs (fuel : Nat) (s : NewStreamSession) (f : ForwardedStream)
    (rest : List ForwardedStream) :
    NewStreamSession.stopForwardingAll fuel { s with forwardedStreams_ := f :: rest } = none ∧
    NewStreamSession.destroy fuel { s with forwardedStreams_ := f :: rest } = none ∧
    NewStreamSession.stopForwardingAll (fuel + 1) { s with forwardedStreams_ := [] }
      = some { s with forwardedStreams_ := [] } ∧
    NewStreamSession.destroy (fuel + 1) { s with forwardedStreams_ := [] } = some () := by
  refine ⟨?_, ?_, ?_, ?_⟩
  · simp [NewStreamSession.stopForwardingAll, stopForwardingAllLoop_stuck]
  · simp [NewStreamSession.destroy, NewStreamSession.stopForwardingAll,
      stopForwardingAllLoop_stuck]
  · simp [NewStreamSession.stopForwardingAll, NewStreamSession.stopForwardingAllLoop]
  · simp [NewStreamSession.destroy, NewStreamSession.stopForwardingAll,
      NewStreamSession.stopForwardingAllLoop]

/-! ## Session identifiers -/

theorem sessionIDLetter_mem (r : Nat) : sessionIDLetter r ∈ NewStreamSession.sessionIDAlphabet := by
  unfold sessionIDLetter
  have hlen : NewStreamSession.sessionIDAlphabet.length = 26 := by decide
  have hlt : r % NewStreamSession.sessionIDAlphabet.length
      < NewStreamSession.sessionIDAlphabet.length := by
    rw [hlen]; exact Nat.mod_lt _ (by decide)
  rw [List.getD_eq_getElem _ _ hlt]
  exact List.getElem_mem _

theorem charLoop_eq :
    ∀ (n : Nat) (acc : List Char) (rand : List Nat),
      NewStreamSession.charLoop n acc rand
        = if n ≤ rand.length then some (acc ++ (rand.take n).map sessionIDLetter, rand.drop n)
          else none := by
  intro n
  induction n with
  | zero => intro acc rand; simp [NewStreamSession.charLoop]
  | succ n ih =>
    intro acc rand
    cases rand with
    | nil => simp [NewStreamSession.charLoop]
    | cons r rest =>
      simp only [NewStreamSession.charLoop, ih, List.length_cons, Nat.add_le_add_iff_right,
        List.take_succ_cons, List.map_cons, List.drop_succ_cons]
      by_cases h : n ≤ rest.length
      · simp [h, sessionIDLetter]
      · simp [h]

theorem lengthLoop_some :
    ∀ (rand : List Nat) (len l : Nat) (rest : List Nat), len < 5 →
      NewStreamSession.lengthLoop len rand = some (l, rest) →
      ∃ k, firstLengthAt rand k ∧ l = rand.getD k 0 % 9 ∧ rest = rand.drop (k + 1) := by
  intro rand
  induction rand with
  | nil =>
    intro len l rest hlen h
    simp [NewStreamSession.lengthLoop, NewStreamSession.minSessionIDLength, hlen] at h
  | cons r rs ih =>
    intro len l rest hlen h
    simp only [NewStreamSession.lengthLoop, NewStreamSession.minSessionIDLength, if_pos hlen,
      NewStreamSession.maxSessionIDLength] at h
    by_cases hr : r % 9 < 5
    · obtain ⟨k, ⟨hk1, hk2, hk3⟩, hl, hrest⟩ := ih (r % 9) l rest hr h
      refine ⟨k + 1, ⟨by simpa using hk1, ?_, by simpa using hk3⟩, by simpa using hl,
        by simpa using hrest⟩
      intro j hj
      cases j with
      | zero => simpa using hr
      | succ j => simpa using hk2 j (by omega)
    · cases rs with
      | nil =>
        simp only [NewStreamSession.lengthLoop, NewStreamSession.minSessionIDLength, if_neg hr,
          Option.some.injEq, Prod.mk.injEq] at h
        refine ⟨0, ⟨by simp, by intro j hj; omega, by simpa using hr⟩, by simpa using h.1.symm,
          by simpa using h.2.symm⟩
      | cons r2 rs2 =>
        simp only [NewStreamSession.lengthLoop, NewStreamSession.minSessionIDLength, if_neg hr,
          Option.some.injEq, Prod.mk.injEq] at h
        refine ⟨0, ⟨by simp, by intro j hj; omega, by simpa using hr⟩, by simpa using h.1.symm,
          by simpa using h.2.symm⟩

theorem lengthLoop_first :
    ∀ (rand : List Nat) (len k : Nat), len < 5 → firstLengthAt rand k →
      NewStreamSession.lengthLoop len rand = some (rand.getD k 0 % 9, rand.drop (k + 1)) := by
  intro rand
  induction rand with
  | nil => intro len k _ h; exact absurd h.1 (by simp)
  | cons r rs ih =>
    intro len k hlen h
    obtain ⟨hk1, hk2, hk3⟩ := h
    simp only [NewStreamSession.lengthLoop, NewStreamSession.minSessionIDLength, if_pos hlen,
      NewStreamSession.maxSessionIDLength]
    cases k with
    | zero =>
      have hr : ¬ r % 9 < 5 := by simpa using hk3
      cases rs with
      | nil => simp [NewStreamSession.lengthLoop, NewStreamSession.minSessionIDLength, hr]
      | cons r2 rs2 => simp [NewStreamSession.lengthLoop, NewStreamSession.minSessionIDLength, hr]
    | succ k =>
      have hr : r % 9 < 5 := by simpa using hk2 0 (by omega)
      have := ih (r % 9) k hr ⟨by simpa using hk1,
        fun j hj => by simpa using hk2 (j + 1) (by omega), by simpa using hk3⟩
      simpa using this

theorem generateSessionID_returns (rand : List Nat) (k : Nat) (h : firstLengthAt rand k)
    (hlen : k + 1 + rand.getD k 0 % 9 ≤ rand.length) :
    NewStreamSession.generateSessionID rand
      = some (((rand.drop (k + 1)).take (rand.getD k 0 % 9)).map sessionIDLetter,
          rand.drop (k + 1 + rand.getD k 0 % 9)) := by
  unfold NewStreamSession.generateSessionID
  rw [show NewStreamSession.minSessionIDLength - 1 = 4 from rfl,
    lengthLoop_first rand 4 k (by decide) h]
  simp only [charLoop_eq, List.length_drop]
  rw [if_pos (by omega)]
  simp [List.drop_drop, Nat.add_comm]

theorem generateSessionID_some (rand : List Nat) (id : List Char) (rest : List Nat)
    (h : NewStreamSession.generateSessionID rand = some (id, rest)) :
    ∃ k, firstLengthAt rand k ∧ k + 1 + rand.getD k 0 % 9 ≤ rand.length ∧
      id = ((rand.drop (k + 1)).take (rand.getD k 0 % 9)).map sessionIDLetter ∧
      rest = rand.drop (k + 1 + rand.getD k 0 % 9) := by
  unfold NewStreamSession.generateSessionID at h
  cases hl : NewStreamSession.lengthLoop (NewStreamSession.minSessionIDLength - 1) rand with
  | none => simp [hl] at h
  | some l =>
    obtain ⟨k, hk, hl1, hl2⟩ := lengthLoop_some rand 4 l.1 l.2 (by decide) hl
    simp only [hl, charLoop_eq] at h
    by_cases hle : l.1 ≤ l.2.length
    · rw [if_pos hle] at h
      simp only [List.nil_append, Option.some.injEq, Prod.mk.injEq] at h
      rw [hl2, List.length_drop] at hle
      refine ⟨k, hk, by have := hk.1; omega, ?_, ?_⟩
      · rw [← h.1, hl2, hl1]
      · rw [← h.2, hl2, hl1, List.drop_drop, Nat.add_comm]
    · rw [if_neg hle] at h
      exact absurd h (by simp)


/-- C10: on every sequence of `rand()` values on which `generateSessionID` returns, the length
`l` of the id is the first drawn value of `rand() % 9` that is at least 5, so `5 <= l <= 8`,
every character is one of the letters `A..Z`, the `i`-th character being the letter at index
`rand() % 26` of the `i`-th draw after that; and the generator does return as soon as such a
draw and the `l` draws after it are there. -/
theorem C10_sessionID_format (rand : List Nat) :
    (∀ id rest, NewStreamSession.generateSessionID rand = some (id, rest) →
      ∃ k, firstLengthAt rand k ∧ id.length = rand.getD k 0 % 9 ∧
        5 ≤ id.length ∧ id.length ≤ 8 ∧
        (∀ c, c ∈ id → c ∈ "ABCDEFGHIJKLMNOPQRSTUVWXYZ".toList) ∧
        (∀ i, i < id.length → id[i]? = some (sessionIDLetter (rand.getD (k + 1 + i) 0))) ∧
        rest = rand.drop (k + 1 + id.length)) ∧
    (∀ k, firstLengthAt rand k → k + 1 + rand.getD k 0 % 9 ≤ rand.length →
      ∃ id rest, NewStreamSession.generateSessionID rand = some (id, rest)) := by
  constructor
  · intro id rest h
    obtain ⟨k, hk, hle, hid, hrest⟩ := generateSessionID_some rand id rest h
    have hidlen : id.length = rand.getD k 0 % 9 := by
      rw [hid, List.length_map, List.length_take, List.length_drop]
      omega
    have h9 : rand.getD k 0 % 9 < 9 := Nat.mod_lt _ (by decide)
    refine ⟨k, hk, hidlen, by have := hk.2.2; omega, by omega, ?_, ?_, by rw [hidlen]; exact hrest⟩
    · intro c hc
      rw [hid, List.mem_map] at hc
      obtain ⟨r, _, rfl⟩ := hc
      exact sessionIDLetter_mem r
    · intro i hi
      have hin : k + 1 + i < rand.length := by omega
      rw [hid, List.getElem?_map, List.getElem?_take_of_lt (by omega), List.getElem?_drop,
        List.getElem?_eq_getElem hin, List.getD_eq_getElem _ _ hin]
      rfl
  · intro k hk hle
    exact ⟨_, _, generateSessionID_returns rand k hk hle⟩

/-- C10 on the draws `3, 14, 0, 1, 2, 25, 26, 99`: the length is `14 % 9 = 5` and the id is
`ABCZA`. -/
theorem C10_sessionID_format_witness :
    NewStreamSession.generateSessionID [3, 14, 0, 1, 2, 25, 26, 99] = some ("ABCZA".toList, [99]) ∧
    ∃ k, firstLengthAt [3, 14, 0, 1, 2, 25, 26, 99] k ∧
      "ABCZA".toList.length = [3, 14, 0, 1, 2, 25, 26, 99].getD k 0 % 9 ∧
      5 ≤ "ABCZA".toList.length ∧ "ABCZA".toList.length ≤ 8 ∧
      (∀ c, c ∈ "ABCZA".toList → c ∈ "ABCDEFGHIJKLMNOPQRSTUVWXYZ".toList) ∧
      (∀ i, i < "ABCZA".toList.length →
        "ABCZA".toList[i]? = some (sessionIDLetter ([3, 14, 0, 1, 2, 25, 26, 99].getD (k + 1 + i) 0))) ∧
      [99] = [3, 14, 0, 1, 2, 25, 26, 99].drop (k + 1 + "ABCZA".toList.length) :=
  ⟨by decide,
    (C10_sessionID_format [3, 14, 0, 1, 2, 25, 26, 99]).1 "ABCZA".toList [99] (by decide)⟩

/-! ## Session creation -/

theorem createStreamSession_effect (s : NewStreamSession) (dest : List Char) (w : World) :
    (s.createStatus dest w ≠ eStatus.OK →
      (s.createStreamSession dest w).1 = FullDestination.blank ∧
      (s.createStreamSession dest w).2.1.isSick = true) ∧
    (s.createStatus dest w = eStatus.OK →
      (s.createStreamSession dest w).1
        = ⟨substr (s.createValue dest w) 0 I2P_DESTINATION_SIZE, s.createValue dest w,
            decide (dest = SAM_GENERATE_MY_DESTINATION)⟩ ∧
      (s.createStreamSession dest w).2.1.isSick = s.isSick) := by
  simp only [NewStreamSession.createStreamSession, NewStreamSession.createStatus,
    NewStreamSession.createValue]
  constructor
  · intro h
    simp [h, NewStreamSession.isSick]
  · intro h
    simp [h, NewStreamSession.isSick]

theorem createValue_eq (s : NewStreamSession) (dest : List Char) (w : World)
    (h : s.createStatus dest w = eStatus.OK) :
    s.createValue dest w
      = Message.getValue
          (NewStreamSession.rawRequest s.socket_
            (Message.sessionCreate Message.SessionStyle.sssStream s.sessionID_ s.nickname_ dest
              s.i2pOptions_) w).1.value "DESTINATION".toList := by
  simp only [NewStreamSession.createStatus, NewStreamSession.createStreamSessionOn,
    NewStreamSession.requestKey] at h
  simp only [NewStreamSession.createValue, NewStreamSession.createStreamSessionOn,
    NewStreamSession.requestKey]
  split at h
  · rename_i hok
    rw [if_pos hok]
  · rename_i hok
    exact absurd h hok

theorem new_of_status (nickname SAMHost : List Char) (SAMPort : Nat)
    (destination i2pOptions minVer maxVer : List Char) (w : World) (st : eStatus)
    (h : NewStreamSession.newStatus nickname SAMHost SAMPort destination i2pOptions minVer maxVer w
      = some st) :
    ∃ (r : NewStreamSession × World) (s0 : NewStreamSession) (w0 : World),
      NewStreamSession.new nickname SAMHost SAMPort destination i2pOptions minVer maxVer w = some r ∧
      s0.isSick = false ∧ st = s0.createStatus destination w0 ∧
      r.1.myDestination_ = (s0.createStreamSession destination w0).1 ∧
      r.1.isSick = (s0.createStreamSession destination w0).2.1.isSick := by
  simp only [NewStreamSession.newStatus] at h
  simp only [NewStreamSession.new]
  cases hg : NewStreamSession.generateSessionID
      (Socket.new SAMHost SAMPort minVer maxVer w).2.rand with
  | none => simp [hg] at h
  | some g =>
    simp only [hg, Option.some.injEq] at h
    exact ⟨_, NewStreamSession.newInit (Socket.new SAMHost SAMPort minVer maxVer w).1 nickname g.1
      i2pOptions, { (Socket.new SAMHost SAMPort minVer maxVer w).2 with rand := g.2 },
      rfl, rfl, h.symm, rfl, rfl⟩

theorem substr_zero_shape (v : List Char) :
    substr v 0 I2P_DESTINATION_SIZE = v.take 516 ∧
    (substr v 0 I2P_DESTINATION_SIZE).length = min 516 v.length := by
  simp [substr, I2P_DESTINATION_SIZE]

/-- C8, amended: for every SESSION CREATE reply classified OK, with `priv` the reply's
`DESTINATION` value, the destination returned (and stored by the constructor) has
`pub` = the first 516 characters of `priv`, of length `min(516, length(priv))`: 516 when the
value has at least 516 characters, and all of `priv` when it is shorter. -/
theorem C8_destination_shape_amended :
    (∀ (s : NewStreamSession) (dest : List Char) (w : World),
      s.createStatus dest w = eStatus.OK →
      (s.createStreamSession dest w).1.priv
        = Message.getValue
            (NewStreamSession.rawRequest s.socket_
              (Message.sessionCreate Message.SessionStyle.sssStream s.sessionID_ s.nickname_ dest
                s.i2pOptions_) w).1.value "DESTINATION".toList ∧
      (s.createStreamSession dest w).1.pub = (s.createStreamSession dest w).1.priv.take 516 ∧
      (s.createStreamSession dest w).1.pub.length
        = min 516 (s.createStreamSession dest w).1.priv.length ∧
      (516 ≤ (s.createStreamSession dest w).1.priv.length →
        (s.createStreamSession dest w).1.pub.length = 516)) ∧
    (∀ (nickname SAMHost : List Char) (SAMPort : Nat)
        (destination i2pOptions minVer maxVer : List Char) (w : World),
      NewStreamSession.newStatus nickname SAMHost SAMPort destination i2pOptions minVer maxVer w
        = some eStatus.OK →
      ∃ r, NewStreamSession.new nickname SAMHost SAMPort destination i2pOptions minVer maxVer w
          = some r ∧
        r.1.getMyDestination.pub = r.1.getMyDestination.priv.take 516 ∧
        r.1.getMyDestination.pub.length = min 516 r.1.getMyDestination.priv.length ∧
        (516 ≤ r.1.getMyDestination.priv.length → r.1.getMyDestination.pub.length = 516)) := by
  have shape : ∀ (s : NewStreamSession) (dest : List Char) (w : World),
      s.createStatus dest w = eStatus.OK →
      (s.createStreamSession dest w).1.priv = s.createValue dest w ∧
      (s.createStreamSession dest w).1.pub = (s.createStreamSession dest w).1.priv.take 516 ∧
      (s.createStreamSession dest w).1.pub.length
        = min 516 (s.createStreamSession dest w).1.priv.length := by
    intro s dest w h
    have e := ((createStreamSession_effect s dest w).2 h).1
    rw [e]
    exact ⟨rfl, (substr_zero_shape _).1, (substr_zero_shape _).2⟩
  constructor
  · intro s dest w h
    obtain ⟨h1, h2, h3⟩ := shape s dest w h
    refine ⟨by rw [h1, createValue_eq s dest w h], h2, h3, ?_⟩
    intro hl
    rw [h3]; omega
  · intro nickname SAMHost SAMPort destination i2pOptions minVer maxVer w h
    obtain ⟨r, s0, w0, hr, _, hst, hd, _⟩ :=
      new_of_status nickname SAMHost SAMPort destination i2pOptions minVer maxVer w _ h
    obtain ⟨_, h2, h3⟩ := shape s0 destination w0 hst.symm
    refine ⟨r, hr, ?_, ?_, ?_⟩
    · simp only [NewStreamSession.getMyDestination, hd]; exact h2
    · simp only [NewStreamSession.getMyDestination, hd]; exact h3
    · intro hl
      simp only [NewStreamSession.getMyDestination, hd] at hl ⊢
      rw [h3]; omega

/-- C8 as stated fails: the reply `SESSION STATUS RESULT=OK DESTINATION=abc` is classified OK
and the session stores a `pub` of three characters. -/
theorem C8_destination_shape_counterexample :
    NewStreamSession.newStatus "nick".toList "127.0.0.1".toList 7656 "TRANSIENT".toList []
        "3.0".toList "3.1".toList shortDestinationWorld = some eStatus.OK ∧
    (NewStreamSession.new "nick".toList "127.0.0.1".toList 7656 "TRANSIENT".toList []
        "3.0".toList "3.1".toList shortDestinationWorld).map
        (fun r => (r.1.getMyDestination.pub, r.1.getMyDestination.pub.length))
      = some ("abc".toList, 3) ∧
    ¬ (3 = 516) := by
  decide

/-- C8, amended, on the run `shortDestinationWorld`. -/
theorem C8_destination_shape_amended_witness :
    NewStreamSession.newStatus "nick".toList "127.0.0.1".toList 7656 "TRANSIENT".toList []
        "3.0".toList "3.1".toList shortDestinationWorld = some eStatus.OK ∧
    ∃ r, NewStreamSession.new "nick".toList "127.0.0.1".toList 7656 "TRANSIENT".toList []
          "3.0".toList "3.1".toList shortDestinationWorld = some r ∧
      r.1.getMyDestination.pub = r.1.getMyDestination.priv.take 516 ∧
      r.1.getMyDestination.pub.length = min 516 r.1.getMyDestination.priv.length ∧
      (516 ≤ r.1.getMyDestination.priv.length → r.1.getMyDestination.pub.length = 516) :=
  ⟨by decide,
    C8_destination_shape_amended.2 "nick".toList "127.0.0.1".toList 7656 "TRANSIENT".toList []
      "3.0".toList "3.1".toList shortDestinationWorld (by decide)⟩

/-- C9: when the status of SESSION CREATE is not OK the creation step marks the session sick
and returns the blank destination, so the constructed session is sick with a blank stored
destination; when the status is OK the creation step leaves the sick flag as it was, so the
constructed session is not sick. The constructor returns whenever the id is generated. -/
theorem C9_non_ok_create_is_sick :
    (∀ (s : NewStreamSession) (dest : List Char) (w : World),
      (s.createStatus dest w ≠ eStatus.OK →
        (s.createStreamSession dest w).2.1.isSick = true ∧
        (s.createStreamSession dest w).1 = FullDestination.blank) ∧
      (s.createStatus dest w = eStatus.OK →
        (s.createStreamSession dest w).2.1.isSick = s.isSick)) ∧
    (∀ (nickname SAMHost : List Char) (SAMPort : Nat)
        (destination i2pOptions minVer maxVer : List Char) (w : World) (st : eStatus),
      NewStreamSession.newStatus nickname SAMHost SAMPort destination i2pOptions minVer maxVer w
        = some st →
      ∃ r, NewStreamSession.new nickname SAMHost SAMPort destination i2pOptions minVer maxVer w
          = some r ∧
        (st ≠ eStatus.OK → r.1.isSick = true ∧ r.1.getMyDestination = FullDestination.blank) ∧
        (st = eStatus.OK → r.1.isSick = false)) := by
  constructor
  · intro s dest w
    have e := createStreamSession_effect s dest w
    exact ⟨fun h => ⟨(e.1 h).2, (e.1 h).1⟩, fun h => (e.2 h).2⟩
  · intro nickname SAMHost SAMPort destination i2pOptions minVer maxVer w st h
    obtain ⟨r, s0, w0, hr, hs0, hst, hd, hsick⟩ :=
      new_of_status nickname SAMHost SAMPort destination i2pOptions minVer maxVer w _ h
    have e := createStreamSession_effect s0 destination w0
    refine ⟨r, hr, ?_, ?_⟩
    · intro hne
      rw [hst] at hne
      exact ⟨by rw [hsick]; exact (e.1 hne).2,
        by simp only [NewStreamSession.getMyDestination, hd]; exact (e.1 hne).1⟩
    · intro hok
      rw [hst] at hok
      rw [hsick, (e.2 hok).2, hs0]

/-- C9 on the run `duplicatedIdWorld`: the session is born sick with the blank destination. -/
theorem C9_non_ok_create_is_sick_witness :
    NewStreamSession.newStatus "nick".toList "127.0.0.1".toList 7656 "TRANSIENT".toList []
        "3.0".toList "3.1".toList duplicatedIdWorld = some eStatus.DUPLICATED_ID ∧
    ∃ r, NewStreamSession.new "nick".toList "127.0.0.1".toList 7656 "TRANSIENT".toList []
          "3.0".toList "3.1".toList duplicatedIdWorld = some r ∧
      (eStatus.DUPLICATED_ID ≠ eStatus.OK →
        r.1.isSick = true ∧ r.1.getMyDestination = FullDestination.blank) ∧
      (eStatus.DUPLICATED_ID = eStatus.OK → r.1.isSick = false) :=
  ⟨by decide,
    C9_non_ok_create_is_sick.2 "nick".toList "127.0.0.1".toList 7656 "TRANSIENT".toList []
      "3.0".toList "3.1".toList duplicatedIdWorld eStatus.DUPLICATED_ID (by decide)⟩

/-! ## Copy construction -/

theorem reForward_effect :
    ∀ (fs : List ForwardedStream) (s : NewStreamSession) (w : World),
      (NewStreamSession.reForwardStatuses fs s w).length = fs.length ∧
      (NewStreamSession.reForward fs s w).1.forwardedStreams_.map ForwardedStream.triple
        = s.forwardedStreams_.map ForwardedStream.triple
          ++ keptTriples fs (NewStreamSession.reForwardStatuses fs s w) ∧
      (NewStreamSession.reForward fs s w).1.isSick
        = (s.isSick ||
            (NewStreamSession.reForwardStatuses fs s w).any (fun st => decide (st ∈ sessionFatal)))
      := by
  intro fs
  induction fs with
  | nil =>
    intro s w
    simp [NewStreamSession.reForward, NewStreamSession.reForwardStatuses, keptTriples]
  | cons f fs ih =>
    intro s w
    obtain ⟨h1, h2, h3⟩ := ih (s.forward f.host f.port f.silent w).2.1
      (s.forward f.host f.port f.silent w).2.2
    obtain ⟨e1, _, e3⟩ := forward_effect s f.host f.port f.silent w
    simp only [NewStreamSession.reForward, NewStreamSession.reForwardStatuses, List.length_cons,
      h1, h2, h3, e1, e3, keptTriples, List.any_cons, true_and]
    constructor
    · by_cases hst : s.forwardStatus f.host f.port f.silent w = eStatus.OK
      · simp [hst, ForwardedStream.triple]
      · simp [hst]
    · simp [Bool.or_assoc]

theorem keptTriples_sublist :
    ∀ (fs : List ForwardedStream) (sts : List eStatus),
      (keptTriples fs sts).Sublist (fs.map ForwardedStream.triple) := by
  intro fs
  induction fs with
  | nil => intro sts; simp [keptTriples]
  | cons f fs ih =>
    intro sts
    cases sts with
    | nil => simp [keptTriples]
    | cons st sts =>
      simp only [keptTriples, List.map_cons]
      by_cases h : st = eStatus.OK
      · rw [if_pos h]; exact (ih sts).cons₂ _
      · rw [if_neg h]; exact (ih sts).cons _

theorem keptTriples_all_ok :
    ∀ (fs : List ForwardedStream) (sts : List eStatus), sts.length = fs.length →
      (∀ st, st ∈ sts → st = eStatus.OK) → keptTriples fs sts = fs.map ForwardedStream.triple := by
  intro fs
  induction fs with
  | nil => intro sts _ _; cases sts <;> simp [keptTriples]
  | cons f fs ih =>
    intro sts hlen hall
    cases sts with
    | nil => simp at hlen
    | cons st sts =>
      have hst : st = eStatus.OK := hall st (by simp)
      simp only [keptTriples, if_pos hst, List.map_cons]
      rw [ih sts (by simpa using hlen) (fun x hx => hall x (by simp [hx]))]

theorem create_sick_flag (s0 : NewStreamSession) (dest : List Char) (w0 : World)
    (hs0 : s0.isSick = false) :
    (s0.createStreamSession dest w0).2.1.isSick = decide (s0.createStatus dest w0 ≠ eStatus.OK) ∧
    (s0.createStreamSession dest w0).2.1.forwardedStreams_ = s0.forwardedStreams_ := by
  constructor
  · by_cases hst : s0.createStatus dest w0 = eStatus.OK
    · rw [((createStreamSession_effect s0 dest w0).2 hst).2, hs0]
      simp [hst]
    · rw [((createStreamSession_effect s0 dest w0).1 hst).2]
      simp [hst]
  · simp only [NewStreamSession.createStreamSession]
    split <;> rfl

theorem copy_of_statuses (rhs : NewStreamSession) (w : World) (sts : List eStatus)
    (h : copyForwardStatuses rhs w = some sts) :
    ∃ (c : NewStreamSession × NewStreamSession × World) (cst : eStatus) (s1 : NewStreamSession)
      (w1 : World),
      NewStreamSession.copy rhs w = some c ∧ copyCreateStatus rhs w = some cst ∧
      s1.forwardedStreams_ = [] ∧ s1.isSick = decide (cst ≠ eStatus.OK) ∧
      sts = NewStreamSession.reForwardStatuses rhs.forwardedStreams_ s1 w1 ∧
      c.1 = (NewStreamSession.reForward rhs.forwardedStreams_ s1 w1).1 ∧
      c.2.1 = NewStreamSession.donated rhs := by
  simp only [copyForwardStatuses] at h
  simp only [NewStreamSession.copy, copyCreateStatus]
  cases hg : NewStreamSession.generateSessionID (Socket.copy rhs.socket_ w).2.rand with
  | none => simp [hg] at h
  | some g =>
    simp only [hg, Option.some.injEq] at h
    have hflag := create_sick_flag
      (NewStreamSession.copyInit rhs (Socket.copy rhs.socket_ w).1 g.1) rhs.myDestination_.priv
      { (Socket.copy rhs.socket_ w).2 with rand := g.2 } rfl
    exact ⟨_, _, _, _, rfl, rfl, hflag.2, hflag.1, h.symm, rfl, rfl⟩

theorem reborn_of_sick_copy (fuel : Nat) (h : SessionHolder) (w : World)
    (c : NewStreamSession × NewStreamSession × World)
    (hc : NewStreamSession.copy h.session_ w = some c) (hs : c.1.isSick = true) :
    (∀ r, h.reborn fuel w = some r → r = (⟨c.2.1⟩, c.2.2)) ∧
    (c.1.forwardedStreams_ = [] → h.reborn (fuel + 1) w = some (⟨c.2.1⟩, c.2.2)) := by
  have hcond : ¬ (c.1.isSick = false ∧ c.2.1.isSick = true) := by
    intro hh
    rw [hs] at hh
    exact absurd hh.1 (by simp)
  constructor
  · intro r hr
    simp only [SessionHolder.reborn, hc, if_neg hcond] at hr
    cases hd : c.1.destroy fuel with
    | none => simp [hd] at hr
    | some u =>
      simp only [hd, Option.some.injEq] at hr
      exact hr.symm
  · intro hf
    simp only [SessionHolder.reborn, hc, if_neg hcond]
    simp [NewStreamSession.destroy, NewStreamSession.stopForwardingAll, hf,
      NewStreamSession.stopForwardingAllLoop]

/-- C3, amended: the copy constructor returns whenever the id is generated; the forward list
of the session it builds consists of the donor's `(host, port, silent)` triples whose re-issued
STREAM FORWARD request obtained `OK`, in the donor's order, hence all of them when every such
request obtained `OK`. The new session is sick exactly when its SESSION CREATE request did not
obtain `OK` or some re-issued request obtained `EMPTY_ANSWER`, `CLOSED_SOCKET` or `INVALID_ID`:
a re-forward with one of these three statuses leaves it sick, a re-forward that fails with any
other status is dropped and does not make it sick. A sick new session is not adopted: whenever
`reborn` returns, the supervisor holds the donor, and `reborn` does return when the new session
holds no forward. The donor is left sick. -/
theorem C3_reforward_amended (rhs : NewStreamSession) (w : World) (sts : List eStatus)
    (h : copyForwardStatuses rhs w = some sts) :
    ∃ (c : NewStreamSession × NewStreamSession × World) (cst : eStatus),
      NewStreamSession.copy rhs w = some c ∧ copyCreateStatus rhs w = some cst ∧
      sts.length = rhs.forwardedStreams_.length ∧
      c.1.forwardedStreams_.map ForwardedStream.triple = keptTriples rhs.forwardedStreams_ sts ∧
      (c.1.forwardedStreams_.map ForwardedStream.triple).Sublist
        (rhs.forwardedStreams_.map ForwardedStream.triple) ∧
      ((∀ st, st ∈ sts → st = eStatus.OK) →
        c.1.forwardedStreams_.map ForwardedStream.triple
          = rhs.forwardedStreams_.map ForwardedStream.triple) ∧
      (c.1.isSick = true ↔ cst ≠ eStatus.OK ∨ ∃ st, st ∈ sts ∧ st ∈ sessionFatal) ∧
      ((∃ st, st ∈ sts ∧ st ∈ sessionFatal) → c.1.isSick = true) ∧
      (cst = eStatus.OK → (∀ st, st ∈ sts → st ∉ sessionFatal) → c.1.isSick = false) ∧
      (c.1.isSick = false → ∀ st, st ∈ sts → st ∉ sessionFatal) ∧
      (c.1.isSick = true →
        ∀ fuel r, SessionHolder.reborn fuel ⟨rhs⟩ w = some r → r = (⟨c.2.1⟩, c.2.2)) ∧
      (c.1.isSick = true → c.1.forwardedStreams_ = [] →
        ∀ fuel, SessionHolder.reborn (fuel + 1) ⟨rhs⟩ w = some (⟨c.2.1⟩, c.2.2)) ∧
      c.2.1 = NewStreamSession.donated rhs ∧
      c.2.1.isSick = true := by
  obtain ⟨c, cst, s1, w1, hc, hcst, hfs, hs1, hsts, hc1, hc2⟩ := copy_of_statuses rhs w sts h
  obtain ⟨e1, e2, e3⟩ := reForward_effect rhs.forwardedStreams_ s1 w1
  rw [← hsts, ← hc1] at e2 e3
  rw [← hsts] at e1
  rw [hfs] at e2
  simp only [List.map_nil, List.nil_append] at e2
  rw [hs1] at e3
  have hiff : c.1.isSick = true ↔ cst ≠ eStatus.OK ∨ ∃ st, st ∈ sts ∧ st ∈ sessionFatal := by
    rw [e3, Bool.or_eq_true, decide_eq_true_eq, List.any_eq_true]
    constructor
    · rintro (h1 | ⟨st, hst, hf⟩)
      · exact Or.inl h1
      · exact Or.inr ⟨st, hst, by simpa using hf⟩
    · rintro (h1 | ⟨st, hst, hf⟩)
      · exact Or.inl h1
      · exact Or.inr ⟨st, hst, by simpa using hf⟩
  refine ⟨c, cst, hc, hcst, e1, e2, ?_, ?_, hiff, fun hex => hiff.mpr (Or.inr hex), ?_, ?_, ?_,
    ?_, hc2, by rw [hc2]; rfl⟩
  · rw [e2]; exact keptTriples_sublist _ _
  · intro hall
    rw [e2]; exact keptTriples_all_ok _ _ e1 hall
  · intro hok hnone
    cases hsick : c.1.isSick with
    | false => rfl
    | true =>
      rcases hiff.mp hsick with h1 | ⟨st, hst, hf⟩
      · exact absurd hok h1
      · exact absurd hf (hnone st hst)
  · intro hsick st hst hfatal
    have := hiff.mpr (Or.inr ⟨st, hst, hfatal⟩)
    rw [hsick] at this
    exact absurd this (by simp)
  · intro hsick fuel r hr
    exact (reborn_of_sick_copy fuel ⟨rhs⟩ w c hc hsick).1 r hr
  · intro hsick hnof fuel
    exact (reborn_of_sick_copy fuel ⟨rhs⟩ w c hc hsick).2 hnof

/-- C3 as stated fails: copy-constructing from `sickDonor` while the bridge answers the
re-issued STREAM FORWARD with `I2P_ERROR` gives a session that is not sick and has an empty
forward list, although the donor holds the triple `("127.0.0.1", 9001, false)`. -/
theorem C3_reforward_counterexample :
    copyForwardStatuses sickDonor refusedForwardWorld = some [eStatus.I2P_ERROR] ∧
    (NewStreamSession.copy sickDonor refusedForwardWorld).map
        (fun c => (c.1.isSick, c.1.forwardedStreams_.map ForwardedStream.triple))
      = some (false, []) ∧
    sickDonor.forwardedStreams_.map ForwardedStream.triple
      = [("127.0.0.1".toList, 9001, false)] := by
  decide

/-- C3, amended, on the run `refusedForwardWorld`: SESSION CREATE obtains `OK`, the one
re-issued STREAM FORWARD obtains `I2P_ERROR`, so the record is dropped and the new session is
not sick; on the run `fatalForwardWorld` the re-issued request obtains `INVALID_ID`, the new
session is sick and the supervisor keeps the donor. -/
theorem C3_reforward_amended_witness :
    copyForwardStatuses sickDonor refusedForwardWorld = some [eStatus.I2P_ERROR] ∧
    copyCreateStatus sickDonor refusedForwardWorld = some eStatus.OK ∧
    (∃ (c : NewStreamSession × NewStreamSession × World) (cst : eStatus),
      NewStreamSession.copy sickDonor refusedForwardWorld = some c ∧
      copyCreateStatus sickDonor refusedForwardWorld = some cst ∧
      [eStatus.I2P_ERROR].length = sickDonor.forwardedStreams_.length ∧
      c.1.forwardedStreams_.map ForwardedStream.triple
        = keptTriples sickDonor.forwardedStreams_ [eStatus.I2P_ERROR] ∧
      (c.1.forwardedStreams_.map ForwardedStream.triple).Sublist
        (sickDonor.forwardedStreams_.map ForwardedStream.triple) ∧
      ((∀ st, st ∈ [eStatus.I2P_ERROR] → st = eStatus.OK) →
        c.1.forwardedStreams_.map ForwardedStream.triple
          = sickDonor.forwardedStreams_.map ForwardedStream.triple) ∧
      (c.1.isSick = true ↔
        cst ≠ eStatus.OK ∨ ∃ st, st ∈ [eStatus.I2P_ERROR] ∧ st ∈ sessionFatal) ∧
      ((∃ st, st ∈ [eStatus.I2P_ERROR] ∧ st ∈ sessionFatal) → c.1.isSick = true) ∧
      (cst = eStatus.OK → (∀ st, st ∈ [eStatus.I2P_ERROR] → st ∉ sessionFatal) →
        c.1.isSick = false) ∧
      (c.1.isSick = false → ∀ st, st ∈ [eStatus.I2P_ERROR] → st ∉ sessionFatal) ∧
      (c.1.isSick = true →
        ∀ fuel r, SessionHolder.reborn fuel ⟨sickDonor⟩ refusedForwardWorld = some r →
          r = (⟨c.2.1⟩, c.2.2)) ∧
      (c.1.isSick = true → c.1.forwardedStreams_ = [] →
        ∀ fuel, SessionHolder.reborn (fuel + 1) ⟨sickDonor⟩ refusedForwardWorld
          = some (⟨c.2.1⟩, c.2.2)) ∧
      c.2.1 = NewStreamSession.donated sickDonor ∧
      c.2.1.isSick = true) ∧
    (NewStreamSession.copy sickDonor refusedForwardWorld).map (fun c => c.1.isSick)
      = some false ∧
    copyForwardStatuses sickDonor fatalForwardWorld = some [eStatus.INVALID_ID] ∧
    (NewStreamSession.copy sickDonor fatalForwardWorld).map
        (fun c => (c.1.isSick, c.1.forwardedStreams_.map ForwardedStream.triple))
      = some (true, []) ∧
    (SessionHolder.reborn 1 ⟨sickDonor⟩ fatalForwardWorld).map (fun r => r.1.session_)
      = some (NewStreamSession.donated sickDonor) :=
  ⟨by decide, by decide,
    C3_reforward_amended sickDonor refusedForwardWorld [eStatus.I2P_ERROR] (by decide),
    by decide, by decide, by decide, by decide⟩

/-! ## Supervisor -/

theorem namingLookup_effect (s : NewStreamSession) (name : List Char) (w : World) :
    (s.namingLookup name w).2.1.isSick
      = (s.isSick || decide (s.namingLookupStatus name w ∈ lookupFatal))
    ∧ (s.namingLookup name w).1.isOk = decide (s.namingLookupStatus name w = eStatus.OK)
    ∧ (s.namingLookup name w).2.1.forwardedStreams_ = s.forwardedStreams_ := by
  simp only [NewStreamSession.namingLookup, NewStreamSession.namingLookupStatus]
  split <;> rename_i h <;>
    simp_all [NewStreamSession.fallSick, NewStreamSession.isSick, lookupFatal, RequestResult.ok,
      RequestResult.failed]

theorem destGenerate_effect (s : NewStreamSession) (w : World) :
    (s.destGenerate w).2.1.isSick = (s.isSick || decide (s.destGenerateStatus w ∈ lookupFatal))
    ∧ (s.destGenerate w).1.isOk = decide (s.destGenerateStatus w = eStatus.OK)
    ∧ (s.destGenerate w).2.1.forwardedStreams_ = s.forwardedStreams_ := by
  simp only [NewStreamSession.destGenerate, NewStreamSession.destGenerateStatus]
  split <;> rename_i h <;>
    simp_all [NewStreamSession.fallSick, NewStreamSession.isSick, lookupFatal, RequestResult.ok,
      RequestResult.failed]

theorem copy_donor (rhs : NewStreamSession) (w : World)
    (c : NewStreamSession × NewStreamSession × World)
    (h : NewStreamSession.copy rhs w = some c) : c.2.1 = NewStreamSession.donated rhs := by
  simp only [NewStreamSession.copy] at h
  cases hg : NewStreamSession.generateSessionID (Socket.copy rhs.socket_ w).2.rand with
  | none => simp [hg] at h
  | some g =>
    simp only [hg, Option.some.injEq] at h
    rw [← h]

theorem getSession_cases (fuel : Nat) (h : SessionHolder) (w : World) (r : SessionHolder × World)
    (hr : h.getSession fuel w = some r) :
    (h.session_.isSick = false ∧ r = (h, w)) ∨
    (h.session_.isSick = true ∧ ∃ c, NewStreamSession.copy h.session_ w = some c ∧ r.2 = c.2.2 ∧
      ((c.1.isSick = false ∧ r.1.session_ = c.1) ∨
        (c.1.isSick = true ∧ r.1.session_ = NewStreamSession.donated h.session_))) := by
  simp only [SessionHolder.getSession, SessionHolder.heal] at hr
  by_cases hs : h.session_.isSick = false
  · rw [if_pos hs] at hr
    exact Or.inl ⟨hs, by simpa using hr.symm⟩
  · rw [if_neg hs] at hr
    have hs1 : h.session_.isSick = true := by simpa using hs
    refine Or.inr ⟨hs1, ?_⟩
    simp only [SessionHolder.reborn] at hr
    cases hc : NewStreamSession.copy h.session_ w with
    | none => simp [hc] at hr
    | some c =>
      have hd := copy_donor h.session_ w c hc
      have hdsick : c.2.1.isSick = true := by rw [hd]; rfl
      simp only [hc] at hr
      refine ⟨c, rfl, ?_⟩
      by_cases hn : c.1.isSick = false
      · rw [if_pos ⟨hn, hdsick⟩] at hr
        cases hdes : c.2.1.destroy fuel with
        | none => simp [hdes] at hr
        | some u =>
          simp only [hdes, Option.some.injEq] at hr
          rw [← hr]
          exact ⟨rfl, Or.inl ⟨hn, rfl⟩⟩
      · rw [if_neg (fun hh => hn hh.1)] at hr
        cases hdes : c.1.destroy fuel with
        | none => simp [hdes] at hr
        | some u =>
          simp only [hdes, Option.some.injEq] at hr
          rw [← hr]
          exact ⟨rfl, Or.inr ⟨by simpa using hn, hd⟩⟩

theorem getSession_sick (fuel : Nat) (a : StreamSessionAdapter) (w : World)
    (r : SessionHolder × World) (hr : a.sessionHolder_.getSession fuel w = some r)
    (hsick : r.1.session_.isSick = true) : failedRebuild a w := by
  rcases getSession_cases fuel a.sessionHolder_ w r hr with ⟨hs, he⟩ | ⟨hs, c, hc, _, hcase⟩
  · rw [he] at hsick
    rw [hs] at hsick
    exact absurd hsick (by simp)
  · rcases hcase with ⟨hn, he⟩ | ⟨hn, _⟩
    · rw [he, hn] at hsick
      exact absurd hsick (by simp)
    · exact ⟨hs, c, hc, hn⟩


/-- C2, amended: when a public supervisor call returns, the held session is sick only if a
rebuild was attempted during that call and produced a sick replacement, or the verb of the
call itself obtained a status on which the session marks itself sick (`EMPTY_ANSWER`,
`CLOSED_SOCKET`, `INVALID_ID` for accept, connect and forward; `EMPTY_ANSWER`, `CLOSED_SOCKET`
for namingLookup and destGenerate); for stopForwarding, stopForwardingAll and the accessors
only the first cause exists. -/
theorem C2_quiescence_amended (fuel : Nat) (a : StreamSessionAdapter) (w : World) :
    (∀ silent r, a.accept fuel silent w = some r →
      r.2.1.sessionHolder_.session_.isSick = true →
      failedRebuild a w ∨ ∃ h, a.sessionHolder_.getSession fuel w = some h ∧
        h.1.session_.acceptStatus silent h.2 ∈ sessionFatal) ∧
    (∀ destination silent r, a.connect fuel destination silent w = some r →
      r.2.1.sessionHolder_.session_.isSick = true →
      failedRebuild a w ∨ ∃ h, a.sessionHolder_.getSession fuel w = some h ∧
        h.1.session_.connectStatus destination silent h.2 ∈ sessionFatal) ∧
    (∀ host port silent r, a.forward fuel host port silent w = some r →
      r.2.1.sessionHolder_.session_.isSick = true →
      failedRebuild a w ∨ ∃ h, a.sessionHolder_.getSession fuel w = some h ∧
        h.1.session_.forwardStatus host port silent h.2 ∈ sessionFatal) ∧
    (∀ name r, a.namingLookup fuel name w = some r →
      r.2.1.sessionHolder_.session_.isSick = true →
      failedRebuild a w ∨ ∃ h, a.sessionHolder_.getSession fuel w = some h ∧
        h.1.session_.namingLookupStatus name h.2 ∈ lookupFatal) ∧
    (∀ r, a.destGenerate fuel w = some r →
      r.2.1.sessionHolder_.session_.isSick = true →
      failedRebuild a w ∨ ∃ h, a.sessionHolder_.getSession fuel w = some h ∧
        h.1.session_.destGenerateStatus h.2 ∈ lookupFatal) ∧
    (∀ host port r, a.stopForwarding fuel host port w = some r →
      r.1.sessionHolder_.session_.isSick = true → failedRebuild a w) ∧
    (∀ r, a.stopForwardingAll fuel w = some r →
      r.1.sessionHolder_.session_.isSick = true → failedRebuild a w) ∧
    (∀ (α : Type) (get : NewStreamSession → α) r, a.accessor get fuel w = some r →
      r.2.1.sessionHolder_.session_.isSick = true → failedRebuild a w) := by
  have verb : ∀ (after before : Bool) (P : Prop) [Decidable P] (Q : Prop),
      after = (before || decide P) → (before = true → Q) → after = true → Q ∨ P := by
    intro after before P _ Q e hq ha
    rw [e] at ha
    cases hb : before with
    | true => exact Or.inl (hq hb)
    | false =>
      rw [hb] at ha
      exact Or.inr (by simpa using ha)
  refine ⟨?_, ?_, ?_, ?_, ?_, ?_, ?_, ?_⟩
  · intro silent r hr hsick
    simp only [StreamSessionAdapter.accept] at hr
    cases hg : a.sessionHolder_.getSession fuel w with
    | none => simp [hg] at hr
    | some h =>
      simp only [hg, Option.some.injEq] at hr
      rw [← hr] at hsick
      rcases verb _ _ _ _ (accept_effect h.1.session_ silent h.2).1
        (getSession_sick fuel a w h hg) hsick with h1 | h2
      · exact Or.inl h1
      · exact Or.inr ⟨h, rfl, h2⟩
  · intro destination silent r hr hsick
    simp only [StreamSessionAdapter.connect] at hr
    cases hg : a.sessionHolder_.getSession fuel w with
    | none => simp [hg] at hr
    | some h =>
      simp only [hg, Option.some.injEq] at hr
      rw [← hr] at hsick
      rcases verb _ _ _ _ (connect_effect h.1.session_ destination silent h.2).1
        (getSession_sick fuel a w h hg) hsick with h1 | h2
      · exact Or.inl h1
      · exact Or.inr ⟨h, rfl, h2⟩
  · intro host port silent r hr hsick
    simp only [StreamSessionAdapter.forward] at hr
    cases hg : a.sessionHolder_.getSession fuel w with
    | none => simp [hg] at hr
    | some h =>
      simp only [hg, Option.some.injEq] at hr
      rw [← hr] at hsick
      rcases verb _ _ _ _ (forward_effect h.1.session_ host port silent h.2).1
        (getSession_sick fuel a w h hg) hsick with h1 | h2
      · exact Or.inl h1
      · exact Or.inr ⟨h, rfl, h2⟩
  · intro name r hr hsick
    simp only [StreamSessionAdapter.namingLookup] at hr
    cases hg : a.sessionHolder_.getSession fuel w with
    | none => simp [hg] at hr
    | some h =>
      simp only [hg, Option.some.injEq] at hr
      rw [← hr] at hsick
      rcases verb _ _ _ _ (namingLookup_effect h.1.session_ name h.2).1
        (getSession_sick fuel a w h hg) hsick with h1 | h2
      · exact Or.inl h1
      · exact Or.inr ⟨h, rfl, h2⟩
  · intro r hr hsick
    simp only [StreamSessionAdapter.destGenerate] at hr
    cases hg : a.sessionHolder_.getSession fuel w with
    | none => simp [hg] at hr
    | some h =>
      simp only [hg, Option.some.injEq] at hr
      rw [← hr] at hsick
      rcases verb _ _ _ _ (destGenerate_effect h.1.session_ h.2).1
        (getSession_sick fuel a w h hg) hsick with h1 | h2
      · exact Or.inl h1
      · exact Or.inr ⟨h, rfl, h2⟩
  · intro host port r hr hsick
    simp only [StreamSessionAdapter.stopForwarding] at hr
    cases hg : a.sessionHolder_.getSession fuel w with
    | none => simp [hg] at hr
    | some h =>
      simp only [hg, Option.some.injEq] at hr
      rw [← hr] at hsick
      exact getSession_sick fuel a w h hg hsick
  · intro r hr hsick
    simp only [StreamSessionAdapter.stopForwardingAll] at hr
    cases hg : a.sessionHolder_.getSession fuel w with
    | none => simp [hg] at hr
    | some h =>
      simp only [hg] at hr
      cases hst : h.1.session_.stopForwardingAll fuel with
      | none => simp [hst] at hr
      | some s =>
        simp only [hst, Option.some.injEq] at hr
        rw [← hr] at hsick
        simp only [NewStreamSession.stopForwardingAll] at hst
        split at hst
        · exact absurd hst (by simp)
        · simp only [Option.some.injEq] at hst
          rw [← hst] at hsick
          exact getSession_sick fuel a w h hg hsick
  · intro α get r hr hsick
    simp only [StreamSessionAdapter.accessor] at hr
    cases hg : a.sessionHolder_.getSession fuel w with
    | none => simp [hg] at hr
    | some h =>
      simp only [hg, Option.some.injEq] at hr
      rw [← hr] at hsick
      exact getSession_sick fuel a w h hg hsick

/-- C2 as stated fails: the held session is healthy, so no rebuild is attempted; the bridge
answers STREAM ACCEPT with `INVALID_ID`; the call returns and the held session is sick. -/
theorem C2_quiescence_counterexample :
    healthySession.isSick = false ∧
    ¬ failedRebuild ⟨⟨healthySession⟩⟩ invalidIdWorld ∧
    StreamSessionAdapter.accept 1 ⟨⟨healthySession⟩⟩ false invalidIdWorld
      = some (none, ⟨⟨healthySession.fallSick⟩⟩, invalidIdWorldAfterAccept) ∧
    healthySession.fallSick.isSick = true := by
  refine ⟨by decide, ?_, by decide, by decide⟩
  intro h
  exact absurd h.1 (by decide)

/-- C2, amended, on the run `invalidIdWorld`: the held session is sick at return because the
accept request obtained `INVALID_ID`. -/
theorem C2_quiescence_amended_witness :
    StreamSessionAdapter.accept 1 ⟨⟨healthySession⟩⟩ false invalidIdWorld
      = some (none, ⟨⟨healthySession.fallSick⟩⟩, invalidIdWorldAfterAccept) ∧
    (failedRebuild ⟨⟨healthySession⟩⟩ invalidIdWorld ∨
      ∃ h, SessionHolder.getSession 1 ⟨healthySession⟩ invalidIdWorld = some h ∧
        h.1.session_.acceptStatus false h.2 ∈ sessionFatal) :=
  ⟨by decide,
    (C2_quiescence_amended 1 ⟨⟨healthySession⟩⟩ invalidIdWorld).1 false
      (none, ⟨⟨healthySession.fallSick⟩⟩, invalidIdWorldAfterAccept) (by decide) (by decide)⟩

/-! ## Monotonicity of the sick flag -/

/-- C11: a session that is sick stays sick under accept, connect, forward, namingLookup,
destGenerate, stopForwarding, stopForwardingAll (whenever it returns), the creation request,
and being the donor of a copy construction: no operation resets the flag. -/
theorem C11_sick_monotone (s : NewStreamSession) (hs : s.isSick = true) :
    (∀ silent w, (s.accept silent w).2.1.isSick = true) ∧
    (∀ destination silent w, (s.connect destination silent w).2.1.isSick = true) ∧
    (∀ host port silent w, (s.forward host port silent w).2.1.isSick = true) ∧
    (∀ name w, (s.namingLookup name w).2.1.isSick = true) ∧
    (∀ w, (s.destGenerate w).2.1.isSick = true) ∧
    (∀ host port, (s.stopForwarding host port).isSick = true) ∧
    (∀ fuel s1, s.stopForwardingAll fuel = some s1 → s1.isSick = true) ∧
    (∀ destination w, (s.createStreamSession destination w).2.1.isSick = true) ∧
    (∀ w c, NewStreamSession.copy s w = some c → c.2.1.isSick = true) := by
  refine ⟨?_, ?_, ?_, ?_, ?_, ?_, ?_, ?_, ?_⟩
  · intro silent w
    rw [(accept_effect s silent w).1, hs]; rfl
  · intro destination silent w
    rw [(connect_effect s destination silent w).1, hs]; rfl
  · intro host port silent w
    rw [(forward_effect s host port silent w).1, hs]; rfl
  · intro name w
    rw [(namingLookup_effect s name w).1, hs]; rfl
  · intro w
    rw [(destGenerate_effect s w).1, hs]; rfl
  · intro host port
    exact hs
  · intro fuel s1 h
    simp only [NewStreamSession.stopForwardingAll] at h
    split at h
    · exact absurd h (by simp)
    · simp only [Option.some.injEq] at h
      rw [← h]; exact hs
  · intro destination w
    by_cases hst : s.createStatus destination w = eStatus.OK
    · rw [((createStreamSession_effect s destination w).2 hst).2]; exact hs
    · exact ((createStreamSession_effect s destination w).1 hst).2
  · intro w c h
    rw [copy_donor s w c h]; rfl

/-- C11 on the sick session `sickDonor`. -/
theorem C11_sick_monotone_witness :
    sickDonor.isSick = true ∧
    (sickDonor.accept false invalidIdWorld).2.1.isSick = true ∧
    (sickDonor.stopForwarding "127.0.0.1".toList 9001).isSick = true :=
  ⟨by decide, (C11_sick_monotone sickDonor (by decide)).1 false invalidIdWorld,
    (C11_sick_monotone sickDonor (by decide)).2.2.2.2.2.1 "127.0.0.1".toList 9001⟩

/-! ## Lookup verbs -/

theorem checkAnswer_ne_closed (answer : List Char) :
    Message.checkAnswer answer ≠ eStatus.CLOSED_SOCKET := by
  by_cases hne : answer = []
  · simp [Message.checkAnswer, hne]
  · rcases checkAnswer_cases answer hne with ⟨K, hK, _, hc⟩ | ⟨_, hc⟩
    · rw [hc]; intro h; subst h; exact absurd hK (by decide)
    · rw [hc]; decide

theorem destGenerateStatus_cases (s : NewStreamSession) (w : World) :
    s.destGenerateStatus w = eStatus.OK ∨ s.destGenerateStatus w = eStatus.EMPTY_ANSWER ∨
      s.destGenerateStatus w = eStatus.CLOSED_SOCKET := by
  simp only [NewStreamSession.destGenerateStatus, NewStreamSession.destGenerateOn]
  split
  · exact Or.inr (Or.inr rfl)
  · split
    · exact Or.inl rfl
    · exact Or.inr (Or.inl rfl)

/-- C14, amended: for namingLookup and destGenerate, a status `EMPTY_ANSWER` or `CLOSED_SOCKET`
marks the session sick and the call returns failure; on `INVALID_ID` namingLookup returns
failure and leaves the sick flag as it was; destGenerate never obtains `INVALID_ID`. -/
theorem C14_lookup_fatal_amended (s : NewStreamSession) (name : List Char) (w : World) :
    (s.namingLookupStatus name w ∈ lookupFatal →
      (s.namingLookup name w).2.1.isSick = true ∧ (s.namingLookup name w).1.isOk = false) ∧
    (s.namingLookupStatus name w = eStatus.INVALID_ID →
      (s.namingLookup name w).2.1.isSick = s.isSick ∧ (s.namingLookup name w).1.isOk = false) ∧
    (s.destGenerateStatus w ∈ lookupFatal →
      (s.destGenerate w).2.1.isSick = true ∧ (s.destGenerate w).1.isOk = false) ∧
    s.destGenerateStatus w ≠ eStatus.INVALID_ID := by
  obtain ⟨n1, n2, _⟩ := namingLookup_effect s name w
  obtain ⟨d1, d2, _⟩ := destGenerate_effect s w
  refine ⟨?_, ?_, ?_, ?_⟩
  · intro h
    rw [n1, n2]
    constructor
    · simp [h]
    · simp only [lookupFatal, List.mem_cons, List.mem_singleton, List.not_mem_nil, or_false] at h
      rcases h with h | h <;> simp [h]
  · intro h
    rw [n1, n2, h]
    exact ⟨by simp [lookupFatal], by simp⟩
  · intro h
    rw [d1, d2]
    constructor
    · simp [h]
    · simp only [lookupFatal, List.mem_cons, List.mem_singleton, List.not_mem_nil, or_false] at h
      rcases h with h | h <;> simp [h]
  · rcases destGenerateStatus_cases s w with h | h | h <;> rw [h] <;> decide

/-- C14 as stated fails: the bridge answers the lookup with `NAMING REPLY RESULT=INVALID_ID`;
the status is `INVALID_ID`, the call fails and the session is not marked sick. -/
theorem C14_lookup_fatal_counterexample :
    healthySession.namingLookupStatus "x".toList namingInvalidIdWorld = eStatus.INVALID_ID ∧
    (healthySession.namingLookup "x".toList namingInvalidIdWorld).1.isOk = false ∧
    (healthySession.namingLookup "x".toList namingInvalidIdWorld).2.1.isSick = false := by
  decide

/-- C14, amended, on the run `namingInvalidIdWorld`. -/
theorem C14_lookup_fatal_amended_witness :
    healthySession.namingLookupStatus "x".toList namingInvalidIdWorld = eStatus.INVALID_ID ∧
    (healthySession.namingLookup "x".toList namingInvalidIdWorld).2.1.isSick
      = healthySession.isSick ∧
    (healthySession.namingLookup "x".toList namingInvalidIdWorld).1.isOk = false :=
  ⟨by decide,
    (C14_lookup_fatal_amended healthySession "x".toList namingInvalidIdWorld).2.1 (by decide)⟩

/-! ## Write primitive -/

/-- C18, amended: on an open socket, `write` closes the socket when `send` reports an error or
0 bytes and leaves it open whenever `send` reports `n > 0` bytes, be it the whole message or a
partial send; on a closed socket `write` sends nothing and changes nothing. -/
theorem C18_write_amended (s : Socket) (msg : List Char) (w : World) :
    (s.isOk = true → (w.send msg).1 = SendResult.error → (s.write msg w).1.isOk = false) ∧
    (s.isOk = true → (w.send msg).1 = SendResult.sent 0 → (s.write msg w).1.isOk = false) ∧
    (∀ n, s.isOk = true → (w.send msg).1 = SendResult.sent n → 0 < n →
      (s.write msg w).1.isOk = true) ∧
    (s.isOk = true → (s.write msg w).2.log = w.log ++ [msg]) ∧
    (s.isOk = false → s.write msg w = (s, w)) := by
  have hclosed : (s.close).isOk = false := rfl
  refine ⟨?_, ?_, ?_, ?_, ?_⟩
  · intro hs hr
    simp [Socket.write, hs, hr, hclosed]
  · intro hs hr
    simp [Socket.write, hs, hr, hclosed]
  · intro n hs hr hn
    have hn0 : ¬ n = 0 := by omega
    simp [Socket.write, hs, hr, hn0]
  · intro hs
    have hlog : (w.send msg).2.log = w.log ++ [msg] := by
      simp only [World.send]
      split <;> rfl
    simp only [Socket.write, hs, Bool.true_eq_false, if_false]
    split
    · exact hlog
    · split <;> exact hlog
  · intro hs
    simp [Socket.write, hs]

/-- C18 as stated fails: `send` transmits 10 of the 30 bytes of the message and the socket is
still open after `write`. -/
theorem C18_write_counterexample :
    primarySocket.isOk = true ∧
    (partialSendWorld.send "HELLO VERSION MIN=3.0 MAX=3.1\n".toList).1 = SendResult.sent 10 ∧
    "HELLO VERSION MIN=3.0 MAX=3.1\n".toList.length = 30 ∧
    (primarySocket.write "HELLO VERSION MIN=3.0 MAX=3.1\n".toList partialSendWorld).1.isOk
      = true := by
  decide

/-- C18, amended, on the run `partialSendWorld`. -/
theorem C18_write_amended_witness :
    primarySocket.isOk = true ∧
    (partialSendWorld.send "HELLO VERSION MIN=3.0 MAX=3.1\n".toList).1 = SendResult.sent 10 ∧
    (primarySocket.write "HELLO VERSION MIN=3.0 MAX=3.1\n".toList partialSendWorld).1.isOk
      = true :=
  ⟨by decide, by decide,
    (C18_write_amended primarySocket "HELLO VERSION MIN=3.0 MAX=3.1\n".toList
      partialSendWorld).2.2.1 10 (by decide) (by decide) (by decide)⟩

/-! ## Control socket: handshake and cloning -/

theorem write_config (s : Socket) (msg : List Char) (w : World) :
    (s.write msg w).1.servAddr_ = s.servAddr_ ∧ (s.write msg w).1.SAMHost_ = s.SAMHost_ ∧
    (s.write msg w).1.SAMPort_ = s.SAMPort_ ∧ (s.write msg w).1.minVer_ = s.minVer_ ∧
    (s.write msg w).1.maxVer_ = s.maxVer_ ∧ (s.write msg w).1.version_ = s.version_ := by
  simp only [Socket.write]
  split
  · exact ⟨rfl, rfl, rfl, rfl, rfl, rfl⟩
  · split
    · exact ⟨rfl, rfl, rfl, rfl, rfl, rfl⟩
    · split <;> exact ⟨rfl, rfl, rfl, rfl, rfl, rfl⟩

theorem read_config (s : Socket) (w : World) :
    (s.read w).2.1.servAddr_ = s.servAddr_ ∧ (s.read w).2.1.SAMHost_ = s.SAMHost_ ∧
    (s.read w).2.1.SAMPort_ = s.SAMPort_ ∧ (s.read w).2.1.minVer_ = s.minVer_ ∧
    (s.read w).2.1.maxVer_ = s.maxVer_ ∧ (s.read w).2.1.version_ = s.version_ := by
  simp only [Socket.read]
  split
  · exact ⟨rfl, rfl, rfl, rfl, rfl, rfl⟩
  · split
    · exact ⟨rfl, rfl, rfl, rfl, rfl, rfl⟩
    · dsimp only
      split <;> exact ⟨rfl, rfl, rfl, rfl, rfl, rfl⟩

theorem handshake_config (s : Socket) (w : World) :
    (s.handshake w).1.servAddr_ = s.servAddr_ ∧ (s.handshake w).1.SAMHost_ = s.SAMHost_ ∧
    (s.handshake w).1.SAMPort_ = s.SAMPort_ ∧ (s.handshake w).1.minVer_ = s.minVer_ ∧
    (s.handshake w).1.maxVer_ = s.maxVer_ := by
  obtain ⟨w1, w2, w3, w4, w5, _⟩ := write_config s (Message.hello s.minVer_ s.maxVer_) w
  obtain ⟨r1, r2, r3, r4, r5, _⟩ :=
    read_config (s.write (Message.hello s.minVer_ s.maxVer_) w).1
      (s.write (Message.hello s.minVer_ s.maxVer_) w).2
  simp only [Socket.handshake]
  split
  · exact ⟨r1.trans w1, r2.trans w2, r3.trans w3, r4.trans w4, r5.trans w5⟩
  · exact ⟨r1.trans w1, r2.trans w2, r3.trans w3, r4.trans w4, r5.trans w5⟩

theorem construct_config (s : Socket) (w : World) :
    (s.construct w).1.servAddr_ = s.servAddr_ ∧ (s.construct w).1.SAMHost_ = s.SAMHost_ ∧
    (s.construct w).1.SAMPort_ = s.SAMPort_ ∧ (s.construct w).1.minVer_ = s.minVer_ ∧
    (s.construct w).1.maxVer_ = s.maxVer_ := by
  simp only [Socket.construct]
  split
  · exact handshake_config (s.init w).1 (s.init w).2
  · exact ⟨rfl, rfl, rfl, rfl, rfl⟩

theorem handshake_socket (s : Socket) (w : World) :
    (s.handshake w).1.socket_
      = ((s.write (Message.hello s.minVer_ s.maxVer_) w).1.read
          (s.write (Message.hello s.minVer_ s.maxVer_) w).2).2.1.socket_ := by
  simp only [Socket.handshake]
  split <;> rfl

theorem read_nonempty (s : Socket) (w : World) (h : (s.read w).1 ≠ []) :
    (s.read w).2.1 = s ∧ s.isOk = true := by
  simp only [Socket.read] at h ⊢
  split
  · rename_i hs
    rw [if_pos hs] at h
    exact absurd rfl h
  · rename_i hs
    rw [if_neg hs] at h
    have hok : s.isOk = true := by simpa using hs
    split
    · rename_i hr
      simp only [hr] at h
      exact absurd rfl h
    · rename_i data hr
      simp only [hr] at h
      dsimp only
      split
      · rename_i hlen
        have : List.take SAM_BUFSIZE data = [] := List.length_eq_zero.mp hlen
        rw [this] at h
        exact absurd rfl h
      · exact ⟨rfl, hok⟩

theorem write_open (s : Socket) (msg : List Char) (w : World)
    (h : (s.write msg w).1.isOk = true) : (s.write msg w).1 = s := by
  have hclosed : (s.close).isOk = false := rfl
  simp only [Socket.write] at h ⊢
  split
  · rfl
  · rename_i hs
    rw [if_neg hs] at h
    split
    · rename_i hr
      simp only [hr, hclosed] at h
      exact absurd h (by simp)
    · rename_i n hr
      simp only [hr] at h
      split
      · rename_i hn
        rw [if_pos hn] at h
        simp only [hclosed] at h
        exact absurd h (by simp)
      · rfl

theorem handshake_ok (s : Socket) (w : World)
    (h : Message.checkAnswer
      ((s.write (Message.hello s.minVer_ s.maxVer_) w).1.read
        (s.write (Message.hello s.minVer_ s.maxVer_) w).2).1 = eStatus.OK) :
    (s.handshake w).1.isOk = true ∧ (s.handshake w).1.socket_ = s.socket_ ∧
    (s.handshake w).1.version_
      = Message.getValue
          ((s.write (Message.hello s.minVer_ s.maxVer_) w).1.read
            (s.write (Message.hello s.minVer_ s.maxVer_) w).2).1 "VERSION".toList := by
  have hne : ((s.write (Message.hello s.minVer_ s.maxVer_) w).1.read
      (s.write (Message.hello s.minVer_ s.maxVer_) w).2).1 ≠ [] := by
    intro he
    rw [he] at h
    exact absurd h (by decide)
  obtain ⟨hr, hopen⟩ := read_nonempty _ _ hne
  have hw := write_open s _ w hopen
  have hsock := handshake_socket s w
  rw [hr, hw] at hsock
  refine ⟨?_, hsock, ?_⟩
  · rw [hw] at hopen
    simp only [Socket.isOk] at hopen ⊢
    rw [hsock]; exact hopen
  · simp only [Socket.handshake, if_pos h]

/-- C17 (the code contradicts it): `handshake` changes the descriptor no further than its write
and its read do, whatever the reply classifies as; a HELLO answered with
`HELLO REPLY RESULT=NOVERSION` classifies as `NOVERSION` and the constructed socket is open
(`isOk()` is true) with no version recorded. -/
theorem C17_failed_handshake_stays_open :
    (∀ (s : Socket) (w : World),
      (s.handshake w).1.socket_
        = ((s.write (Message.hello s.minVer_ s.maxVer_) w).1.read
            (s.write (Message.hello s.minVer_ s.maxVer_) w).2).2.1.socket_) ∧
    Message.checkAnswer "HELLO REPLY RESULT=NOVERSION\n".toList = eStatus.NOVERSION ∧
    (Socket.new "127.0.0.1".toList 7656 "3.0".toList "3.1".toList noVersionWorld).1.isOk = true ∧
    (Socket.new "127.0.0.1".toList 7656 "3.0".toList "3.1".toList noVersionWorld).1.getVersion
      = [] :=
  ⟨handshake_socket, by decide, by decide, by decide⟩

/-- C19 (the code contradicts it): a socket cloned from another has the address and the version
range of the original, but an empty host and an uninitialised port; after a supervisor rebuild
of a session made for host `127.0.0.1`, port 7656, `getSAMHost` returns the empty string and
`getSAMPort` an uninitialised value, while nickname, options and version range are kept. -/
theorem C19_clone_loses_host_port :
    (∀ (rhs : Socket) (w : World),
      (Socket.copy rhs w).1.getHost = [] ∧ (Socket.copy rhs w).1.getPort = none ∧
      (Socket.copy rhs w).1.getMinVer = rhs.getMinVer ∧
      (Socket.copy rhs w).1.getMaxVer = rhs.getMaxVer ∧
      (Socket.copy rhs w).1.getAddress = rhs.getAddress) ∧
    sickSession.getSAMHost = "127.0.0.1".toList ∧ sickSession.getSAMPort = some 7656 ∧
    (StreamSessionAdapter.accessor NewStreamSession.getSAMHost 1 ⟨⟨sickSession⟩⟩ allOkWorld).map
        (fun r => (r.1, r.2.1.sessionHolder_.session_.isSick,
          r.2.1.sessionHolder_.session_.getSAMPort))
      = some ([], false, none) ∧
    (StreamSessionAdapter.accessor NewStreamSession.getSAMHost 1 ⟨⟨sickSession⟩⟩ allOkWorld).map
        (fun r => (r.2.1.sessionHolder_.session_.getNickname,
          r.2.1.sessionHolder_.session_.getOptions,
          r.2.1.sessionHolder_.session_.getSAMMinVer))
      = some (sickSession.getNickname, sickSession.getOptions, sickSession.getSAMMinVer) ∧
    (StreamSessionAdapter.accessor NewStreamSession.getSAMHost 1 ⟨⟨sickSession⟩⟩ allOkWorld).map
        (fun r => (r.2.1.sessionHolder_.session_.getSAMMaxVer,
          r.2.1.sessionHolder_.session_.getSAMAddress))
      = some (sickSession.getSAMMaxVer, sickSession.getSAMAddress) := by
  refine ⟨?_, by decide, by decide, by decide, by decide, by decide⟩
  intro rhs w
  obtain ⟨c1, c2, c3, c4, c5⟩ := construct_config
    { socket_ := none, servAddr_ := rhs.servAddr_, SAMHost_ := [], SAMPort_ := none,
      minVer_ := rhs.minVer_, maxVer_ := rhs.maxVer_, version_ := [] } w
  exact ⟨c2, c3, c4, c5, c1⟩

/-! ## Verbs run on a fresh control socket -/

theorem rawRequest_closed_iff (sk : Socket) (req : List Char) (w : World) :
    (NewStreamSession.rawRequest sk req w).1.status = eStatus.CLOSED_SOCKET ↔ sk.isOk = false := by
  simp only [NewStreamSession.rawRequest]
  split
  · rename_i h
    simp [h]
  · rename_i h
    constructor
    · intro hc
      exact absurd hc (checkAnswer_ne_closed _)
    · intro hc
      exact absurd hc h

theorem request_closed_iff (sk : Socket) (req : List Char) (w : World) :
    (NewStreamSession.request sk req w).1 = eStatus.CLOSED_SOCKET ↔ sk.isOk = false := by
  simp only [NewStreamSession.request]
  exact rawRequest_closed_iff sk req w

theorem requestKey_status (sk : Socket) (req key : List Char) (w : World) :
    (NewStreamSession.requestKey sk req key w).1.status
      = (NewStreamSession.rawRequest sk req w).1.status := by
  simp only [NewStreamSession.requestKey]
  split <;> rfl

theorem destGenerateOn_closed_iff (sk : Socket) (w : World) :
    (NewStreamSession.destGenerateOn sk w).1.status = eStatus.CLOSED_SOCKET ↔ sk.isOk = false := by
  simp only [NewStreamSession.destGenerateOn]
  split
  · rename_i h
    simp [h]
  · rename_i h
    constructor
    · intro hc
      split at hc
      · exact absurd (show eStatus.OK = eStatus.CLOSED_SOCKET from hc) (by decide)
      · exact absurd (show eStatus.EMPTY_ANSWER = eStatus.CLOSED_SOCKET from hc) (by decide)
    · intro hc
      exact absurd hc h

/-- C16, amended: a verb issued on a session whose primary control socket is closed runs on a
freshly cloned control socket, so its status is the one it would obtain with the primary socket
open; it is `CLOSED_SOCKET` exactly when the cloned socket is closed after its own connect and
handshake, and otherwise it is decided by the bridge's answer on the fresh connection. -/
theorem C16_closed_primary_amended (s : NewStreamSession) (w : World) :
    (∀ silent,
      NewStreamSession.acceptStatus { s with socket_ := s.socket_.close } silent w
        = s.acceptStatus silent w ∧
      (NewStreamSession.acceptStatus { s with socket_ := s.socket_.close } silent w
          = eStatus.CLOSED_SOCKET ↔ (Socket.copy s.socket_ w).1.isOk = false)) ∧
    (∀ destination silent,
      NewStreamSession.connectStatus { s with socket_ := s.socket_.close } destination silent w
        = s.connectStatus destination silent w ∧
      (NewStreamSession.connectStatus { s with socket_ := s.socket_.close } destination silent w
          = eStatus.CLOSED_SOCKET ↔ (Socket.copy s.socket_ w).1.isOk = false)) ∧
    (∀ host port silent,
      NewStreamSession.forwardStatus { s with socket_ := s.socket_.close } host port silent w
        = s.forwardStatus host port silent w ∧
      (NewStreamSession.forwardStatus { s with socket_ := s.socket_.close } host port silent w
          = eStatus.CLOSED_SOCKET ↔ (Socket.copy s.socket_ w).1.isOk = false)) ∧
    (∀ name,
      NewStreamSession.namingLookupStatus { s with socket_ := s.socket_.close } name w
        = s.namingLookupStatus name w ∧
      (NewStreamSession.namingLookupStatus { s with socket_ := s.socket_.close } name w
          = eStatus.CLOSED_SOCKET ↔ (Socket.copy s.socket_ w).1.isOk = false)) ∧
    (NewStreamSession.destGenerateStatus { s with socket_ := s.socket_.close } w
        = s.destGenerateStatus w ∧
      (NewStreamSession.destGenerateStatus { s with socket_ := s.socket_.close } w
          = eStatus.CLOSED_SOCKET ↔ (Socket.copy s.socket_ w).1.isOk = false)) := by
  refine ⟨?_, ?_, ?_, ?_, ?_⟩
  · intro silent
    exact ⟨rfl, request_closed_iff _ _ _⟩
  · intro destination silent
    exact ⟨rfl, request_closed_iff _ _ _⟩
  · intro host port silent
    exact ⟨rfl, request_closed_iff _ _ _⟩
  · intro name
    refine ⟨rfl, ?_⟩
    simp only [NewStreamSession.namingLookupStatus, NewStreamSession.namingLookupOn,
      requestKey_status]
    exact rawRequest_closed_iff _ _ _
  · exact ⟨rfl, destGenerateOn_closed_iff _ _⟩

/-- C16 as stated fails: the primary socket of the session is closed, the bridge accepts a
fresh connection and answers STREAM ACCEPT with OK; the verb obtains OK, returns the socket
and the session is not marked sick. -/
theorem C16_closed_primary_counterexample :
    closedPrimarySession.socket_.isOk = false ∧
    closedPrimarySession.acceptStatus false acceptOkWorld = eStatus.OK ∧
    (closedPrimarySession.accept false acceptOkWorld).1.isOk = true ∧
    (closedPrimarySession.accept false acceptOkWorld).2.1.isSick = false := by
  decide

/-! ## Rebuild -/

theorem reborn_hangs_of_forwards (fuel : Nat) (h : SessionHolder) (w : World)
    (c : NewStreamSession × NewStreamSession × World)
    (hc : NewStreamSession.copy h.session_ w = some c) (hn : c.1.isSick = false)
    (f : ForwardedStream) (rest : List ForwardedStream)
    (hf : h.session_.forwardedStreams_ = f :: rest) : h.reborn fuel w = none := by
  have hd := copy_donor h.session_ w c hc
  have hdsick : c.2.1.isSick = true := by rw [hd]; rfl
  have hdf : c.2.1.forwardedStreams_ = f :: rest := by rw [hd]; exact hf
  simp only [SessionHolder.reborn, hc]
  rw [if_pos ⟨hn, hdsick⟩]
  simp [NewStreamSession.destroy, NewStreamSession.stopForwardingAll, hdf,
    stopForwardingAllLoop_stuck]

/-- C12 (the code contradicts it): the held session `sickDonor` is sick and holds one forward;
the bridge answers every request of the rebuild with OK, so the copy-constructed replacement is
not sick and holds the forward again; yet whatever the number of iterations granted, the call
never returns, because adopting the replacement destroys the old session and its destructor
does not end on a non-empty forward list. -/
theorem C12_rebuild_hangs_with_forwards :
    sickDonor.isSick = true ∧
    (NewStreamSession.copy sickDonor allOkWorld).map
        (fun c => (c.1.isSick, c.1.forwardedStreams_.map ForwardedStream.triple))
      = some (false, [("127.0.0.1".toList, 9001, false)]) ∧
    (∀ fuel, SessionHolder.getSession fuel ⟨sickDonor⟩ allOkWorld = none) ∧
    (∀ fuel, StreamSessionAdapter.accessor NewStreamSession.getSessionID fuel ⟨⟨sickDonor⟩⟩
      allOkWorld = none) := by
  have hcopy : (NewStreamSession.copy sickDonor allOkWorld).map
      (fun c => (c.1.isSick, c.1.forwardedStreams_.map ForwardedStream.triple))
      = some (false, [("127.0.0.1".toList, 9001, false)]) := by decide
  have hget : ∀ fuel, SessionHolder.getSession fuel ⟨sickDonor⟩ allOkWorld = none := by
    intro fuel
    cases hc : NewStreamSession.copy sickDonor allOkWorld with
    | none => rw [hc] at hcopy; exact absurd hcopy (by simp)
    | some c =>
      rw [hc] at hcopy
      simp only [Option.map_some', Option.some.injEq, Prod.mk.injEq] at hcopy
      have hsick : ¬ ((⟨sickDonor⟩ : SessionHolder).session_.isSick = false) := by decide
      simp only [SessionHolder.getSession, SessionHolder.heal, if_neg hsick]
      exact reborn_hangs_of_forwards fuel ⟨sickDonor⟩ allOkWorld c hc hcopy.1 _ _ rfl
  refine ⟨by decide, hcopy, hget, ?_⟩
  intro fuel
  simp only [StreamSessionAdapter.accessor, hget]

/-- C13 (the code contradicts it): the first SESSION CREATE, for `TRANSIENT`, is answered
`DUPLICATED_ID`; at the next supervisor call the rebuild sends SESSION CREATE with an empty
`DESTINATION=` and the bridge answers `RESULT=OK DESTINATION=xyz`; the supervisor then holds a
healthy session whose `getMyDestination()` is the blank destination. -/
theorem C13_rebuild_after_failed_creation :
    rebuildAfterFailedCreation.map
        (fun r => (r.1, r.2.1.sessionHolder_.session_.isSick,
          r.2.1.sessionHolder_.session_.getMyDestination))
      = some (FullDestination.blank, false, FullDestination.blank) ∧
    rebuildAfterFailedCreation.map (fun r => r.2.2.log)
      = some ["HELLO VERSION MIN=3.0 MAX=3.1\n".toList,
          ("SESSION CREATE STYLE=STREAM ID=AAAAA DESTINATION=TRANSIENT".toList
            ++ " inbound.nickname=nick \n".toList),
          "HELLO VERSION MIN=3.0 MAX=3.1\n".toList,
          "SESSION CREATE STYLE=STREAM ID=BCDEF DESTINATION= inbound.nickname=nick \n".toList] := by
  decide

/-! ## Request builders -/

theorem cstr_of_nulFree (l : List Char) (h : nulFree l) : cstr l = l := by
  unfold cstr
  rw [List.takeWhile_eq_self_iff]
  intro c hc
  have : c ≠ Char.ofNat 0 := fun he => h (he ▸ hc)
  simpa using this

theorem createSAMRequest_eq (f : List Char) (hn : nulFree f) (hlen : f.length < 65536) :
    Message.createSAMRequest f = f := by
  unfold Message.createSAMRequest
  rw [List.take_of_length_le (by simp only [SAM_BUFSIZE]; omega)]
  exact cstr_of_nulFree f hn

theorem digitChar_mem (k : Nat) (hk : k < 10) : Nat.digitChar k ∈ "0123456789".toList := by
  interval_cases k <;> decide

theorem toDigitsCore_digits :
    ∀ (fuel n : Nat) (ds : List Char), (∀ c, c ∈ ds → c ∈ "0123456789".toList) →
      ∀ c, c ∈ Nat.toDigitsCore 10 fuel n ds → c ∈ "0123456789".toList := by
  intro fuel
  induction fuel with
  | zero => intro n ds hds c hc; exact hds c (by simpa [Nat.toDigitsCore] using hc)
  | succ fuel ih =>
    intro n ds hds c hc
    have hd : ∀ c, c ∈ Nat.digitChar (n % 10) :: ds → c ∈ "0123456789".toList := by
      intro c hc
      rcases List.mem_cons.mp hc with rfl | hc
      · exact digitChar_mem _ (Nat.mod_lt _ (by decide))
      · exact hds c hc
    simp only [Nat.toDigitsCore] at hc
    split at hc
    · exact hd c hc
    · exact ih _ _ hd c hc

theorem repr_digits (n : Nat) (c : Char) (hc : c ∈ (Nat.repr n).toList) :
    c ∈ "0123456789".toList := by
  have : (Nat.repr n).toList = Nat.toDigitsCore 10 (n + 1) n [] := rfl
  rw [this] at hc
  exact toDigitsCore_digits (n + 1) n [] (by simp) c hc

theorem repr_nulFree (n : Nat) : nulFree (Nat.repr n).toList := by
  intro h
  exact absurd (repr_digits n _ h) (by decide)

theorem repr_newlineFree (n : Nat) : newlineFree (Nat.repr n).toList := by
  intro h
  exact absurd (repr_digits n _ h) (by decide)

theorem boolText_eq (silent : Bool) :
    Message.boolText silent = if silent then "true".toList else "false".toList := rfl

theorem boolText_free (silent : Bool) :
    nulFree (Message.boolText silent) ∧ newlineFree (Message.boolText silent) := by
  cases silent <;> exact ⟨by decide, by decide⟩

theorem nulFree_append (a b : List Char) (ha : nulFree a) (hb : nulFree b) :
    nulFree (a ++ b) := by
  unfold nulFree at *
  simp only [List.mem_append, not_or]
  exact ⟨ha, hb⟩

theorem newlineFree_append (a b : List Char) (ha : newlineFree a) (hb : newlineFree b) :
    newlineFree (a ++ b) := by
  unfold newlineFree at *
  simp only [List.mem_append, not_or]
  exact ⟨ha, hb⟩

theorem styleName_free (style : Message.SessionStyle) :
    nulFree (styleName style) ∧ newlineFree (styleName style) := by
  cases style <;> exact ⟨by decide, by decide⟩

theorem request_of_body (body : List Char) (hn : nulFree body)
    (hlen : (body ++ "\n".toList).length < 65536) :
    Message.createSAMRequest (body ++ "\n".toList) = body ++ "\n".toList ∧
    (newlineFree body → singleLine (Message.createSAMRequest (body ++ "\n".toList))) := by
  have e := createSAMRequest_eq (body ++ "\n".toList)
    (nulFree_append _ _ hn (by decide)) hlen
  refine ⟨e, ?_⟩
  intro hnl
  rw [e]
  exact ⟨body, rfl, hnl⟩

/-- C20: for NUL-free arguments whose formatted request is shorter than 65536 characters, each
request builder returns the stated text, which ends in a newline; when moreover no argument
contains a newline, the request is a single line. -/
theorem C20_request_builders :
    (∀ min max : List Char, nulFree min → nulFree max →
      ("HELLO VERSION MIN=".toList ++ min ++ " MAX=".toList ++ max ++ "\n".toList).length
        < 65536 →
      Message.hello min max
        = "HELLO VERSION MIN=".toList ++ min ++ " MAX=".toList ++ max ++ "\n".toList ∧
      (newlineFree min → newlineFree max → singleLine (Message.hello min max))) ∧
    (∀ (style : Message.SessionStyle) (id nick dest opts : List Char),
      nulFree id → nulFree nick → nulFree dest → nulFree opts →
      ("SESSION CREATE STYLE=".toList ++ styleName style ++ " ID=".toList ++ id
        ++ " DESTINATION=".toList ++ dest ++ " inbound.nickname=".toList ++ nick ++ " ".toList
        ++ opts ++ "\n".toList).length < 65536 →
      Message.sessionCreate style id nick dest opts
        = "SESSION CREATE STYLE=".toList ++ styleName style ++ " ID=".toList ++ id
          ++ " DESTINATION=".toList ++ dest ++ " inbound.nickname=".toList ++ nick ++ " ".toList
          ++ opts ++ "\n".toList ∧
      (newlineFree id → newlineFree nick → newlineFree dest → newlineFree opts →
        singleLine (Message.sessionCreate style id nick dest opts))) ∧
    (∀ (id : List Char) (silent : Bool), nulFree id →
      ("STREAM ACCEPT ID=".toList ++ id ++ " SILENT=".toList
        ++ (if silent then "true".toList else "false".toList) ++ "\n".toList).length < 65536 →
      Message.streamAccept id silent
        = "STREAM ACCEPT ID=".toList ++ id ++ " SILENT=".toList
          ++ (if silent then "true".toList else "false".toList) ++ "\n".toList ∧
      (newlineFree id → singleLine (Message.streamAccept id silent))) ∧
    (∀ (id dest : List Char) (silent : Bool), nulFree id → nulFree dest →
      ("STREAM CONNECT ID=".toList ++ id ++ " DESTINATION=".toList ++ dest ++ " SILENT=".toList
        ++ (if silent then "true".toList else "false".toList) ++ "\n".toList).length < 65536 →
      Message.streamConnect id dest silent
        = "STREAM CONNECT ID=".toList ++ id ++ " DESTINATION=".toList ++ dest
          ++ " SILENT=".toList ++ (if silent then "true".toList else "false".toList)
          ++ "\n".toList ∧
      (newlineFree id → newlineFree dest → singleLine (Message.streamConnect id dest silent))) ∧
    (∀ (id host : List Char) (port : Nat) (silent : Bool), nulFree id → nulFree host →
      ("STREAM FORWARD ID=".toList ++ id ++ " PORT=".toList ++ (Nat.repr port).toList
        ++ " HOST=".toList ++ host ++ " SILENT=".toList
        ++ (if silent then "true".toList else "false".toList) ++ "\n".toList).length < 65536 →
      Message.streamForward id host port silent
        = "STREAM FORWARD ID=".toList ++ id ++ " PORT=".toList ++ (Nat.repr port).toList
          ++ " HOST=".toList ++ host ++ " SILENT=".toList
          ++ (if silent then "true".toList else "false".toList) ++ "\n".toList ∧
      (newlineFree id → newlineFree host →
        singleLine (Message.streamForward id host port silent))) ∧
    (∀ name : List Char, nulFree name →
      ("NAMING LOOKUP NAME=".toList ++ name ++ "\n".toList).length < 65536 →
      Message.namingLookup name = "NAMING LOOKUP NAME=".toList ++ name ++ "\n".toList ∧
      (newlineFree name → singleLine (Message.namingLookup name))) ∧
    (Message.destGenerate = "DEST GENERATE\n".toList ∧ singleLine Message.destGenerate) := by
  refine ⟨?_, ?_, ?_, ?_, ?_, ?_, ?_⟩
  · intro min max h1 h2 hlen
    have hb : nulFree ("HELLO VERSION MIN=".toList ++ min ++ " MAX=".toList ++ max) := by
      repeat' apply nulFree_append
      all_goals first | assumption | decide
    obtain ⟨e, hs⟩ := request_of_body _ hb hlen
    simp only [Message.hello, cstr_of_nulFree min h1, cstr_of_nulFree max h2]
    refine ⟨e, fun n1 n2 => hs ?_⟩
    repeat' apply newlineFree_append
    all_goals first | assumption | decide
  · intro style id nick dest opts h1 h2 h3 h4 hlen
    have hst : cstr (styleName style) = styleName style :=
      cstr_of_nulFree _ (styleName_free style).1
    have hb : nulFree ("SESSION CREATE STYLE=".toList ++ styleName style ++ " ID=".toList ++ id
        ++ " DESTINATION=".toList ++ dest ++ " inbound.nickname=".toList ++ nick ++ " ".toList
        ++ opts) := by
      repeat' apply nulFree_append
      all_goals first | assumption | exact (styleName_free style).1 | decide
    obtain ⟨e, hs⟩ := request_of_body _ hb hlen
    have hdef : Message.sessionCreate style id nick dest opts
        = Message.createSAMRequest ("SESSION CREATE STYLE=".toList ++ cstr (styleName style)
          ++ " ID=".toList ++ cstr id ++ " DESTINATION=".toList ++ cstr dest
          ++ " inbound.nickname=".toList ++ cstr nick ++ " ".toList ++ cstr opts
          ++ "\n".toList) := by
      cases style <;> rfl
    rw [hdef, hst, cstr_of_nulFree id h1, cstr_of_nulFree nick h2, cstr_of_nulFree dest h3,
      cstr_of_nulFree opts h4]
    refine ⟨e, fun n1 n2 n3 n4 => hs ?_⟩
    repeat' apply newlineFree_append
    all_goals first | assumption | exact (styleName_free style).2 | decide
  · intro id silent h1 hlen
    rw [← boolText_eq] at hlen ⊢
    have hb : nulFree ("STREAM ACCEPT ID=".toList ++ id ++ " SILENT=".toList
        ++ Message.boolText silent) := by
      repeat' apply nulFree_append
      all_goals first | assumption | exact (boolText_free silent).1 | decide
    obtain ⟨e, hs⟩ := request_of_body _ hb hlen
    simp only [Message.streamAccept, cstr_of_nulFree id h1]
    refine ⟨e, fun n1 => hs ?_⟩
    repeat' apply newlineFree_append
    all_goals first | assumption | exact (boolText_free silent).2 | decide
  · intro id dest silent h1 h2 hlen
    rw [← boolText_eq] at hlen ⊢
    have hb : nulFree ("STREAM CONNECT ID=".toList ++ id ++ " DESTINATION=".toList ++ dest
        ++ " SILENT=".toList ++ Message.boolText silent) := by
      repeat' apply nulFree_append
      all_goals first | assumption | exact (boolText_free silent).1 | decide
    obtain ⟨e, hs⟩ := request_of_body _ hb hlen
    simp only [Message.streamConnect, cstr_of_nulFree id h1, cstr_of_nulFree dest h2]
    refine ⟨e, fun n1 n2 => hs ?_⟩
    repeat' apply newlineFree_append
    all_goals first | assumption | exact (boolText_free silent).2 | decide
  · intro id host port silent h1 h2 hlen
    rw [← boolText_eq] at hlen ⊢
    have hb : nulFree ("STREAM FORWARD ID=".toList ++ id ++ " PORT=".toList
        ++ (Nat.repr port).toList ++ " HOST=".toList ++ host ++ " SILENT=".toList
        ++ Message.boolText silent) := by
      repeat' apply nulFree_append
      all_goals first
        | assumption
        | exact (boolText_free silent).1
        | exact repr_nulFree port
        | decide
    obtain ⟨e, hs⟩ := request_of_body _ hb hlen
    simp only [Message.streamForward, cstr_of_nulFree id h1, cstr_of_nulFree host h2]
    refine ⟨e, fun n1 n2 => hs ?_⟩
    repeat' apply newlineFree_append
    all_goals first
      | assumption
      | exact (boolText_free silent).2
      | exact repr_newlineFree port
      | decide
  · intro name h1 hlen
    have hb : nulFree ("NAMING LOOKUP NAME=".toList ++ name) := by
      repeat' apply nulFree_append
      all_goals first | assumption | decide
    obtain ⟨e, hs⟩ := request_of_body _ hb hlen
    simp only [Message.namingLookup, cstr_of_nulFree name h1]
    refine ⟨e, fun n1 => hs ?_⟩
    repeat' apply newlineFree_append
    all_goals first | assumption | decide
  · have hb : nulFree "DEST GENERATE".toList := by decide
    obtain ⟨e, hs⟩ := request_of_body "DEST GENERATE".toList hb (by decide)
    exact ⟨e, hs (by decide)⟩

/-- C20 on the request `STREAM FORWARD ID=AB PORT=9001 HOST=h SILENT=true`. -/
theorem C20_request_builders_witness :
    Message.streamForward "AB".toList "h".toList 9001 true
      = "STREAM FORWARD ID=AB PORT=9001 HOST=h SILENT=true\n".toList ∧
    (Message.streamForward "AB".toList "h".toList 9001 true
        = "STREAM FORWARD ID=".toList ++ "AB".toList ++ " PORT=".toList ++ (Nat.repr 9001).toList
          ++ " HOST=".toList ++ "h".toList ++ " SILENT=".toList
          ++ (if true = true then "true".toList else "false".toList) ++ "\n".toList ∧
      (newlineFree "AB".toList → newlineFree "h".toList →
        singleLine (Message.streamForward "AB".toList "h".toList 9001 true))) :=
  ⟨by decide,
    C20_request_builders.2.2.2.2.1 "AB".toList "h".toList 9001 true (by decide) (by decide)
      (by decide)⟩

/-! ## Naming lookup end to end -/

theorem prefix_of_append_sep (pat a r : List Char) (c : Char) (hc : c ∉ pat)
    (h : pat <+: a ++ c :: r) : pat <+: a := by
  induction a generalizing pat with
  | nil =>
    cases pat with
    | nil => exact List.nil_prefix
    | cons p pt =>
      simp only [List.nil_append, List.cons_prefix_cons] at h
      exact absurd (h.1 ▸ List.mem_cons_self p pt) hc
  | cons x a ih =>
    cases pat with
    | nil => exact List.nil_prefix
    | cons p pt =>
      simp only [List.cons_append, List.cons_prefix_cons] at h ⊢
      exact ⟨h.1, ih pt (fun hm => hc (List.mem_cons_of_mem _ hm)) h.2⟩

theorem no_occurrence_before_sep (pat a r : List Char) (c : Char) (hpat : pat ≠ [])
    (hc : c ∉ pat) (hno : ∀ k, ¬ pat <+: a.drop k) :
    ∀ j, j < a.length + 1 → ¬ pat <+: (a ++ c :: r).drop j := by
  intro j hj h
  by_cases hlt : j < a.length
  · rw [List.drop_append_of_le_length (by omega)] at h
    exact hno j (prefix_of_append_sep pat _ r c hc h)
  · have hje : j = a.length := by omega
    rw [hje, List.drop_left] at h
    cases pat with
    | nil => exact hpat rfl
    | cons p pt =>
      simp only [List.cons_prefix_cons] at h
      exact hc (h.1 ▸ List.mem_cons_self p pt)

theorem no_occurrence_after_prefix (pat P n : List Char) (p : Char) (pt : List Char)
    (hpat : pat = p :: pt) (hp : p ∉ P) (hno : ∀ k, ¬ pat <+: n.drop k) :
    ∀ k, ¬ pat <+: (P ++ n).drop k := by
  subst hpat
  induction P with
  | nil => simpa using hno
  | cons x P ih =>
    intro k
    cases k with
    | zero =>
      intro h
      simp only [List.drop_zero, List.cons_append, List.cons_prefix_cons] at h
      exact hp (h.1 ▸ List.mem_cons_self x P)
    | succ k =>
      simp only [List.cons_append, List.drop_succ_cons]
      exact ih (fun hm => hp (List.mem_cons_of_mem _ hm)) k

theorem getValue_field (a key B : List Char) (hk : key ≠ []) (hsp : ' ' ∉ key)
    (hno : ∀ k, ¬ (key ++ "=".toList) <+: a.drop k)
    (hlen : (a ++ ' ' :: (key ++ "=".toList ++ B)).length < npos) :
    Message.getValue (a ++ ' ' :: (key ++ "=".toList ++ B)) key = delimited B := by
  have hpat : key ++ "=".toList ≠ [] := by simp
  have hspat : ' ' ∉ key ++ "=".toList := by
    simp only [List.mem_append, not_or]
    exact ⟨hsp, by decide⟩
  have hocc : occursAt (a ++ ' ' :: (key ++ "=".toList ++ B)) (key ++ "=".toList)
      (a.length + 1) := by
    unfold occursAt
    rw [show a ++ ' ' :: (key ++ "=".toList ++ B) = (a ++ [' ']) ++ (key ++ "=".toList ++ B) by
      simp]
    rw [List.drop_left' (by simp)]
    exact List.prefix_append _ _
  have hmin : ∀ j, j < a.length + 1 →
      ¬ occursAt (a ++ ' ' :: (key ++ "=".toList ++ B)) (key ++ "=".toList) j :=
    no_occurrence_before_sep _ a _ ' ' hpat hspat hno
  rw [getValue_present _ key hlen hk (a.length + 1) hocc hmin]
  congr 1
  rw [show a ++ ' ' :: (key ++ "=".toList ++ B) = (a ++ [' '] ++ (key ++ "=".toList)) ++ B by
    simp]
  rw [List.drop_left' (by simp; omega)]

theorem delimited_of_space (x rest : List Char) (hx : ' ' ∉ x) :
    delimited (x ++ ' ' :: rest) = x := by
  unfold delimited
  rw [if_pos (by simp)]
  induction x with
  | nil => simp
  | cons c x ih =>
    have hc : c ≠ ' ' := fun h => hx (h ▸ List.mem_cons_self c x)
    have hx1 : ' ' ∉ x := fun h => hx (List.mem_cons_of_mem _ h)
    simp [List.takeWhile_cons, hc, ih hx1]

theorem delimited_of_newline (x : List Char) (hs : ' ' ∉ x) (hn : '\n' ∉ x) :
    delimited (x ++ "\n".toList) = x := by
  unfold delimited
  have h1 : ' ' ∉ x ++ "\n".toList := by
    simp only [List.mem_append, not_or]
    exact ⟨hs, by decide⟩
  rw [if_neg h1, if_pos (by simp)]
  clear h1 hs
  induction x with
  | nil => simp
  | cons c x ih =>
    have hc : c ≠ '\n' := fun h => hn (h ▸ List.mem_cons_self c x)
    have hx1 : '\n' ∉ x := fun h => hn (List.mem_cons_of_mem _ h)
    have e := ih hx1
    simp only [List.cons_append, List.takeWhile_cons]
    rw [e]
    simp [hc]

theorem write_sent (s : Socket) (msg : List Char) (w : World) (k : Nat) (ss : List SendResult)
    (hs : s.isOk = true) (hw : w.sends = SendResult.sent (k + 1) :: ss) :
    s.write msg w = (s, { w with sends := ss, log := w.log ++ [msg] }) := by
  simp [Socket.write, hs, World.send, hw]

theorem read_some (s : Socket) (w : World) (data : List Char) (rs : List (Option (List Char)))
    (hs : s.isOk = true) (hw : w.recvs = some data :: rs) (hd : data ≠ []) :
    s.read w = (cstr (data.take SAM_BUFSIZE), s, { w with recvs := rs }) := by
  have hlen : ¬ (data.take SAM_BUFSIZE).length = 0 := by
    cases data with
    | nil => exact absurd rfl hd
    | cons c d => simp [SAM_BUFSIZE]
  simp only [Socket.read, hs, Bool.true_eq_false, if_false, World.recv, hw]
  rw [if_neg hlen]

theorem handshake_world (s : Socket) (w : World) :
    (s.handshake w).2
      = ((s.write (Message.hello s.minVer_ s.maxVer_) w).1.read
          (s.write (Message.hello s.minVer_ s.maxVer_) w).2).2.2 := by
  simp only [Socket.handshake]
  split <;> rfl

theorem construct_answered (s0 : Socket) (w : World) (fd k1 k2 : Nat)
    (helloReply reply : List Char) (hh : helloReply ≠ []) :
    (s0.construct (answeredWorld w fd k1 k2 helloReply reply)).1.isOk = true ∧
    (s0.construct (answeredWorld w fd k1 k2 helloReply reply)).2.sends
      = SendResult.sent (k2 + 1) :: w.sends ∧
    (s0.construct (answeredWorld w fd k1 k2 helloReply reply)).2.recvs
      = some reply :: w.recvs := by
  have hinit : s0.init (answeredWorld w fd k1 k2 helloReply reply)
      = (({ s0 with socket_ := some fd } : Socket),
          ({ w with
              sends := SendResult.sent (k1 + 1) :: SendResult.sent (k2 + 1) :: w.sends,
              recvs := some helloReply :: some reply :: w.recvs } : World)) := rfl
  have hok : ({ s0 with socket_ := some fd } : Socket).isOk = true := rfl
  simp only [Socket.construct, hinit]
  rw [if_pos hok]
  have hsock := handshake_socket ({ s0 with socket_ := some fd } : Socket)
    ({ w with
        sends := SendResult.sent (k1 + 1) :: SendResult.sent (k2 + 1) :: w.sends,
        recvs := some helloReply :: some reply :: w.recvs } : World)
  have hworld := handshake_world ({ s0 with socket_ := some fd } : Socket)
    ({ w with
        sends := SendResult.sent (k1 + 1) :: SendResult.sent (k2 + 1) :: w.sends,
        recvs := some helloReply :: some reply :: w.recvs } : World)
  rw [write_sent _ _ _ k1 (SendResult.sent (k2 + 1) :: w.sends) hok rfl] at hsock hworld
  rw [read_some _ _ helloReply (some reply :: w.recvs) hok rfl hh] at hsock hworld
  refine ⟨?_, ?_, ?_⟩
  · simp only [Socket.isOk, hsock]; rfl
  · rw [hworld]
  · rw [hworld]

theorem copy_answered (rhs : Socket) (w : World) (fd k1 k2 : Nat) (helloReply reply : List Char)
    (hh : helloReply ≠ []) :
    (Socket.copy rhs (answeredWorld w fd k1 k2 helloReply reply)).1.isOk = true ∧
    (Socket.copy rhs (answeredWorld w fd k1 k2 helloReply reply)).2.sends
      = SendResult.sent (k2 + 1) :: w.sends ∧
    (Socket.copy rhs (answeredWorld w fd k1 k2 helloReply reply)).2.recvs
      = some reply :: w.recvs :=
  construct_answered _ w fd k1 k2 helloReply reply hh

theorem rawRequest_answered (sk : Socket) (req : List Char) (w : World) (k : Nat)
    (ss : List SendResult) (data : List Char) (rs : List (Option (List Char)))
    (hs : sk.isOk = true) (hsend : w.sends = SendResult.sent (k + 1) :: ss)
    (hrecv : w.recvs = some data :: rs) (hd : data ≠ []) :
    (NewStreamSession.rawRequest sk req w).1
      = ⟨Message.checkAnswer (cstr (data.take SAM_BUFSIZE)), cstr (data.take SAM_BUFSIZE)⟩ := by
  simp only [NewStreamSession.rawRequest, hs, Bool.true_eq_false, if_false,
    write_sent sk req w k ss hs hsend,
    read_some sk { w with sends := ss, log := w.log ++ [req] } data rs hs hrecv hd]

theorem received_whole (data : List Char) (hn : nulFree data) (hlen : data.length < 65536) :
    cstr (data.take SAM_BUFSIZE) = data := by
  rw [List.take_of_length_le (by simp only [SAM_BUFSIZE]; omega)]
  exact cstr_of_nulFree data hn

theorem namingLookup_answered (s : NewStreamSession) (name : List Char) (w : World)
    (fd k1 k2 : Nat) (helloReply reply : List Char) (hh : helloReply ≠ [])
    (hr : reply ≠ []) (hn : nulFree reply) (hlen : reply.length < 65536) :
    (NewStreamSession.namingLookupOn
        (Socket.copy s.socket_ (answeredWorld w fd k1 k2 helloReply reply)).1 name
        (Socket.copy s.socket_ (answeredWorld w fd k1 k2 helloReply reply)).2).1
      = if Message.checkAnswer reply = eStatus.OK then
          ⟨eStatus.OK, Message.getValue reply "VALUE".toList⟩
        else ⟨Message.checkAnswer reply, reply⟩ := by
  obtain ⟨hok, hsend, hrecv⟩ := copy_answered s.socket_ w fd k1 k2 helloReply reply hh
  have hraw := rawRequest_answered _ (Message.namingLookup name) _ k2 w.sends reply w.recvs
    hok hsend hrecv hr
  rw [received_whole reply hn hlen] at hraw
  simp only [NewStreamSession.namingLookupOn, NewStreamSession.requestKey, hraw]
  split
  · rename_i h
    rw [h]
  · exact hraw

theorem no_result_in_head :
    ∀ k, ¬ ("RESULT".toList ++ "=".toList) <+: "NAMING REPLY".toList.drop k := by
  intro k
  by_cases hk : k < 12
  · interval_cases k <;> decide
  · rw [List.drop_eq_nil_of_le (by simp; omega)]
    decide

theorem namingReplyOk_result (n v : List Char) (hlen : (namingReplyOk n v).length < 65536) :
    Message.getValue (namingReplyOk n v) "RESULT".toList = "OK".toList := by
  have e : namingReplyOk n v
      = "NAMING REPLY".toList ++ ' ' :: ("RESULT".toList ++ "=".toList
          ++ ("OK".toList ++ ' ' :: ("NAME=".toList ++ n ++ " VALUE=".toList ++ v
            ++ "\n".toList))) := by
    simp [namingReplyOk]
  have hnp : npos = 2 ^ 64 - 1 := rfl
  rw [e] at hlen ⊢
  rw [getValue_field _ _ _ (by decide) (by decide) no_result_in_head (by omega)]
  exact delimited_of_space _ _ (by decide)

theorem namingReplyNotFound_result (n : List Char)
    (hlen : (namingReplyNotFound n).length < 65536) :
    Message.getValue (namingReplyNotFound n) "RESULT".toList = "KEY_NOT_FOUND".toList := by
  have e : namingReplyNotFound n
      = "NAMING REPLY".toList ++ ' ' :: ("RESULT".toList ++ "=".toList
          ++ ("KEY_NOT_FOUND".toList ++ ' ' :: ("NAME=".toList ++ n ++ "\n".toList))) := by
    simp [namingReplyNotFound]
  have hnp : npos = 2 ^ 64 - 1 := rfl
  rw [e] at hlen ⊢
  rw [getValue_field _ _ _ (by decide) (by decide) no_result_in_head (by omega)]
  exact delimited_of_space _ _ (by decide)

theorem namingReplyOk_value (n v : List Char) (hlen : (namingReplyOk n v).length < 65536)
    (hno : ∀ k, ¬ "VALUE=".toList <+: n.drop k) (hvs : ' ' ∉ v) (hvn : '\n' ∉ v) :
    Message.getValue (namingReplyOk n v) "VALUE".toList = v := by
  have e : namingReplyOk n v
      = ("NAMING REPLY RESULT=OK NAME=".toList ++ n) ++ ' ' :: ("VALUE".toList ++ "=".toList
          ++ (v ++ "\n".toList)) := by
    simp [namingReplyOk]
  have hnp : npos = 2 ^ 64 - 1 := rfl
  have hno2 : ∀ k, ¬ ("VALUE".toList ++ "=".toList)
      <+: ("NAMING REPLY RESULT=OK NAME=".toList ++ n).drop k :=
    no_occurrence_after_prefix _ _ n 'V' "ALUE=".toList rfl (by decide) hno
  rw [e] at hlen ⊢
  rw [getValue_field _ _ _ (by decide) (by decide) hno2 (by omega)]
  exact delimited_of_newline v hvs hvn

theorem namingReplyOk_status (n v : List Char) (hlen : (namingReplyOk n v).length < 65536) :
    Message.checkAnswer (namingReplyOk n v) = eStatus.OK := by
  have hne : namingReplyOk n v ≠ [] := by simp [namingReplyOk]
  unfold Message.checkAnswer
  rw [if_neg hne]
  simp only [namingReplyOk_result n v hlen, if_true]

theorem namingReplyNotFound_status (n : List Char)
    (hlen : (namingReplyNotFound n).length < 65536) :
    Message.checkAnswer (namingReplyNotFound n) = eStatus.KEY_NOT_FOUND := by
  have hne : namingReplyNotFound n ≠ [] := by simp [namingReplyNotFound]
  unfold Message.checkAnswer
  rw [if_neg hne]
  simp only [namingReplyNotFound_result n hlen]
  decide

theorem adapter_namingLookup_healthy (fuel : Nat) (s : NewStreamSession) (name : List Char)
    (w : World) (hs : s.isSick = false) :
    StreamSessionAdapter.namingLookup fuel ⟨⟨s⟩⟩ name w
      = some (if (s.namingLookup name w).1.isOk then (s.namingLookup name w).1.value.getD []
              else [], ⟨⟨(s.namingLookup name w).2.1⟩⟩, (s.namingLookup name w).2.2) := by
  simp [StreamSessionAdapter.namingLookup, SessionHolder.getSession, SessionHolder.heal, hs]

/-- C15, amended: for a healthy session, a name `n` and a value `v` without NUL characters,
`v` free of spaces and newlines, `n` not containing the text `VALUE=`, and a reply shorter than
the receive buffer, when the fresh control socket connects, gets some reply to HELLO and the
bridge answers the lookup with `NAMING REPLY RESULT=OK NAME=n VALUE=v`, the supervisor's
`namingLookup(n)` returns exactly `v` and the held session is unchanged, so still healthy; when
the bridge answers `NAMING REPLY RESULT=KEY_NOT_FOUND NAME=n` it returns the empty string and
the held session is unchanged. -/
theorem C15_naming_lookup_amended (fuel : Nat) (s : NewStreamSession) (w : World)
    (fd k1 k2 : Nat) (helloReply n v : List Char) (hs : s.isSick = false)
    (hh : helloReply ≠ []) (hn : nulFree n) (hv : nulFree v) (hvs : ' ' ∉ v) (hvn : '\n' ∉ v)
    (hno : ∀ k, ¬ "VALUE=".toList <+: n.drop k) :
    ((namingReplyOk n v).length < 65536 →
      (StreamSessionAdapter.namingLookup fuel ⟨⟨s⟩⟩ n
          (answeredWorld w fd k1 k2 helloReply (namingReplyOk n v))).map
          (fun r => (r.1, r.2.1.sessionHolder_.session_))
        = some (v, s)) ∧
    ((namingReplyNotFound n).length < 65536 →
      (StreamSessionAdapter.namingLookup fuel ⟨⟨s⟩⟩ n
          (answeredWorld w fd k1 k2 helloReply (namingReplyNotFound n))).map
          (fun r => (r.1, r.2.1.sessionHolder_.session_))
        = some ([], s)) := by
  constructor
  · intro hlen
    have hnul : nulFree (namingReplyOk n v) := by
      unfold namingReplyOk
      repeat' apply nulFree_append
      all_goals first | assumption | decide
    have hne : namingReplyOk n v ≠ [] := by simp [namingReplyOk]
    have hans := namingLookup_answered s n w fd k1 k2 helloReply _ hh hne hnul hlen
    rw [if_pos (namingReplyOk_status n v hlen), namingReplyOk_value n v hlen hno hvs hvn] at hans
    rw [adapter_namingLookup_healthy fuel s n _ hs]
    simp only [NewStreamSession.namingLookup, hans, RequestResult.ok, Option.map_some',
      if_true, Option.getD_some]
  · intro hlen
    have hnul : nulFree (namingReplyNotFound n) := by
      unfold namingReplyNotFound
      repeat' apply nulFree_append
      all_goals first | assumption | decide
    have hne : namingReplyNotFound n ≠ [] := by simp [namingReplyNotFound]
    have hans := namingLookup_answered s n w fd k1 k2 helloReply _ hh hne hnul hlen
    have hst := namingReplyNotFound_status n hlen
    rw [if_neg (by rw [hst]; decide), hst] at hans
    rw [adapter_namingLookup_healthy fuel s n _ hs]
    simp only [NewStreamSession.namingLookup, hans, RequestResult.failed, Option.map_some',
      Bool.false_eq_true, if_false]

/-- C15 as stated fails: the name `VALUE=x` and the value `abc` are free of spaces and
newlines, the bridge answers `NAMING REPLY RESULT=OK NAME=VALUE=x VALUE=abc`, and the
supervisor's `namingLookup` returns `x`. -/
theorem C15_naming_lookup_counterexample :
    healthySession.isSick = false ∧
    valueInNameWorld.recvs
      = [some "HELLO REPLY RESULT=OK VERSION=3.1\n".toList,
          some "NAMING REPLY RESULT=OK NAME=VALUE=x VALUE=abc\n".toList] ∧
    (StreamSessionAdapter.namingLookup 1 ⟨⟨healthySession⟩⟩ "VALUE=x".toList
        valueInNameWorld).map (fun r => r.1) = some "x".toList ∧
    "x".toList ≠ "abc".toList := by
  decide

/-- C15, amended, on the lookup of `example.i2p` answered with the value `abc`. -/
theorem C15_naming_lookup_amended_witness :
    (namingReplyOk "example.i2p".toList "abc".toList).length < 65536 ∧
    (StreamSessionAdapter.namingLookup 1 ⟨⟨healthySession⟩⟩ "example.i2p".toList
        exampleLookupWorld).map (fun r => (r.1, r.2.1.sessionHolder_.session_))
      = some ("abc".toList, healthySession) :=
  ⟨by decide,
    (C15_naming_lookup_amended 1 healthySession
      { connects := [], sends := [], recvs := [], rand := [], log := [] } 5 29 30
      "HELLO REPLY RESULT=OK VERSION=3.1\n".toList "example.i2p".toList "abc".toList
      (by decide) (by decide) (by decide) (by decide) (by decide) (by decide)
      (by
        intro k
        by_cases hk : k < 11
        · interval_cases k <;> decide
        · rw [List.drop_eq_nil_of_le (by simp; omega)]
          decide)).1 (by decide)⟩

/-! ## Generated flag -/

/-- C21: when the SESSION CREATE reply of the constructor classifies as OK, the constructor
returns a session whose stored destination has its generated flag set exactly when the
destination specifier passed by the caller is the literal `TRANSIENT`, and whose `priv` is the
`DESTINATION` value of the reply. -/
theorem C21_generated_flag (nickname SAMHost : List Char) (SAMPort : Nat)
    (destination i2pOptions minVer maxVer : List Char) (w : World)
    (h : NewStreamSession.newStatus nickname SAMHost SAMPort destination i2pOptions minVer maxVer w
      = some eStatus.OK) :
    ∃ (r : NewStreamSession × World) (reply : List Char),
      NewStreamSession.new nickname SAMHost SAMPort destination i2pOptions minVer maxVer w = some r ∧
      NewStreamSession.newReply nickname SAMHost SAMPort destination i2pOptions minVer maxVer w
        = some reply ∧
      (r.1.getMyDestination.isGenerated = true ↔ destination = "TRANSIENT".toList) ∧
      r.1.getMyDestination.priv = Message.getValue reply "DESTINATION".toList := by
  simp only [NewStreamSession.newStatus] at h
  simp only [NewStreamSession.new, NewStreamSession.newReply]
  cases hg : NewStreamSession.generateSessionID
      (Socket.new SAMHost SAMPort minVer maxVer w).2.rand with
  | none => simp [hg] at h
  | some g =>
    simp only [hg, Option.some.injEq] at h
    obtain ⟨hd, _⟩ := (createStreamSession_effect _ _ _).2 h
    have hv := createValue_eq _ _ _ h
    refine ⟨_, _, rfl, rfl, ?_, ?_⟩
    · simp only [NewStreamSession.getMyDestination, hd, SAM_GENERATE_MY_DESTINATION,
        decide_eq_true_eq]
    · simp only [NewStreamSession.getMyDestination, hd, hv]
      rfl

/-- C21 on the run `shortDestinationWorld`, where the caller passes `TRANSIENT`. -/
theorem C21_generated_flag_witness :
    NewStreamSession.newStatus "nick".toList "127.0.0.1".toList 7656 "TRANSIENT".toList []
        "3.0".toList "3.1".toList shortDestinationWorld = some eStatus.OK ∧
    ∃ (r : NewStreamSession × World) (reply : List Char),
      NewStreamSession.new "nick".toList "127.0.0.1".toList 7656 "TRANSIENT".toList []
          "3.0".toList "3.1".toList shortDestinationWorld = some r ∧
      NewStreamSession.newReply "nick".toList "127.0.0.1".toList 7656 "TRANSIENT".toList []
          "3.0".toList "3.1".toList shortDestinationWorld = some reply ∧
      (r.1.getMyDestination.isGenerated = true ↔ "TRANSIENT".toList = "TRANSIENT".toList) ∧
      r.1.getMyDestination.priv = Message.getValue reply "DESTINATION".toList :=
  ⟨by decide,
    C21_generated_flag "nick".toList "127.0.0.1".toList 7656 "TRANSIENT".toList []
      "3.0".toList "3.1".toList shortDestinationWorld (by decide)⟩

/-! ## Forward list -/

theorem forward_list (s : NewStreamSession) (host : List Char) (port : Nat) (silent : Bool)
    (w : World) :
    (s.forwardStatus host port silent w = eStatus.OK →
      ∃ socket : Socket,
        (s.forward host port silent w).2.1.forwardedStreams_
          = s.forwardedStreams_ ++ [⟨socket, host, port, silent⟩]) ∧
    (s.forwardStatus host port silent w ≠ eStatus.OK →
      (s.forward host port silent w).2.1.forwardedStreams_ = s.forwardedStreams_) := by
  simp only [NewStreamSession.forward, NewStreamSession.forwardStatus]
  split <;> rename_i h <;> simp_all [NewStreamSession.fallSick]

/-- C22: `forward(h, p, s)` with status OK appends the single record `(h, p, s)` at the end of
the forward list and returns success; with any other status it leaves the list unchanged and
returns failure; accept, connect, namingLookup and destGenerate never change the list. -/
theorem C22_forward_list_effect (s : NewStreamSession) (h : List Char) (p : Nat) (sl : Bool)
    (w : World) :
    (s.forwardStatus h p sl w = eStatus.OK →
      (∃ socket : Socket,
        (s.forward h p sl w).2.1.forwardedStreams_
          = s.forwardedStreams_ ++ [⟨socket, h, p, sl⟩]) ∧
      (s.forward h p sl w).2.1.forwardedStreams_.map ForwardedStream.triple
        = s.forwardedStreams_.map ForwardedStream.triple ++ [(h, p, sl)] ∧
      (s.forward h p sl w).1.isOk = true) ∧
    (s.forwardStatus h p sl w ≠ eStatus.OK →
      (s.forward h p sl w).2.1.forwardedStreams_ = s.forwardedStreams_ ∧
      (s.forward h p sl w).1.isOk = false) ∧
    (∀ silent, (s.accept silent w).2.1.forwardedStreams_ = s.forwardedStreams_) ∧
    (∀ destination silent,
      (s.connect destination silent w).2.1.forwardedStreams_ = s.forwardedStreams_) ∧
    (∀ name, (s.namingLookup name w).2.1.forwardedStreams_ = s.forwardedStreams_) ∧
    (s.destGenerate w).2.1.forwardedStreams_ = s.forwardedStreams_ := by
  obtain ⟨_, f2, f3⟩ := forward_effect s h p sl w
  obtain ⟨l1, l2⟩ := forward_list s h p sl w
  refine ⟨?_, ?_, ?_, ?_, ?_, ?_⟩
  · intro hst
    refine ⟨l1 hst, ?_, ?_⟩
    · rw [f3, if_pos hst]
    · rw [f2]; simp [hst]
  · intro hst
    refine ⟨l2 hst, ?_⟩
    rw [f2]; simp [hst]
  · intro silent
    exact (accept_effect s silent w).2.2
  · intro destination silent
    exact (connect_effect s destination silent w).2.2
  · intro name
    exact (namingLookup_effect s name w).2.2
  · exact (destGenerate_effect s w).2.2

/-- C22 on the run `forwardOkWorld`: the forward is registered. -/
theorem C22_forward_list_effect_witness :
    healthySession.forwardStatus "127.0.0.1".toList 9001 false forwardOkWorld = eStatus.OK ∧
    (healthySession.forward "127.0.0.1".toList 9001 false
        forwardOkWorld).2.1.forwardedStreams_.map ForwardedStream.triple
      = healthySession.forwardedStreams_.map ForwardedStream.triple
        ++ [("127.0.0.1".toList, 9001, false)] ∧
    (healthySession.forward "127.0.0.1".toList 9001 false forwardOkWorld).1.isOk = true :=
  ⟨by decide,
    ((C22_forward_list_effect healthySession "127.0.0.1".toList 9001 false forwardOkWorld).1
      (by decide)).2⟩

/-! ## DEST GENERATE -/

/-- C23: on a closed socket the static `destGenerate` returns `CLOSED_SOCKET` with a blank
destination and sends nothing; on an open socket it returns OK with the destination
`(PUB value, PRIV value, generated)` exactly when both values of the reply are non-empty, and
`EMPTY_ANSWER` with a blank destination otherwise; it returns no other status; and the
supervisor's `destGenerate` returns the blank pair whenever the status is not OK. -/
theorem C23_destGenerate_parsing :
    (∀ (socket : Socket) (w : World), socket.isOk = false →
      (NewStreamSession.destGenerateOn socket w).1.status = eStatus.CLOSED_SOCKET ∧
      (NewStreamSession.destGenerateOn socket w).1.value = FullDestination.blank ∧
      (NewStreamSession.destGenerateOn socket w).2 = (socket, w)) ∧
    (∀ (socket : Socket) (w : World), socket.isOk = true →
      ((NewStreamSession.destGenerateOn socket w).1.status = eStatus.OK ↔
        Message.getValue (destReply socket w) "PUB".toList ≠ [] ∧
          Message.getValue (destReply socket w) "PRIV".toList ≠ []) ∧
      ((NewStreamSession.destGenerateOn socket w).1.status = eStatus.OK →
        (NewStreamSession.destGenerateOn socket w).1.value
          = ⟨Message.getValue (destReply socket w) "PUB".toList,
              Message.getValue (destReply socket w) "PRIV".toList, true⟩) ∧
      ((NewStreamSession.destGenerateOn socket w).1.status ≠ eStatus.OK →
        (NewStreamSession.destGenerateOn socket w).1.status = eStatus.EMPTY_ANSWER ∧
        (NewStreamSession.destGenerateOn socket w).1.value = FullDestination.blank)) ∧
    (∀ (socket : Socket) (w : World),
      (NewStreamSession.destGenerateOn socket w).1.status = eStatus.OK ∨
      (NewStreamSession.destGenerateOn socket w).1.status = eStatus.EMPTY_ANSWER ∨
      (NewStreamSession.destGenerateOn socket w).1.status = eStatus.CLOSED_SOCKET) ∧
    (∀ (fuel : Nat) (a : StreamSessionAdapter) (w : World) (h : SessionHolder × World),
      a.sessionHolder_.getSession fuel w = some h →
      h.1.session_.destGenerateStatus h.2 ≠ eStatus.OK →
      (a.destGenerate fuel w).map (fun r => r.1) = some FullDestination.blank) := by
  refine ⟨?_, ?_, ?_, ?_⟩
  · intro socket w hs
    simp [NewStreamSession.destGenerateOn, hs]
  · intro socket w hs
    simp only [NewStreamSession.destGenerateOn, hs, Bool.true_eq_false, if_false, destReply]
    split
    · rename_i hb
      exact ⟨⟨fun _ => hb, fun _ => rfl⟩, fun _ => rfl, fun hne => absurd rfl hne⟩
    · rename_i hb
      refine ⟨⟨fun hc => ?_, fun hc => absurd hc hb⟩, fun hc => ?_, fun _ => ⟨rfl, rfl⟩⟩
      · exact absurd (show eStatus.EMPTY_ANSWER = eStatus.OK from hc) (by decide)
      · exact absurd (show eStatus.EMPTY_ANSWER = eStatus.OK from hc) (by decide)
  · intro socket w
    simp only [NewStreamSession.destGenerateOn]
    split
    · exact Or.inr (Or.inr rfl)
    · split
      · exact Or.inl rfl
      · exact Or.inr (Or.inl rfl)
  · intro fuel a w h hg hst
    have hok : (h.1.session_.destGenerate h.2).1.isOk = false := by
      rw [(destGenerate_effect h.1.session_ h.2).2.1]
      simp [hst]
    simp only [StreamSessionAdapter.destGenerate, hg, Option.map_some', hok,
      Bool.false_eq_true, if_false]

/-- C23 on the run `destWithoutPrivWorld`: the reply has no `PRIV`, the status is
`EMPTY_ANSWER` and the supervisor returns the blank pair. -/
theorem C23_destGenerate_parsing_witness :
    SessionHolder.getSession 1 ⟨healthySession⟩ destWithoutPrivWorld
      = some (⟨healthySession⟩, destWithoutPrivWorld) ∧
    healthySession.destGenerateStatus destWithoutPrivWorld = eStatus.EMPTY_ANSWER ∧
    (StreamSessionAdapter.destGenerate 1 ⟨⟨healthySession⟩⟩ destWithoutPrivWorld).map
        (fun r => r.1) = some FullDestination.blank :=
  ⟨by decide, by decide,
    C23_destGenerate_parsing.2.2.2 1 ⟨⟨healthySession⟩⟩ destWithoutPrivWorld
      (⟨healthySession⟩, destWithoutPrivWorld) (by decide) (by decide)⟩

/-! ## Delimiters of a value -/

theorem delimited_no_space (rest : List Char) : ' ' ∉ delimited rest := by
  unfold delimited
  split
  · intro h
    have := List.mem_takeWhile_imp h
    simp at this
  · rename_i hs
    split
    · intro h
      exact hs ((List.takeWhile_sublist _).subset h)
    · exact hs

theorem delimited_newline (rest : List Char) (h : '\n' ∈ delimited rest) : ' ' ∈ rest := by
  unfold delimited at h
  split at h
  · assumption
  · split at h
    · have := List.mem_takeWhile_imp h
      simp at this
    · rename_i hn
      exact absurd h hn

theorem delimited_subset (rest : List Char) : ∀ c, c ∈ delimited rest → c ∈ rest := by
  intro c h
  unfold delimited at h
  split at h
  · exact (List.takeWhile_sublist _).subset h
  · split at h
    · exact (List.takeWhile_sublist _).subset h
    · exact h

theorem getValue_cases (answer key : List Char) (hlen : answer.length < npos) :
    Message.getValue answer key = [] ∨
    ∃ i, key ≠ [] ∧ occursAt answer (key ++ "=".toList) i ∧
      (∀ j, j < i → ¬ occursAt answer (key ++ "=".toList) j) ∧
      Message.getValue answer key = delimited (answer.drop (i + key.length + 1)) := by
  by_cases hk : key = []
  · left; simp [Message.getValue, hk]
  · by_cases hex : ∃ i, occursAt answer (key ++ "=".toList) i
    · right
      refine ⟨Nat.find hex, hk, Nat.find_spec hex, fun j hj => Nat.find_min hex hj, ?_⟩
      exact getValue_present answer key hlen hk _ (Nat.find_spec hex)
        (fun j hj => Nat.find_min hex hj)
    · left
      exact getValue_absent answer key (fun i hi => hex ⟨i, hi⟩)

/-- C24, amended: the value returned by `getValue(answer, key)` contains no space; it contains
a newline only when a space follows in the answer (the value then runs up to that space), so
it contains no newline when the text after the start of the value holds no space. -/
theorem C24_value_delimiters_amended (answer key : List Char) (hlen : answer.length < npos) :
    ' ' ∉ Message.getValue answer key ∧
    ('\n' ∈ Message.getValue answer key → ' ' ∈ answer) ∧
    (∀ i, key ≠ [] → occursAt answer (key ++ "=".toList) i →
      (∀ j, j < i → ¬ occursAt answer (key ++ "=".toList) j) →
      ' ' ∉ answer.drop (i + key.length + 1) → '\n' ∉ Message.getValue answer key) := by
  refine ⟨?_, ?_, ?_⟩
  · rcases getValue_cases answer key hlen with h | ⟨i, _, _, _, h⟩
    · rw [h]; simp
    · rw [h]; exact delimited_no_space _
  · intro hn
    rcases getValue_cases answer key hlen with h | ⟨i, _, _, _, h⟩
    · rw [h] at hn; simp at hn
    · rw [h] at hn
      exact List.mem_of_mem_drop (delimited_newline _ hn)
  · intro i hk hi hmin hs hn
    rw [getValue_present answer key hlen hk i hi hmin] at hn
    exact hs (delimited_newline _ hn)

/-- C24 as stated fails: in the answer `A=1`, newline, `B=2 C` the first space after the value
of `A` comes after the newline, and the value of `A` contains the newline. -/
theorem C24_value_delimiters_counterexample :
    Message.getValue "A=1\nB=2 C".toList "A".toList = "1\nB=2".toList ∧
    '\n' ∈ Message.getValue "A=1\nB=2 C".toList "A".toList := by
  decide

/-- C24, amended, on the answer `X Y A=1 B=2` and the key `B`. -/
theorem C24_value_delimiters_amended_witness :
    "X Y A=1 B=2\n".toList.length < npos ∧
    ' ' ∉ Message.getValue "X Y A=1 B=2\n".toList "B".toList ∧
    '\n' ∉ Message.getValue "X Y A=1 B=2\n".toList "B".toList :=
  ⟨by decide,
    (C24_value_delimiters_amended "X Y A=1 B=2\n".toList "B".toList (by decide)).1,
    (C24_value_delimiters_amended "X Y A=1 B=2\n".toList "B".toList (by decide)).2.2 8
      (by decide) (by decide) (by decide) (by decide)⟩

/-! ## Classification of replies without a result -/

/-- C25, amended: `checkAnswer` returns `EMPTY_ANSWER` exactly for the empty reply; a non-empty
reply that contains no occurrence of `RESULT=` is classified `CANNOT_PARSE_ERROR`. -/
theorem C25_empty_answer_amended (answer : List Char) :
    (Message.checkAnswer answer = eStatus.EMPTY_ANSWER ↔ answer = []) ∧
    (answer ≠ [] → (∀ i, ¬ occursAt answer "RESULT=".toList i) →
      Message.checkAnswer answer = eStatus.CANNOT_PARSE_ERROR) := by
  constructor
  · constructor
    · intro h
      by_contra hne
      rcases checkAnswer_cases answer hne with ⟨K, hK, _, hc⟩ | ⟨_, hc⟩
      · rw [hc] at h; subst h; exact absurd hK (by decide)
      · rw [hc] at h; exact absurd h (by decide)
    · intro h
      simp [Message.checkAnswer, h]
  · intro hne hno
    have hres : Message.getValue answer "RESULT".toList = [] :=
      getValue_absent answer "RESULT".toList hno
    unfold Message.checkAnswer
    rw [if_neg hne]
    simp only [hres]
    decide

/-- C25 as stated fails: the reply `DEST REPLY PUB=a PRIV=b` is not empty and holds no
`RESULT=`, and `checkAnswer` returns `CANNOT_PARSE_ERROR`. -/
theorem C25_empty_answer_counterexample :
    "DEST REPLY PUB=a PRIV=b\n".toList ≠ [] ∧
    find "DEST REPLY PUB=a PRIV=b\n".toList "RESULT=".toList = npos ∧
    (∀ i, i < "DEST REPLY PUB=a PRIV=b\n".toList.length →
      ¬ occursAt "DEST REPLY PUB=a PRIV=b\n".toList "RESULT=".toList i) ∧
    Message.checkAnswer "DEST REPLY PUB=a PRIV=b\n".toList = eStatus.CANNOT_PARSE_ERROR := by
  decide

/-- C25, amended, on the reply `DEST REPLY PUB=a PRIV=b`. -/
theorem C25_empty_answer_amended_witness :
    "DEST REPLY PUB=a PRIV=b\n".toList ≠ [] ∧
    Message.checkAnswer "DEST REPLY PUB=a PRIV=b\n".toList = eStatus.CANNOT_PARSE_ERROR :=
  ⟨by decide,
    (C25_empty_answer_amended "DEST REPLY PUB=a PRIV=b\n".toList).2 (by decide)
      (by
        intro i
        by_cases hi : i < 24
        · interval_cases i <;> decide
        · unfold occursAt
          rw [List.drop_eq_nil_of_le (by simp; omega)]
          decide)⟩

/-! ## Termination of the session-id generator -/

theorem streamPrefix_length (rand : Nat → Nat) (n : Nat) : (streamPrefix rand n).length = n := by
  simp [streamPrefix]

theorem streamPrefix_getD (rand : Nat → Nat) (n j : Nat) (hj : j < n) :
    (streamPrefix rand n).getD j 0 = rand j := by
  have hlt : j < (streamPrefix rand n).length := by rw [streamPrefix_length]; exact hj
  rw [List.getD_eq_getElem _ _ hlt]
  simp [streamPrefix]

theorem firstLengthAt_stream (rand : Nat → Nat) (n k : Nat) :
    firstLengthAt (streamPrefix rand n) k ↔
      k < n ∧ (∀ j, j < k → rand j % 9 < 5) ∧ 5 ≤ rand k % 9 := by
  unfold firstLengthAt
  rw [streamPrefix_length]
  constructor
  · rintro ⟨h1, h2, h3⟩
    refine ⟨h1, fun j hj => ?_, ?_⟩
    · have := h2 j hj
      rwa [streamPrefix_getD rand n j (by omega)] at this
    · rwa [streamPrefix_getD rand n k h1] at h3
  · rintro ⟨h1, h2, h3⟩
    refine ⟨h1, fun j hj => ?_, ?_⟩
    · rw [streamPrefix_getD rand n j (by omega)]; exact h2 j hj
    · rw [streamPrefix_getD rand n k h1]; exact h3

theorem first_unique (rand : Nat → Nat) (k k2 : Nat) (hk : 5 ≤ rand k % 9)
    (hmin : ∀ j, j < k → rand j % 9 < 5) (hk2 : 5 ≤ rand k2 % 9)
    (hmin2 : ∀ j, j < k2 → rand j % 9 < 5) : k2 = k := by
  rcases Nat.lt_trichotomy k2 k with h | h | h
  · have := hmin k2 h; omega
  · exact h
  · have := hmin2 k h; omega

theorem generateSessionID_stream (rand : Nat → Nat) (k : Nat) (hk : 5 ≤ rand k % 9)
    (hmin : ∀ j, j < k → rand j % 9 < 5) (n : Nat) :
    ((NewStreamSession.generateSessionID (streamPrefix rand n)).isSome = true ↔
      k + 1 + rand k % 9 ≤ n) ∧
    (∀ id rest, NewStreamSession.generateSessionID (streamPrefix rand n) = some (id, rest) →
      rest = (streamPrefix rand n).drop (k + 1 + rand k % 9) ∧
      rest.length = n - (k + 1 + rand k % 9) ∧ id.length = rand k % 9) := by
  have key : ∀ id rest,
      NewStreamSession.generateSessionID (streamPrefix rand n) = some (id, rest) →
      k + 1 + rand k % 9 ≤ n ∧ rest = (streamPrefix rand n).drop (k + 1 + rand k % 9) ∧
      id.length = rand k % 9 := by
    intro id rest h
    obtain ⟨k2, hf, hle, hid, hrest⟩ := generateSessionID_some _ id rest h
    obtain ⟨h1, h2, h3⟩ := (firstLengthAt_stream rand n k2).mp hf
    have hkk : k2 = k := first_unique rand k k2 hk hmin h3 h2
    subst hkk
    rw [streamPrefix_getD rand n k2 h1] at hle hid hrest
    rw [streamPrefix_length] at hle
    refine ⟨hle, hrest, ?_⟩
    rw [hid, List.length_map, List.length_take, List.length_drop, streamPrefix_length]
    omega
  constructor
  · constructor
    · intro h
      cases hg : NewStreamSession.generateSessionID (streamPrefix rand n) with
      | none => rw [hg] at h; exact absurd h (by simp)
      | some r => exact (key r.1 r.2 hg).1
    · intro hle
      have hf : firstLengthAt (streamPrefix rand n) k :=
        (firstLengthAt_stream rand n k).mpr ⟨by omega, hmin, hk⟩
      have hle2 : k + 1 + (streamPrefix rand n).getD k 0 % 9 ≤ (streamPrefix rand n).length := by
        rw [streamPrefix_getD rand n k (by omega), streamPrefix_length]; exact hle
      rw [generateSessionID_returns _ k hf hle2]
      rfl
  · intro id rest h
    obtain ⟨h1, h2, h3⟩ := key id rest h
    refine ⟨h2, ?_, h3⟩
    rw [h2, List.length_drop, streamPrefix_length]

/-- C26: on a stream of `rand()` values, `generateSessionID` returns after finitely many draws
if and only if some element `r` of the stream has `r % 9 >= 5`; when the first such element is
at position `k` with `r % 9 = l`, it returns exactly when the first `k + 1 + l` elements are
there and consumes exactly those; the character loop always ends once its `l` draws are there,
and without such an element the length-selection loop never ends. -/
theorem C26_generator_termination (rand : Nat → Nat) :
    (terminatesOn rand ↔ ∃ k, 5 ≤ rand k % 9) ∧
    (∀ k, 5 ≤ rand k % 9 → (∀ j, j < k → rand j % 9 < 5) → ∀ n,
      ((NewStreamSession.generateSessionID (streamPrefix rand n)).isSome = true ↔
        k + 1 + rand k % 9 ≤ n) ∧
      (∀ id rest, NewStreamSession.generateSessionID (streamPrefix rand n) = some (id, rest) →
        rest = (streamPrefix rand n).drop (k + 1 + rand k % 9) ∧
        rest.length = n - (k + 1 + rand k % 9) ∧ id.length = rand k % 9)) ∧
    (∀ (l : Nat) (result : List Char) (n : Nat),
      (NewStreamSession.charLoop l result (streamPrefix rand n)).isSome = true ↔ l ≤ n) ∧
    ((∀ k, rand k % 9 < 5) → ∀ n length, length < 5 →
      NewStreamSession.lengthLoop length (streamPrefix rand n) = none) := by
  refine ⟨?_, fun k hk hmin n => generateSessionID_stream rand k hk hmin n, ?_, ?_⟩
  · constructor
    · rintro ⟨n, hn⟩
      cases hg : NewStreamSession.generateSessionID (streamPrefix rand n) with
      | none => rw [hg] at hn; exact absurd hn (by simp)
      | some r =>
        obtain ⟨k, hf, _⟩ := generateSessionID_some _ r.1 r.2 hg
        exact ⟨k, ((firstLengthAt_stream rand n k).mp hf).2.2⟩
    · intro hex
      have hk := Nat.find_spec hex
      have hmin : ∀ j, j < Nat.find hex → rand j % 9 < 5 := fun j hj => by
        have := Nat.find_min hex hj
        omega
      exact ⟨Nat.find hex + 1 + rand (Nat.find hex) % 9,
        (generateSessionID_stream rand _ hk hmin _).1.mpr (Nat.le_refl _)⟩
  · intro l result n
    rw [charLoop_eq, streamPrefix_length]
    by_cases h : l ≤ n
    · simp [h]
    · simp [h]
  · intro hall n length hlen
    cases hl : NewStreamSession.lengthLoop length (streamPrefix rand n) with
    | none => rfl
    | some r =>
      obtain ⟨k, hf, _⟩ := lengthLoop_some _ length r.1 r.2 hlen hl
      have := ((firstLengthAt_stream rand n k).mp hf).2.2
      have := hall k
      omega

/-- C26 on the constant stream `14, 14, ...`: the first element has `14 % 9 = 5`, and the
generator returns exactly when six elements are there. -/
theorem C26_generator_termination_witness :
    5 ≤ (fun _ : Nat => 14) 0 % 9 ∧
    ((NewStreamSession.generateSessionID (streamPrefix (fun _ => 14) 6)).isSome = true ↔
      0 + 1 + (fun _ : Nat => 14) 0 % 9 ≤ 6) ∧
    NewStreamSession.generateSessionID (streamPrefix (fun _ => 14) 6)
      = some ("OOOOO".toList, []) ∧
    NewStreamSession.generateSessionID (streamPrefix (fun _ => 14) 5) = none :=
  ⟨by decide,
    ((C26_generator_termination (fun _ => 14)).2.1 0 (by decide)
      (fun j hj => absurd hj (Nat.not_lt_zero j)) 6).1,
    by decide, by decide⟩

end SAM
